import Mathlib

/-!
# Dodge Machina: the per-frame simulation

A shallow embedding of `src/dodge-machina.cpp` (the body of the main loop, the entity
factories, `update_bullets` and the four collision checks) and of `src/utils/math.hpp`.

Conventions of the embedding.

* `float` values are rationals (exact arithmetic, no rounding, no NaN).
* `int` values are integers without overflow; `frames_count`, an
  `unsigned long long`, is a natural number kept below `2 ^ 64`.
* `std::vector` is `List`; `push_back` appends at the end.
* The header `dodge-machina.hpp` is not part of the sources at hand: the constants it
  defines are the fields of `Config`, and the declarations of the structs and enums are
  read off their uses in `dodge-machina.cpp`.
* The functions of raylib and of the C math library are the fields of `Lib`; `raylib` is
  the instance that follows raylib's own definitions of the collision checks.
* What a frame reads from outside (gesture, touch position, frame time, the outputs of
  `rand()`) is a `FrameInput`.
-/

namespace DodgeMachina

/-! ## Data model -/

/-- The raylib type `Vector2`. -/
structure Vector2 where
  x : ℚ
  y : ℚ
deriving DecidableEq

/-- The raylib type `Rectangle`. -/
structure Rectangle where
  x : ℚ
  y : ℚ
  width : ℚ
  height : ℚ
deriving DecidableEq

/-- The raylib colours the simulation uses. -/
inductive Color where
  | RED
  | BLACK
  | DARKGREEN
  | BLUE
  | VIOLET
deriving DecidableEq

/-- The enum `ActorState`, shared by the player and the enemies. -/
inductive ActorState where
  | LIVE
  | RELOADING
  | DESTRUCT
  | DEAD
deriving DecidableEq

/-- The enum `EnemyType`. -/
inductive EnemyType where
  | SHOOTER
  | DASHER
  | HOMING
deriving DecidableEq

/-- The enum `WorldState`. -/
inductive WorldState where
  | RUNNING
  | GAME_OVER
deriving DecidableEq

/-- The struct `Player`. -/
structure Player where
  position : Vector2
  color : Color
  state : ActorState
  shield : Int
deriving DecidableEq

/-- The struct `Enemy`. -/
structure Enemy where
  position : Vector2
  color : Color
  velocity : Vector2
  type : EnemyType
  state : ActorState
  fire_rate : Int
  shots_fired : Int
  shots_per_round : Int
  reload_timer : ℚ
  trail_pos : List Vector2
deriving DecidableEq

/-- The struct `Bullet`. -/
structure Bullet where
  position : Vector2
  color : Color
  velocity : Vector2
deriving DecidableEq

/-- The struct `GameWorld`. -/
structure GameWorld where
  player : Player
  enemies : List Enemy
  bullets : List Bullet
  state : WorldState
deriving DecidableEq

/-- The constants of `dodge-machina.hpp`. `ENEMY_TYPE_ZERO` is the enumerator of
`EnemyType` with value 0, which fills the entries of `enemy_order` past the fourth. -/
structure Config where
  SCREEN_WIDTH : Int
  SCREEN_HEIGHT : Int
  FRAME_RATE : Nat
  MAX_ENEMIES : Nat
  MAX_BULLETS : Nat
  MAX_ENEMY_TRAIL : Nat
  INITIAL_PLAYER_SHIELDS : Int
  ENEMY_SELF_KILL_BONUS : ℚ
  ENEMY_RELOAD_TIMER : ℚ
  BULLET_FIRE_RATE_MIN : Int
  BULLET_FIRE_RATE_MAX : Int
  FIRE_RATE_RAMPUP_INTERVAL : Nat
  RIFLE_SHOTS_PER_ROUND : Int
  BULLET_VELOCITY : Int
  DASHER_VELOCITY : Int
  HOMING_VELOCITY : Int
  PLAYER_RADIUS : ℚ
  BULLET_RADIUS : ℚ
  HOMER_BLAST_RADIUS : ℚ
  HOMER_BLAST_TRIGGER_DISTANCE : ℚ
  DASHER_BOUNDS : Rectangle
  BULLET_BOUNDS : Rectangle
  ENEMY_TYPE_ZERO : EnemyType

/-- The library functions the simulation calls: raylib's collision checks and distance,
and `atan2`, `cos`, `sin` of the C math library. -/
structure Lib where
  CheckCollisionRecs : Rectangle → Rectangle → Bool
  CheckCollisionPointRec : Vector2 → Rectangle → Bool
  CheckCollisionCircles : Vector2 → ℚ → Vector2 → ℚ → Bool
  CheckCollisionCircleRec : Vector2 → ℚ → Rectangle → Bool
  Vector2Distance : Vector2 → Vector2 → ℚ
  atan2 : ℚ → ℚ → ℚ
  cos : ℚ → ℚ
  sin : ℚ → ℚ

/-- What one frame reads from outside the simulation: whether
`GetGestureDetected() == GESTURE_TAP`, `GetTouchPosition(0)`, `GetFrameTime()`, and the
successive outputs of `rand()` behind `GetRandomValue`. -/
structure FrameInput where
  tap : Bool
  touch_position : Vector2
  frame_time : ℚ
  rand : Nat → Nat

/-- The local variables of `main` that live across frames. -/
structure Game where
  frames_count : Nat
  score : ℚ
  game_world : GameWorld

/-! ## Library functions -/

/-- The raylib function `GetRandomValue(min, max)`, on the output `raw` of `rand()`. -/
def GetRandomValue (raw : Nat) (min max : Int) : Int :=
  let lo := if min > max then max else min
  let hi := if min > max then min else max
  (raw : Int) % ((hi - lo).natAbs + 1 : Nat) + lo

/-- The raylib function `CheckCollisionRecs`. -/
def raylibCheckCollisionRecs (rec1 rec2 : Rectangle) : Bool :=
  (decide (rec1.x < rec2.x + rec2.width) && decide (rec1.x + rec1.width > rec2.x)) &&
    (decide (rec1.y < rec2.y + rec2.height) && decide (rec1.y + rec1.height > rec2.y))

/-- The raylib function `CheckCollisionPointRec`. -/
def raylibCheckCollisionPointRec (point : Vector2) (rec : Rectangle) : Bool :=
  decide (point.x ≥ rec.x) && decide (point.x < rec.x + rec.width) &&
    decide (point.y ≥ rec.y) && decide (point.y < rec.y + rec.height)

/-- The raylib function `CheckCollisionCircles`: the squared distance of the centres
against the squared sum of the radii. -/
def raylibCheckCollisionCircles (center1 : Vector2) (radius1 : ℚ) (center2 : Vector2)
    (radius2 : ℚ) : Bool :=
  let dx := center2.x - center1.x
  let dy := center2.y - center1.y
  decide (dx * dx + dy * dy ≤ (radius1 + radius2) * (radius1 + radius2))

/-- The raylib function `CheckCollisionCircleRec`. -/
def raylibCheckCollisionCircleRec (center : Vector2) (radius : ℚ) (rec : Rectangle) : Bool :=
  let recCenterX := rec.x + rec.width / 2
  let recCenterY := rec.y + rec.height / 2
  let dx := |center.x - recCenterX|
  let dy := |center.y - recCenterY|
  if dx > rec.width / 2 + radius then false
  else if dy > rec.height / 2 + radius then false
  else if dx ≤ rec.width / 2 then true
  else if dy ≤ rec.height / 2 then true
  else
    decide ((dx - rec.width / 2) * (dx - rec.width / 2) +
      (dy - rec.height / 2) * (dy - rec.height / 2) ≤ radius * radius)

/-- The library instance with raylib's collision checks. The distance and the
trigonometric functions have no rational values in general; the ones here are exact for
two points on one horizontal line, the second to the left of the first (angle 0). -/
def raylib : Lib where
  CheckCollisionRecs := raylibCheckCollisionRecs
  CheckCollisionPointRec := raylibCheckCollisionPointRec
  CheckCollisionCircles := raylibCheckCollisionCircles
  CheckCollisionCircleRec := raylibCheckCollisionCircleRec
  Vector2Distance := fun v1 v2 => |v1.x - v2.x| + |v1.y - v2.y|
  atan2 := fun _ _ => 0
  cos := fun _ => 1
  sin := fun _ => 0

/-! ## `utils/math.hpp` and the factories -/

section Program

variable (K : Config) (L : Lib)

/-- `bomaqs::coordinate_angle`. -/
def coordinate_angle (pos1 pos2 : Vector2) : ℚ :=
  L.atan2 (pos1.y - pos2.y) (pos1.x - pos2.x)

/-- `get_homing_velocity`. -/
def get_homing_velocity (pos1 pos2 : Vector2) (velocity : Int) : Vector2 :=
  let angle := coordinate_angle L pos1 pos2
  { x := L.cos angle * (velocity : ℚ), y := L.sin angle * (velocity : ℚ) }

/-- `create_game_world`. -/
def create_game_world : GameWorld :=
  let player : Player :=
    { position := { x := ((K.SCREEN_WIDTH.tdiv 2 : Int) : ℚ),
                    y := ((K.SCREEN_HEIGHT - 200 : Int) : ℚ) },
      color := Color.RED,
      state := ActorState.LIVE,
      shield := K.INITIAL_PLAYER_SHIELDS }
  { player := player, enemies := [], bullets := [], state := WorldState.RUNNING }

/-- `create_bullet`. -/
def create_bullet (enemy : Enemy) (player : Player) : Bullet :=
  { position := enemy.position,
    color := Color.BLACK,
    velocity := get_homing_velocity L player.position enemy.position K.BULLET_VELOCITY }

/-- The global array `enemy_colors`. -/
def enemy_colors : List Color := [Color.DARKGREEN, Color.BLUE, Color.VIOLET]

/-- The global array `enemy_order[MAX_ENEMIES]`: its four initialisers, and the
zero enumerator in the entries past them. -/
def enemy_order : List EnemyType :=
  [EnemyType.SHOOTER, EnemyType.DASHER, EnemyType.HOMING, EnemyType.DASHER] ++
    List.replicate (K.MAX_ENEMIES - 4) K.ENEMY_TYPE_ZERO

/-- `create_enemy`; `rand k` is the output of the `k`-th call of `rand()`. -/
def create_enemy (rand : Nat → Nat) (current_count : Nat) : Enemy :=
  let type := (enemy_order K).getD (current_count % K.MAX_ENEMIES) K.ENEMY_TYPE_ZERO
  let pos : Vector2 :=
    if current_count = 0 then
      { x := ((K.SCREEN_WIDTH.tdiv 2 + GetRandomValue (rand 0) (-100) 100 : Int) : ℚ),
        y := ((100 + GetRandomValue (rand 1) (-25) 25 : Int) : ℚ) }
    else if type = EnemyType.SHOOTER ∨ type = EnemyType.DASHER then
      let left_align := GetRandomValue (rand 0) 0 1
      { x := (((if left_align ≠ 0 then 50 else K.SCREEN_WIDTH - 50) : Int) : ℚ),
        y := ((GetRandomValue (rand 1) 50 (K.SCREEN_HEIGHT - 50) : Int) : ℚ) }
    else
      { x := ((GetRandomValue (rand 0) 50 (K.SCREEN_WIDTH - 50) : Int) : ℚ),
        y := ((GetRandomValue (rand 1) 50 (K.SCREEN_HEIGHT - 50) : Int) : ℚ) }
  { position := pos,
    color := enemy_colors.getD (GetRandomValue (rand 2) 0 2).toNat Color.DARKGREEN,
    velocity := { x := 0, y := 0 },
    type := type,
    state := ActorState.LIVE,
    fire_rate := K.BULLET_FIRE_RATE_MIN,
    shots_fired := 0,
    shots_per_round := K.RIFLE_SHOTS_PER_ROUND,
    reload_timer := 0,
    trail_pos := [] }

/-! ## Bullets and collision checks -/

/-- Lines 354-355: the bullet moves by its velocity. -/
def move_bullet (bullet : Bullet) : Bullet :=
  { bullet with
    position := { x := bullet.position.x + bullet.velocity.x,
                  y := bullet.position.y + bullet.velocity.y } }

/-- The body of the loop of `update_bullets`: a bullet inside `BULLET_BOUNDS` is moved by
its velocity and pushed to `updated`. -/
def update_bullets_step (updated : List Bullet) (bullet : Bullet) : List Bullet :=
  if L.CheckCollisionPointRec bullet.position K.BULLET_BOUNDS then
    updated ++ [move_bullet bullet]
  else updated

/-- `update_bullets`. -/
def update_bullets (bullets : List Bullet) : List Bullet :=
  bullets.foldl (update_bullets_step K L) []

/-- `check_bullet_collisions`: whether some bullet's circle meets the player's. -/
def check_bullet_collisions (player : Player) (bullets : List Bullet) : Bool :=
  bullets.any fun bullet =>
    L.CheckCollisionCircles player.position K.PLAYER_RADIUS bullet.position K.BULLET_RADIUS

/-- The 20x20 box of an enemy, as built in the collision checks and the dasher update. -/
def enemy_rect (enemy : Enemy) : Rectangle :=
  { x := enemy.position.x, y := enemy.position.y, width := 20, height := 20 }

/-- `check_enemy_collisions`: the indices of the enemies whose box meets the player's
circle, in increasing order. -/
def check_enemy_collisions (player : Player) (enemies : List Enemy) : List Nat :=
  (List.range enemies.length).foldl
    (fun out i =>
      match enemies[i]? with
      | some enemy =>
        if L.CheckCollisionCircleRec player.position K.PLAYER_RADIUS (enemy_rect enemy) then
          out ++ [i]
        else out
      | none => out)
    []

/-- `check_homer_blast_collisions`: whether the blast circle of some `DESTRUCT` enemy
meets the player's circle. -/
def check_homer_blast_collisions (player : Player) (enemies : List Enemy) : Bool :=
  enemies.any fun enemy =>
    if enemy.state ≠ ActorState.DESTRUCT then false
    else
      L.CheckCollisionCircles player.position K.PLAYER_RADIUS enemy.position
        K.HOMER_BLAST_RADIUS

/-- `check_enemy_enemy_collisions`: for `i` from 0 and `j` from `i + 1`, both indices of
every pair of enemies whose boxes overlap. -/
def check_enemy_enemy_collisions (enemies : List Enemy) : List Nat :=
  (List.range enemies.length).foldl
    (fun out i =>
      (List.range' (i + 1) (enemies.length - (i + 1))).foldl
        (fun out j =>
          match enemies[i]?, enemies[j]? with
          | some e1, some e2 =>
            if L.CheckCollisionRecs (enemy_rect e1) (enemy_rect e2) then out ++ [i, j]
            else out
          | _, _ => out)
        out)
    []

/-! ## The body of the main loop -/

/-- The element at index `i` replaced by its image under `f`: an assignment to a field of
`enemies[idx]`. An index past the end changes nothing. -/
def modifyAt {α : Type} (f : α → α) : List α → Nat → List α
  | [], _ => []
  | a :: as, 0 => f a :: as
  | a :: as, i + 1 => a :: modifyAt f as i

/-- The assignment `enemy.state = ActorState::DEAD`. -/
def kill (enemy : Enemy) : Enemy := { enemy with state := ActorState.DEAD }

/-- Lines 37-43: the frame counter and the score advance while the world is `RUNNING`. -/
def tick_counters (g : Game) : Game :=
  if g.game_world.state = WorldState.RUNNING then
    { g with frames_count := (g.frames_count + 1) % 2 ^ 64, score := g.score + 1 / 5 }
  else g

/-- Lines 45-50: a tap in a frame that began in `GAME_OVER` resets the game. -/
def reset_on_tap (tap is_game_over : Bool) (g : Game) : Game :=
  if tap && is_game_over then
    { frames_count := 0, score := 0, game_world := create_game_world K }
  else g

/-- Lines 56-61: a tap teleports a `LIVE` player to the touch position. -/
def teleport (inp : FrameInput) (w : GameWorld) : GameWorld :=
  if w.player.state = ActorState.LIVE ∧ inp.tap = true then
    { w with player := { w.player with position := inp.touch_position } }
  else w

/-- Lines 63-66: shield loss when a bullet hits the player. -/
def bullet_hit (w : GameWorld) : GameWorld :=
  if check_bullet_collisions K L w.player w.bullets then
    { w with player := { w.player with shield := w.player.shield - 1 } }
  else w

/-- Lines 68-71: shield loss when the player is in the blast of a homer. -/
def blast_hit (w : GameWorld) : GameWorld :=
  if check_homer_blast_collisions K L w.player w.enemies then
    { w with player := { w.player with shield := w.player.shield - 1 } }
  else w

/-- Lines 78-83, the body of the loop over `collided_enemies`: a `RELOADING` enemy is
killed, any other one costs the player a shield. -/
def player_enemy_step (w : GameWorld) (idx : Nat) : GameWorld :=
  match w.enemies[idx]? with
  | some enemy =>
    if enemy.state = ActorState.RELOADING then
      { w with enemies := modifyAt kill w.enemies idx }
    else
      { w with player := { w.player with shield := w.player.shield - 1 } }
  | none => w

/-- Lines 73-85: the player's collisions with enemies. -/
def player_enemy_hits (w : GameWorld) : GameWorld :=
  (check_enemy_collisions K L w.player w.enemies).foldl player_enemy_step w

/-- Lines 87-91: a player with a negative shield who is not yet `DEAD` dies and the game
is over. -/
def death_check (w : GameWorld) : GameWorld :=
  if w.player.shield < 0 ∧ w.player.state ≠ ActorState.DEAD then
    { w with player := { w.player with state := ActorState.DEAD },
             state := WorldState.GAME_OVER }
  else w

/-- Lines 97-101, the body of the loop over the indices returned by
`check_enemy_enemy_collisions`: the enemy dies and the score gets the bonus. -/
def enemy_enemy_step (g : Game) (idx : Nat) : Game :=
  { g with
    game_world := { g.game_world with enemies := modifyAt kill g.game_world.enemies idx },
    score := g.score + K.ENEMY_SELF_KILL_BONUS }

/-- Lines 93-102: the enemy-enemy collisions. -/
def enemy_enemy_hits (g : Game) : Game :=
  (check_enemy_enemy_collisions L g.game_world.enemies).foldl (enemy_enemy_step K) g

/-- Lines 104-111: the spawn of a new enemy. -/
def spawn_enemy (rand : Nat → Nat) (frames_count : Nat) (enemies : List Enemy) :
    List Enemy :=
  let enemies_count := enemies.length
  if enemies_count < K.MAX_ENEMIES ∧
      frames_count % (K.FRAME_RATE * (if enemies_count ≠ 0 then 5 else 1)) = 0 then
    enemies ++ [create_enemy K rand enemies_count]
  else enemies

/-- Lines 122-135: the reload timer of one enemy. -/
def tick_reload_timer (frame_time : ℚ) (enemy : Enemy) : Enemy :=
  if enemy.reload_timer ≥ 0 then
    let e1 := { enemy with reload_timer := enemy.reload_timer - frame_time }
    if e1.reload_timer ≤ 0 then
      let e2 := if e1.state = ActorState.RELOADING then { e1 with state := ActorState.LIVE }
                else e1
      if e2.state = ActorState.DESTRUCT then { e2 with state := ActorState.DEAD } else e2
    else e1
  else enemy

/-- The conversion of an `int` to `unsigned long long`, as in `frames_count % fire_rate`. -/
def toULL (i : Int) : Nat := (i % 2 ^ 64).toNat

/-- Lines 142-162: the `SHOOTER` case. A modulus by zero, undefined in C++, is the
dividend here. -/
def update_shooter (frames_count : Nat) (player : Player) (enemy : Enemy)
    (bullets : List Bullet) : Enemy × List Bullet :=
  let fired : Enemy × List Bullet :=
    if frames_count = 0 ∨ frames_count % toULL enemy.fire_rate = 0 then
      let shot : Enemy × List Bullet :=
        if bullets.length < K.MAX_BULLETS then
          let e1 := { enemy with shots_fired := enemy.shots_fired + 1 }
          (e1, bullets ++ [create_bullet K L e1 player])
        else (enemy, bullets)
      if shot.1.shots_fired ≥ shot.1.shots_per_round then
        ({ shot.1 with shots_fired := 0, state := ActorState.RELOADING,
                       reload_timer := K.ENEMY_RELOAD_TIMER }, shot.2)
      else shot
    else (enemy, bullets)
  if frames_count % K.FIRE_RATE_RAMPUP_INTERVAL = 0 then
    ({ fired.1 with fire_rate := max (fired.1.fire_rate - 1) K.BULLET_FIRE_RATE_MAX },
      fired.2)
  else fired

/-- Lines 163-188: the `DASHER` case. -/
def update_dasher (player : Player) (enemy : Enemy) : Enemy :=
  if enemy.velocity.x = 0 ∧ enemy.velocity.y = 0 then
    { enemy with
      velocity := get_homing_velocity L player.position enemy.position K.DASHER_VELOCITY }
  else if ¬ (L.CheckCollisionRecs K.DASHER_BOUNDS (enemy_rect enemy) = true) then
    { enemy with velocity := { x := 0, y := 0 }, state := ActorState.RELOADING,
                 reload_timer := K.ENEMY_RELOAD_TIMER }
  else enemy

/-- Lines 189-203: the `HOMING` case. -/
def update_homing (player : Player) (enemy : Enemy) : Enemy :=
  let e1 := { enemy with
    velocity := get_homing_velocity L player.position enemy.position K.HOMING_VELOCITY }
  if L.Vector2Distance e1.position player.position ≤ K.HOMER_BLAST_TRIGGER_DISTANCE then
    { e1 with state := ActorState.DESTRUCT, reload_timer := K.ENEMY_RELOAD_TIMER,
              trail_pos := [] }
  else e1

/-- Lines 208-212: the current position is stored in the trail, after the oldest entry
is erased from a trail of `MAX_ENEMY_TRAIL` positions. -/
def trail_update (trail_pos : List Vector2) (position : Vector2) : List Vector2 :=
  (if trail_pos.length = K.MAX_ENEMY_TRAIL then trail_pos.tail else trail_pos) ++ [position]

/-- Lines 208-216: the trail is updated and the enemy moves by its velocity. -/
def trail_and_move (enemy : Enemy) : Enemy :=
  { enemy with
    trail_pos := trail_update K enemy.trail_pos enemy.position,
    position := { x := enemy.position.x + enemy.velocity.x,
                  y := enemy.position.y + enemy.velocity.y } }

/-- Lines 115-216: the body of the loop over the enemies, on one enemy and the bullet
collection. -/
def update_enemy (frames_count : Nat) (frame_time : ℚ) (player : Player) (enemy : Enemy)
    (bullets : List Bullet) : Enemy × List Bullet :=
  if enemy.state = ActorState.DEAD then (enemy, bullets)
  else
    let e1 := tick_reload_timer frame_time enemy
    if e1.state = ActorState.RELOADING ∨ e1.state = ActorState.DESTRUCT then (e1, bullets)
    else
      let switched : Enemy × List Bullet :=
        match e1.type with
        | EnemyType.SHOOTER => update_shooter K L frames_count player e1 bullets
        | EnemyType.DASHER => (update_dasher K L player e1, bullets)
        | EnemyType.HOMING => (update_homing K L player e1, bullets)
      (trail_and_move K switched.1, switched.2)

/-- Lines 114-217: the loop `for (int i = 0; i < enemies_count; i++)`. The iteration `i`
reads and writes `enemies[i]` only, and appends to the bullets. -/
def update_enemies (frames_count : Nat) (frame_time : ℚ) (player : Player) :
    List Enemy → List Bullet → List Enemy × List Bullet
  | [], bullets => ([], bullets)
  | enemy :: rest, bullets =>
    let r := update_enemy K L frames_count frame_time player enemy bullets
    let rs := update_enemies frames_count frame_time player rest r.2
    (r.1 :: rs.1, rs.2)

/-- Lines 104-218: while `RUNNING`, an enemy may spawn and every enemy is updated. -/
def spawn_and_update (inp : FrameInput) (g : Game) : Game :=
  if g.game_world.state = WorldState.RUNNING then
    let spawned := spawn_enemy K inp.rand g.frames_count g.game_world.enemies
    let r := update_enemies K L g.frames_count inp.frame_time g.game_world.player spawned
      g.game_world.bullets
    { g with game_world := { g.game_world with enemies := r.1, bullets := r.2 } }
  else g

/-- Lines 220-228: the enemies that are not `DEAD` are pushed to `updated_list`, which
becomes the enemy collection. -/
def remove_dead (enemies : List Enemy) : List Enemy :=
  enemies.foldl
    (fun updated_list enemy =>
      if enemy.state ≠ ActorState.DEAD then updated_list ++ [enemy] else updated_list)
    []

/-- Lines 63-91: the player's collisions and the death check. -/
def resolve_player (w : GameWorld) : GameWorld :=
  death_check (player_enemy_hits K L (blast_hit K L (bullet_hit K L w)))

/-- Lines 37-91: the counters, the reset, the teleport, the player's collisions and the
death check. -/
def player_stage (inp : FrameInput) (g : Game) : Game :=
  let is_game_over : Bool := decide (g.game_world.state = WorldState.GAME_OVER)
  let g1 := tick_counters g
  let g2 := reset_on_tap K inp.tap is_game_over g1
  { g2 with game_world := resolve_player K L (teleport inp g2.game_world) }

/-- Lines 37-218: one pass of the main loop up to the end of the update of the enemies. -/
def enemy_stage (inp : FrameInput) (g : Game) : Game :=
  spawn_and_update K L inp (enemy_enemy_hits K L (player_stage K L inp g))

/-- Lines 37-231: one pass of the main loop, up to the drawing. -/
def frame (inp : FrameInput) (g : Game) : Game :=
  let g5 := enemy_stage K L inp g
  { g5 with
    game_world := { g5.game_world with
      enemies := remove_dead g5.game_world.enemies,
      bullets := update_bullets K L g5.game_world.bullets } }

/-- The state of `main` when the loop is entered. -/
def initial_game : Game :=
  { frames_count := 0, score := 0, game_world := create_game_world K }

/-- The states of `main` at the frame boundaries: the initial one, and the one after a
frame from a reachable one, whatever the frame reads from outside. -/
inductive Reachable : Game → Prop where
  | init : Reachable (initial_game K)
  | step (inp : FrameInput) (g : Game) : Reachable g → Reachable (frame K L inp g)

/-- Whether the boxes of the enemies at the indices `i` and `j` overlap: the test of
`check_enemy_enemy_collisions` on one pair of indices. -/
def boxes_overlap (enemies : List Enemy) (i j : Nat) : Bool :=
  match enemies[i]?, enemies[j]? with
  | some e1, some e2 => L.CheckCollisionRecs (enemy_rect e1) (enemy_rect e2)
  | _, _ => false

/-- A configuration of the constants, for the evaluation of the program on concrete
worlds: an 800x450 screen at 60 frames per second. -/
def sample_config : Config where
  SCREEN_WIDTH := 800
  SCREEN_HEIGHT := 450
  FRAME_RATE := 60
  MAX_ENEMIES := 4
  MAX_BULLETS := 50
  MAX_ENEMY_TRAIL := 5
  INITIAL_PLAYER_SHIELDS := 3
  ENEMY_SELF_KILL_BONUS := 50
  ENEMY_RELOAD_TIMER := 3
  BULLET_FIRE_RATE_MIN := 60
  BULLET_FIRE_RATE_MAX := 20
  FIRE_RATE_RAMPUP_INTERVAL := 600
  RIFLE_SHOTS_PER_ROUND := 3
  BULLET_VELOCITY := 5
  DASHER_VELOCITY := 8
  HOMING_VELOCITY := 2
  PLAYER_RADIUS := 10
  BULLET_RADIUS := 5
  HOMER_BLAST_RADIUS := 60
  HOMER_BLAST_TRIGGER_DISTANCE := 40
  DASHER_BOUNDS := { x := 20, y := 20, width := 760, height := 410 }
  BULLET_BOUNDS := { x := 0, y := 0, width := 800, height := 450 }
  ENEMY_TYPE_ZERO := EnemyType.SHOOTER

/-- An enemy of the given type and state at the given position, otherwise as
`create_enemy` makes it under `sample_config`. -/
def sample_enemy (type : EnemyType) (state : ActorState) (x y : ℚ) : Enemy :=
  { position := { x := x, y := y },
    color := Color.BLUE,
    velocity := { x := 0, y := 0 },
    type := type,
    state := state,
    fire_rate := 60,
    shots_fired := 0,
    shots_per_round := 3,
    reload_timer := 0,
    trail_pos := [] }

/-- A running game with two live enemies whose boxes overlap, and no bullets. -/
def pair_game : Game :=
  { frames_count := 10,
    score := 2,
    game_world :=
      { player := { position := { x := 400, y := 250 }, color := Color.RED,
                    state := ActorState.LIVE, shield := 3 },
        enemies := [sample_enemy EnemyType.SHOOTER ActorState.LIVE 100 100,
                    sample_enemy EnemyType.DASHER ActorState.LIVE 110 105],
        bullets := [],
        state := WorldState.RUNNING } }

/-- A game that is over: the player is dead with shield -1, one live enemy's box and one
bullet overlap the player. -/
def over_game : Game :=
  { frames_count := 500,
    score := 100,
    game_world :=
      { player := { position := { x := 400, y := 250 }, color := Color.RED,
                    state := ActorState.DEAD, shield := -1 },
        enemies := [sample_enemy EnemyType.SHOOTER ActorState.LIVE 395 245],
        bullets := [{ position := { x := 400, y := 250 }, color := Color.BLACK,
                      velocity := { x := 0, y := 0 } }],
        state := WorldState.GAME_OVER } }

/-- A frame with a tap at (500, 75), a 60th of a second after the last one, in which
every call of `rand()` returns 0. -/
def tap_input : FrameInput :=
  { tap := true, touch_position := { x := 500, y := 75 }, frame_time := 1 / 60,
    rand := fun _ => 0 }

/-- A frame without a tap, a 60th of a second after the last one, in which every call of
`rand()` returns 0. -/
def idle_input : FrameInput :=
  { tap := false, touch_position := { x := 0, y := 0 }, frame_time := 1 / 60,
    rand := fun _ => 0 }

/-- Whether the box of an enemy meets the circle of the player: the test of
`check_enemy_collisions`. -/
def hits_player (player : Player) (enemy : Enemy) : Bool :=
  L.CheckCollisionCircleRec player.position K.PLAYER_RADIUS (enemy_rect enemy)

/-- The indices that `check_enemy_collisions` returns for the enemies from the index
`offset` on. -/
def hit_indices_from (player : Player) : Nat → List Enemy → List Nat
  | _, [] => []
  | offset, enemy :: rest =>
    (if hits_player K L player enemy then [offset] else []) ++
      hit_indices_from player (offset + 1) rest

/-- What lines 78-83 do to an enemy: one that meets the player while `RELOADING` is
killed. -/
def hit_enemy (player : Player) (enemy : Enemy) : Enemy :=
  if hits_player K L player enemy = true ∧ enemy.state = ActorState.RELOADING then kill enemy
  else enemy

/-- The number of shields that the collisions of one frame cost the player: one when a
bullet hits, one when a blast hits, one for each enemy that meets the player and is not
`RELOADING`. -/
def shield_loss (w : GameWorld) : Nat :=
  (if check_bullet_collisions K L w.player w.bullets then 1 else 0) +
    (if check_homer_blast_collisions K L w.player w.enemies then 1 else 0) +
    w.enemies.countP fun e =>
      hits_player K L w.player e && decide (e.state ≠ ActorState.RELOADING)

/-- A running game at frame 10 with a live player of the given shield, one bullet on the
player and no enemy. -/
def hit_game (shield : Int) : Game :=
  { frames_count := 10,
    score := 2,
    game_world :=
      { player := { position := { x := 400, y := 250 }, color := Color.RED,
                    state := ActorState.LIVE, shield := shield },
        enemies := [],
        bullets := [{ position := { x := 402, y := 251 }, color := Color.BLACK,
                      velocity := { x := 5, y := 0 } }],
        state := WorldState.RUNNING } }

/-- The capacity bounds. -/
def within_capacity (g : Game) : Prop :=
  g.game_world.enemies.length ≤ K.MAX_ENEMIES ∧ g.game_world.bullets.length ≤ K.MAX_BULLETS

/-- A bullet inside `BULLET_BOUNDS` of `sample_config`, three units from the right
edge, flying right at five units a frame. -/
def edge_bullet : Bullet :=
  { position := { x := 797, y := 100 }, color := Color.BLACK, velocity := { x := 5, y := 0 } }

/-- The bullet after `n` moves: lines 354-355 applied `n` times, in exact arithmetic. -/
def bullet_after (n : Nat) (bullet : Bullet) : Bullet :=
  { bullet with
    position := { x := bullet.position.x + (n : ℚ) * bullet.velocity.x,
                  y := bullet.position.y + (n : ℚ) * bullet.velocity.y } }

/-- The test of line 144: the frame is a firing tick of the shooter. -/
def fires (frames_count : Nat) (enemy : Enemy) : Bool :=
  decide (frames_count = 0 ∨ frames_count % toULL enemy.fire_rate = 0)

/-- What the update of one enemy reads in one frame: the frame counter, the frame time,
the player and the bullet collection. -/
structure Tick where
  frames_count : Nat
  frame_time : ℚ
  player : Player
  bullets : List Bullet

/-- The enemy after its updates in the frames before the `i`-th. -/
def enemy_after (ticks : Nat → Tick) (enemy : Enemy) : Nat → Enemy
  | 0 => enemy
  | i + 1 =>
    (update_enemy K L (ticks i).frames_count (ticks i).frame_time (ticks i).player
      (enemy_after ticks enemy i) (ticks i).bullets).1

/-- The bullet collection after the update of the enemy in the `i`-th frame. -/
def bullets_after (ticks : Nat → Tick) (enemy : Enemy) (i : Nat) : List Bullet :=
  (update_enemy K L (ticks i).frames_count (ticks i).frame_time (ticks i).player
    (enemy_after K L ticks enemy i) (ticks i).bullets).2

/-- The number of firing ticks of the enemy among the frames before the `i`-th. -/
def firing_ticks (ticks : Nat → Tick) (enemy : Enemy) : Nat → Nat
  | 0 => 0
  | i + 1 =>
    firing_ticks ticks enemy i +
      (if fires (ticks i).frames_count (enemy_after K L ticks enemy i) then 1 else 0)

/-- The frames 60, 120, 180, ... of a game under `sample_config`, a 60th of a second
apart, with the player at (500, 75) and no bullet in the collection. -/
def sample_ticks (i : Nat) : Tick :=
  { frames_count := 60 * (i + 1),
    frame_time := 1 / 60,
    player := { position := { x := 500, y := 75 }, color := Color.RED,
                state := ActorState.LIVE, shield := 3 },
    bullets := [] }

/-- The boxes of two enemies do not overlap. -/
def boxes_apart (a b : Enemy) : Prop :=
  L.CheckCollisionRecs (enemy_rect a) (enemy_rect b) = false

/-- The constants of `sample_config`, but with a player who starts below zero shields:
the first frame ends the game. -/
def no_shield_config : Config := { sample_config with INITIAL_PLAYER_SHIELDS := -1 }

/-- A homer in `DESTRUCT` at (300, 75), three seconds before it explodes, with the
velocity (2, 0) and the trail it has from the frame in which it came within the trigger
distance, at (298, 75). -/
def destruct_homer : Enemy :=
  { sample_enemy EnemyType.HOMING ActorState.DESTRUCT 300 75 with
    velocity := { x := 2, y := 0 }, reload_timer := 3,
    trail_pos := [{ x := 298, y := 75 }] }

/-- Two enemies with overlapping boxes, the first in `DESTRUCT` and the second `DEAD`. -/
def spent_pair : List Enemy :=
  [sample_enemy EnemyType.HOMING ActorState.DESTRUCT 100 100,
   sample_enemy EnemyType.SHOOTER ActorState.DEAD 110 105]

/-- The homer `destruct_homer` when its timer, at a 100th of a second, expires in the
next frame. -/
def expiring_homer : Enemy := { destruct_homer with reload_timer := 1 / 100 }

/-- A running game at frame 10 with one enemy and no bullet; the live player is at
(335, 75), at the distance 35 from an enemy at (300, 75) and on its right. -/
def near_game (enemy : Enemy) : Game :=
  { frames_count := 10,
    score := 2,
    game_world :=
      { player := { position := { x := 335, y := 75 }, color := Color.RED,
                    state := ActorState.LIVE, shield := 3 },
        enemies := [enemy],
        bullets := [],
        state := WorldState.RUNNING } }

/-- The test of line 469 of `draw_enemies`: the movement trail of the enemy is drawn. -/
def draws_trail (enemy : Enemy) : Bool :=
  decide (enemy.state = ActorState.LIVE ∧ enemy.velocity.x ≠ 0 ∧ enemy.velocity.y ≠ 0)

/-- The indices `i` of the reads `enemy.trail_pos[i]` of the loop at lines 471-476 of
`draw_enemies`, from `MAX_ENEMY_TRAIL - 1` down to 0. -/
def trail_reads (K : Config) : List Nat := (List.range K.MAX_ENEMY_TRAIL).reverse

/-- The library `raylib`, with the cosine 3/5 and the sine 4/5 and the distance to
match: exact for two points of which the first lies from the second in the direction
(3, 4). -/
def raylib_diagonal : Lib :=
  { raylib with
    Vector2Distance := fun v1 v2 => 5 / 7 * (|v1.x - v2.x| + |v1.y - v2.y|),
    cos := fun _ => 3 / 5,
    sin := fun _ => 4 / 5 }

/-- A shooter at (300, 75) that is `RELOADING` for one more second. -/
def reloading_shooter : Enemy :=
  { sample_enemy EnemyType.SHOOTER ActorState.RELOADING 300 75 with reload_timer := 1 }

/-- A running game at frame 299, before the frame in which the second enemy spawns: the
live player is at (290, 370), the only enemy is `reloading_shooter`, and there is no
bullet. -/
def spawn_game : Game :=
  { frames_count := 299,
    score := 60,
    game_world :=
      { player := { position := { x := 290, y := 370 }, color := Color.RED,
                    state := ActorState.LIVE, shield := 3 },
        enemies := [reloading_shooter],
        bullets := [],
        state := WorldState.RUNNING } }

/-- A frame without a tap, a 60th of a second after the last one, in which the first call
of `rand()` returns 1 and every later one 0: `create_enemy(1)` makes a dasher at
(50, 50), from which the player of `spawn_game` lies in the direction (3, 4). -/
def spawn_input : FrameInput :=
  { tap := false, touch_position := { x := 0, y := 0 }, frame_time := 1 / 60,
    rand := fun k => if k = 0 then 1 else 0 }

/-- The dasher that spawns in the frame 300 of `spawn_game`, at the end of that frame. -/
def dashing_dasher : Enemy :=
  { position := { x := 50 + 24 / 5, y := 50 + 32 / 5 },
    color := Color.DARKGREEN,
    velocity := { x := 24 / 5, y := 32 / 5 },
    type := EnemyType.DASHER,
    state := ActorState.LIVE,
    fire_rate := 60,
    shots_fired := 0,
    shots_per_round := 3,
    reload_timer := -(1 / 60),
    trail_pos := [{ x := 50, y := 50 }] }

/-- A world in which everything hits the player at once: the live player is at
(400, 250) with shield 3, two bullets are on the player, and of the four enemies the
`DESTRUCT` homer at (440, 250) has the player in its blast but not on its box, the live
shooter at (395, 245) and the `RELOADING` dasher at (392, 240) have the player on their
boxes, and the live shooter at (100, 100) is far away. -/
def crowded_world : GameWorld :=
  { player := { position := { x := 400, y := 250 }, color := Color.RED,
                state := ActorState.LIVE, shield := 3 },
    enemies := [sample_enemy EnemyType.HOMING ActorState.DESTRUCT 440 250,
                sample_enemy EnemyType.SHOOTER ActorState.LIVE 395 245,
                sample_enemy EnemyType.DASHER ActorState.RELOADING 392 240,
                sample_enemy EnemyType.SHOOTER ActorState.LIVE 100 100],
    bullets := [{ position := { x := 402, y := 251 }, color := Color.BLACK,
                  velocity := { x := 5, y := 0 } },
                { position := { x := 405, y := 250 }, color := Color.BLACK,
                  velocity := { x := 0, y := 5 } }],
    state := WorldState.RUNNING }

/-- The game under `sample_config` after `n` frames without a tap, a 60th of a second
apart, in which every call of `rand()` returns 0. -/
def idle_state (n : Nat) : Game :=
  (frame sample_config raylib idle_input)^[n] (initial_game sample_config)

end Program

/-! ## Lists: loops that push to a vector, and assignments at an index -/

section Lists

variable {α β : Type}

theorem foldl_push (f : α → List β) (l : List α) (init : List β) :
    l.foldl (fun out a => out ++ f a) init = init ++ l.flatMap f := by
  induction l generalizing init with
  | nil => simp
  | cons a l ih => simp [List.foldl_cons, ih, List.flatMap_cons, List.append_assoc]

theorem flatMap_eq_nil_of_forall (f : α → List β) (l : List α)
    (h : ∀ a ∈ l, f a = []) : l.flatMap f = [] := by
  induction l with
  | nil => rfl
  | cons a l ih =>
    rw [List.flatMap_cons, h a (List.mem_cons_self a l), ih fun x hx =>
      h x (List.mem_cons_of_mem a hx)]
    rfl

theorem flatMap_eq_of_unique (f : α → List β) (l : List α) (a : α) (hnd : l.Nodup)
    (ha : a ∈ l) (h : ∀ x ∈ l, x ≠ a → f x = []) : l.flatMap f = f a := by
  induction l with
  | nil => cases ha
  | cons x l ih =>
    rw [List.nodup_cons] at hnd
    rw [List.flatMap_cons]
    rcases List.mem_cons.mp ha with hax | hal
    · subst hax
      rw [flatMap_eq_nil_of_forall f l, List.append_nil]
      intro y hy
      exact h y (List.mem_cons_of_mem _ hy) (fun hya => hnd.1 (hya ▸ hy))
    · have hxa : x ≠ a := fun hxa => hnd.1 (hxa ▸ hal)
      rw [h x (List.mem_cons_self x l) hxa, List.nil_append]
      exact ih hnd.2 hal fun y hy => h y (List.mem_cons_of_mem _ hy)

theorem length_modifyAt (f : α → α) (l : List α) (i : Nat) :
    (modifyAt f l i).length = l.length := by
  induction l generalizing i with
  | nil => rfl
  | cons a l ih =>
    cases i with
    | zero => rfl
    | succ i => simp [modifyAt, ih]

theorem getElem?_modifyAt (f : α → α) (l : List α) (i j : Nat) :
    (modifyAt f l i)[j]? = if i = j then l[j]?.map f else l[j]? := by
  induction l generalizing i j with
  | nil => simp [modifyAt]
  | cons a l ih =>
    cases i with
    | zero =>
      cases j with
      | zero => simp [modifyAt]
      | succ j => simp [modifyAt]
    | succ i =>
      cases j with
      | zero => simp [modifyAt]
      | succ j => simp [modifyAt, ih]

end Lists

/-! ## The enemy-enemy collisions -/

section EnemyEnemy

theorem inner_loop_eq (L : Lib) (enemies : List Enemy) (i : Nat) (l : List Nat)
    (out : List Nat) :
    l.foldl
        (fun out j =>
          match enemies[i]?, enemies[j]? with
          | some e1, some e2 =>
            if L.CheckCollisionRecs (enemy_rect e1) (enemy_rect e2) then out ++ [i, j]
            else out
          | _, _ => out)
        out
      = out ++ l.flatMap fun j => if boxes_overlap L enemies i j then [i, j] else [] := by
  rw [← foldl_push]
  congr 1
  funext out j
  unfold boxes_overlap
  cases enemies[i]? <;> cases enemies[j]? <;> simp
  split <;> simp

/-- The nested loops of `check_enemy_enemy_collisions` as a comprehension. -/
theorem check_enemy_enemy_collisions_eq (L : Lib) (enemies : List Enemy) :
    check_enemy_enemy_collisions L enemies =
      (List.range enemies.length).flatMap fun i =>
        (List.range' (i + 1) (enemies.length - (i + 1))).flatMap fun j =>
          if boxes_overlap L enemies i j then [i, j] else [] := by
  unfold check_enemy_enemy_collisions
  rw [← List.nil_append (List.flatMap _ _), ← foldl_push]
  congr 1
  funext out i
  exact inner_loop_eq L enemies i _ out

theorem boxes_overlap_lt (L : Lib) (enemies : List Enemy) (i j : Nat)
    (h : boxes_overlap L enemies i j = true) : i < enemies.length ∧ j < enemies.length := by
  unfold boxes_overlap at h
  constructor
  · by_contra hi
    rw [List.getElem?_eq_none (Nat.le_of_not_lt hi)] at h
    simp at h
  · by_contra hj
    rw [List.getElem?_eq_none (Nat.le_of_not_lt hj)] at h
    cases hi : enemies[i]? <;> simp [hi] at h

/-- With one overlapping pair `a < b` and no other, the check returns `a` and `b`. -/
theorem check_enemy_enemy_collisions_unique (L : Lib) (enemies : List Enemy) (a b : Nat)
    (hab : a < b) (hov : boxes_overlap L enemies a b = true)
    (huniq : ∀ i j, i < j → boxes_overlap L enemies i j = true → i = a ∧ j = b) :
    check_enemy_enemy_collisions L enemies = [a, b] := by
  have hlt := boxes_overlap_lt L enemies a b hov
  rw [check_enemy_enemy_collisions_eq]
  rw [flatMap_eq_of_unique _ _ a (List.nodup_range _) (List.mem_range.mpr hlt.1)]
  · rw [flatMap_eq_of_unique _ _ b (List.nodup_range' _ _)]
    · simp [hov]
    · rw [List.mem_range'_1]
      omega
    · intro j hj hjb
      rw [List.mem_range'_1] at hj
      have : ¬ boxes_overlap L enemies a j = true := fun h =>
        hjb (huniq a j (by omega) h).2
      simp [this]
  · intro i _ hia
    apply flatMap_eq_nil_of_forall
    intro j hj
    rw [List.mem_range'_1] at hj
    have : ¬ boxes_overlap L enemies i j = true := fun h =>
      hia (huniq i j (by omega) h).1
    simp [this]

theorem enemy_enemy_hits_unique (K : Config) (L : Lib) (g : Game) (a b : Nat)
    (hab : a < b) (hov : boxes_overlap L g.game_world.enemies a b = true)
    (huniq : ∀ i j, i < j → boxes_overlap L g.game_world.enemies i j = true →
      i = a ∧ j = b) :
    (enemy_enemy_hits K L g).game_world.enemies =
        modifyAt kill (modifyAt kill g.game_world.enemies a) b ∧
      (enemy_enemy_hits K L g).score =
        g.score + K.ENEMY_SELF_KILL_BONUS + K.ENEMY_SELF_KILL_BONUS := by
  unfold enemy_enemy_hits
  rw [check_enemy_enemy_collisions_unique L _ a b hab hov huniq]
  simp [enemy_enemy_step]

theorem pair_game_overlap : boxes_overlap raylib pair_game.game_world.enemies 0 1 = true := by
  simp [boxes_overlap, pair_game, raylib, raylibCheckCollisionRecs, enemy_rect, sample_enemy]
  norm_num

theorem pair_game_unique (i j : Nat) (hij : i < j)
    (h : boxes_overlap raylib pair_game.game_world.enemies i j = true) : i = 0 ∧ j = 1 := by
  have hlt := boxes_overlap_lt raylib _ i j h
  simp only [pair_game, List.length_cons, List.length_nil] at hlt
  omega

/-- C1, as amended: when the boxes of exactly one pair of enemies `a < b` overlap at the
enemy-enemy step, both enemies end the step `DEAD`, every other enemy is as before, and
the score gains `ENEMY_SELF_KILL_BONUS` twice, once for each of the two indices that
`check_enemy_enemy_collisions` returns. -/
theorem enemy_enemy_pair_bonus_per_index (K : Config) (L : Lib) (g : Game) (a b : Nat)
    (hab : a < b) (hov : boxes_overlap L g.game_world.enemies a b = true)
    (huniq : ∀ i j, i < j → boxes_overlap L g.game_world.enemies i j = true →
      i = a ∧ j = b) :
    ((enemy_enemy_hits K L g).game_world.enemies[a]?.map fun e => e.state) =
        some ActorState.DEAD ∧
      ((enemy_enemy_hits K L g).game_world.enemies[b]?.map fun e => e.state) =
        some ActorState.DEAD ∧
      (∀ i, i ≠ a → i ≠ b →
        (enemy_enemy_hits K L g).game_world.enemies[i]? = g.game_world.enemies[i]?) ∧
      (enemy_enemy_hits K L g).score = g.score + 2 * K.ENEMY_SELF_KILL_BONUS := by
  obtain ⟨hen, hsc⟩ := enemy_enemy_hits_unique K L g a b hab hov huniq
  have hlt := boxes_overlap_lt L _ a b hov
  have hne : a ≠ b := Nat.ne_of_lt hab
  refine ⟨?_, ?_, ?_, ?_⟩
  · rw [hen, getElem?_modifyAt, getElem?_modifyAt, if_neg (Ne.symm hne), if_pos rfl,
      List.getElem?_eq_getElem hlt.1]
    rfl
  · rw [hen, getElem?_modifyAt, if_pos rfl, getElem?_modifyAt, if_neg hne,
      List.getElem?_eq_getElem hlt.2]
    rfl
  · intro i hia hib
    rw [hen, getElem?_modifyAt, getElem?_modifyAt, if_neg (Ne.symm hib),
      if_neg (Ne.symm hia)]
  · rw [hsc]
    ring

/-- C1, as amended, on `pair_game`: both enemies die and the score goes from 2 to 102. -/
theorem enemy_enemy_pair_bonus_per_index_witness :
    ((enemy_enemy_hits sample_config raylib pair_game).game_world.enemies[0]?.map
        fun e => e.state) = some ActorState.DEAD ∧
      ((enemy_enemy_hits sample_config raylib pair_game).game_world.enemies[1]?.map
        fun e => e.state) = some ActorState.DEAD ∧
      (enemy_enemy_hits sample_config raylib pair_game).score = 102 := by
  have h := enemy_enemy_pair_bonus_per_index sample_config raylib pair_game 0 1
    (by decide) pair_game_overlap pair_game_unique
  refine ⟨h.1, h.2.1, ?_⟩
  rw [h.2.2.2]
  norm_num [pair_game, sample_config]

/-- C1 as stated fails on `pair_game`: its two enemies are the one overlapping pair, the
check returns both indices, and the step adds 100 to the score, not the single bonus
of 50. -/
theorem enemy_enemy_single_bonus_counterexample :
    check_enemy_enemy_collisions raylib pair_game.game_world.enemies = [0, 1] ∧
      (enemy_enemy_hits sample_config raylib pair_game).score = pair_game.score + 100 ∧
      (enemy_enemy_hits sample_config raylib pair_game).score ≠
        pair_game.score + sample_config.ENEMY_SELF_KILL_BONUS := by
  have hc := check_enemy_enemy_collisions_unique raylib pair_game.game_world.enemies 0 1
    (by decide) pair_game_overlap pair_game_unique
  have hs := (enemy_enemy_hits_unique sample_config raylib pair_game 0 1
    (by decide) pair_game_overlap pair_game_unique).2
  refine ⟨hc, ?_, ?_⟩
  · rw [hs]
    simp only [sample_config]
    ring
  · rw [hs]
    norm_num [sample_config]

end EnemyEnemy

/-! ## Pruning loops and the update of one enemy -/

section Updates

/-- The loop that removes the dead enemies is a filter. -/
theorem remove_dead_eq (enemies : List Enemy) :
    remove_dead enemies = enemies.filter fun e => decide (e.state ≠ ActorState.DEAD) := by
  unfold remove_dead
  have h : ∀ (l init : List Enemy),
      l.foldl (fun updated_list enemy =>
          if enemy.state ≠ ActorState.DEAD then updated_list ++ [enemy] else updated_list)
        init = init ++ l.filter fun e => decide (e.state ≠ ActorState.DEAD) := by
    intro l
    induction l with
    | nil => simp
    | cons a l ih =>
      intro init
      rw [List.foldl_cons, ih]
      by_cases ha : a.state = ActorState.DEAD <;> simp [ha, List.filter_cons]
  simpa using h enemies []

/-- The loop of `update_bullets` filters by the position before the move, then moves. -/
theorem update_bullets_eq (K : Config) (L : Lib) (bullets : List Bullet) :
    update_bullets K L bullets =
      (bullets.filter fun b => L.CheckCollisionPointRec b.position K.BULLET_BOUNDS).map
        move_bullet := by
  unfold update_bullets
  have h : ∀ (l init : List Bullet),
      l.foldl (update_bullets_step K L) init =
        init ++ (l.filter fun b => L.CheckCollisionPointRec b.position K.BULLET_BOUNDS).map
          move_bullet := by
    intro l
    induction l with
    | nil => simp
    | cons a l ih =>
      intro init
      rw [List.foldl_cons, ih]
      by_cases ha : L.CheckCollisionPointRec a.position K.BULLET_BOUNDS = true <;>
        simp [update_bullets_step, ha, List.filter_cons]
  simpa using h bullets []

theorem tick_reload_timer_live (dt : ℚ) (e : Enemy) (h : e.state = ActorState.LIVE) :
    (tick_reload_timer dt e).state = ActorState.LIVE := by
  unfold tick_reload_timer
  split
  · simp only []
    split
    · simp [h]
    · exact h
  · exact h

theorem update_shooter_state (K : Config) (L : Lib) (f : Nat) (p : Player) (e : Enemy)
    (bs : List Bullet) :
    (update_shooter K L f p e bs).1.state = e.state ∨
      (update_shooter K L f p e bs).1.state = ActorState.RELOADING := by
  unfold update_shooter
  simp only []
  split_ifs <;> simp

theorem update_dasher_state (K : Config) (L : Lib) (p : Player) (e : Enemy) :
    (update_dasher K L p e).state = e.state ∨
      (update_dasher K L p e).state = ActorState.RELOADING := by
  unfold update_dasher
  split_ifs <;> simp

theorem update_homing_state (K : Config) (L : Lib) (p : Player) (e : Enemy) :
    (update_homing K L p e).state = e.state ∨
      (update_homing K L p e).state = ActorState.DESTRUCT := by
  unfold update_homing
  simp only []
  split_ifs <;> simp

theorem update_enemy_live_not_dead (K : Config) (L : Lib) (f : Nat) (dt : ℚ) (p : Player)
    (e : Enemy) (bs : List Bullet) (h : e.state = ActorState.LIVE) :
    (update_enemy K L f dt p e bs).1.state ≠ ActorState.DEAD := by
  have ht := tick_reload_timer_live dt e h
  unfold update_enemy
  rw [if_neg (by rw [h]; decide)]
  simp only [ht]
  rw [if_neg (by decide)]
  simp only [trail_and_move]
  cases hty : (tick_reload_timer dt e).type
  · rcases update_shooter_state K L f p (tick_reload_timer dt e) bs with h1 | h1 <;>
      simp [h1, ht]
  · rcases update_dasher_state K L p (tick_reload_timer dt e) with h1 | h1 <;>
      simp [h1, ht]
  · rcases update_homing_state K L p (tick_reload_timer dt e) with h1 | h1 <;>
      simp [h1, ht]


theorem tick_reload_timer_position (dt : ℚ) (e : Enemy) :
    (tick_reload_timer dt e).position = e.position := by
  unfold tick_reload_timer
  simp only []
  split_ifs <;> rfl

theorem tick_reload_timer_type (dt : ℚ) (e : Enemy) :
    (tick_reload_timer dt e).type = e.type := by
  unfold tick_reload_timer
  simp only []
  split_ifs <;> rfl

/-- The bullets after the update of one enemy: the same, or one more when there was
room. -/
theorem update_enemy_bullets (K : Config) (L : Lib) (f : Nat) (dt : ℚ) (p : Player)
    (e : Enemy) (bs : List Bullet) :
    (update_enemy K L f dt p e bs).2 = bs ∨
      (bs.length < K.MAX_BULLETS ∧ ∃ b : Bullet, b.position = e.position ∧
        (update_enemy K L f dt p e bs).2 = bs ++ [b]) := by
  unfold update_enemy
  by_cases h1 : e.state = ActorState.DEAD
  · rw [if_pos h1]
    exact Or.inl rfl
  rw [if_neg h1]
  simp only []
  by_cases h2 : (tick_reload_timer dt e).state = ActorState.RELOADING ∨
      (tick_reload_timer dt e).state = ActorState.DESTRUCT
  · rw [if_pos h2]
    exact Or.inl rfl
  · rw [if_neg h2]
    cases hty : (tick_reload_timer dt e).type
    · simp only [update_shooter]
      by_cases hroom : bs.length < K.MAX_BULLETS
      · by_cases hfire : f = 0 ∨ f % toULL (tick_reload_timer dt e).fire_rate = 0
        · right
          refine ⟨hroom, create_bullet K L { tick_reload_timer dt e with
            shots_fired := (tick_reload_timer dt e).shots_fired + 1 } p, ?_, ?_⟩
          · simp [create_bullet, tick_reload_timer_position]
          · simp only [if_pos hfire, if_pos hroom]
            split_ifs <;> rfl
        · left
          simp only [if_neg hfire]
          split_ifs <;> rfl
      · left
        simp only [if_neg hroom]
        split_ifs <;> rfl
    · exact Or.inl rfl
    · exact Or.inl rfl

/-- A live shooter fires on frame 0 when there is room. -/
theorem update_enemy_shooter_frame_zero (K : Config) (L : Lib) (dt : ℚ) (p : Player)
    (e : Enemy) (bs : List Bullet) (hs : e.state = ActorState.LIVE)
    (hty : e.type = EnemyType.SHOOTER) (hroom : bs.length < K.MAX_BULLETS) :
    ∃ b : Bullet, b.position = e.position ∧ (update_enemy K L 0 dt p e bs).2 = bs ++ [b] := by
  have ht := tick_reload_timer_live dt e hs
  unfold update_enemy
  rw [if_neg (by rw [hs]; decide)]
  simp only [ht]
  rw [if_neg (by decide)]
  simp only [tick_reload_timer_type, hty, update_shooter]
  refine ⟨create_bullet K L { tick_reload_timer dt e with
    shots_fired := (tick_reload_timer dt e).shots_fired + 1 } p, ?_, ?_⟩
  · simp [create_bullet, tick_reload_timer_position]
  · simp only [true_or, if_true, if_pos hroom]
    split_ifs <;> rfl

end Updates

/-! ## The frame of a tap after the game is over -/

section Reset

theorem check_enemy_collisions_nil (K : Config) (L : Lib) (p : Player) :
    check_enemy_collisions K L p [] = [] := rfl

theorem check_enemy_enemy_collisions_nil (L : Lib) :
    check_enemy_enemy_collisions L [] = [] := rfl

/-- The frame of a tap in `GAME_OVER`, in full: the counters are 0, the player is the one
of `create_game_world` teleported to the touch position, and the collections are those of
frame 0 of the new world. -/
theorem frame_reset (K : Config) (L : Lib) (inp : FrameInput) (g : Game)
    (hg : g.game_world.state = WorldState.GAME_OVER) (ht : inp.tap = true)
    (hS : 0 ≤ K.INITIAL_PLAYER_SHIELDS) :
    frame K L inp g =
      { frames_count := 0,
        score := 0,
        game_world :=
          { player := { (create_game_world K).player with position := inp.touch_position },
            enemies := remove_dead (update_enemies K L 0 inp.frame_time
              { (create_game_world K).player with position := inp.touch_position }
              (spawn_enemy K inp.rand 0 []) []).1,
            bullets := update_bullets K L (update_enemies K L 0 inp.frame_time
              { (create_game_world K).player with position := inp.touch_position }
              (spawn_enemy K inp.rand 0 []) []).2,
            state := WorldState.RUNNING } } := by
  have hS' : ¬ K.INITIAL_PLAYER_SHIELDS < 0 := not_lt.mpr hS
  simp [frame, enemy_stage, player_stage, tick_counters, reset_on_tap, hg, ht, teleport,
    resolve_player, bullet_hit,
    blast_hit, player_enemy_hits, death_check, enemy_enemy_hits, spawn_and_update,
    create_game_world, check_bullet_collisions, check_homer_blast_collisions,
    check_enemy_collisions_nil, check_enemy_enemy_collisions_nil, hS']

theorem create_enemy_zero_type (K : Config) (rand : Nat → Nat) :
    (create_enemy K rand 0).type = EnemyType.SHOOTER := by
  simp [create_enemy, enemy_order]

/-- The collections at the end of the frame of a reset: the first enemy after its first
update, and the bullets it fired, after `update_bullets`. -/
theorem frame_reset_collections (K : Config) (L : Lib) (inp : FrameInput) (g : Game)
    (hg : g.game_world.state = WorldState.GAME_OVER) (ht : inp.tap = true)
    (hS : 0 ≤ K.INITIAL_PLAYER_SHIELDS) (hM : 0 < K.MAX_ENEMIES) :
    (frame K L inp g).game_world.enemies =
        [(update_enemy K L 0 inp.frame_time
          { (create_game_world K).player with position := inp.touch_position }
          (create_enemy K inp.rand 0) []).1] ∧
      (frame K L inp g).game_world.bullets =
        update_bullets K L (update_enemy K L 0 inp.frame_time
          { (create_game_world K).player with position := inp.touch_position }
          (create_enemy K inp.rand 0) []).2 := by
  rw [frame_reset K L inp g hg ht hS]
  have hsp : spawn_enemy K inp.rand 0 [] = [create_enemy K inp.rand 0] := by
    simp [spawn_enemy, hM]
  have hlive := update_enemy_live_not_dead K L 0 inp.frame_time
    { (create_game_world K).player with position := inp.touch_position }
    (create_enemy K inp.rand 0) [] rfl
  simp only [hsp, update_enemies, remove_dead_eq]
  simp [hlive]

end Reset

section ResetClaims

/-- C2, as amended: the frame of a tap in `GAME_OVER` drops every enemy and bullet of the
old world, and then runs on as frame 0 of the new one: it spawns the first enemy
`create_enemy(0)` and updates it. At the end of the frame the enemy collection is
exactly that enemy, which is not `DEAD`, and the bullet collection holds at most one
bullet; it holds one when `MAX_BULLETS` is positive and the enemy spawned inside
`BULLET_BOUNDS`. (`FRAME_RATE` is positive: the spawn test is a modulus by it.) -/
theorem reset_frame_spawns_first_enemy (K : Config) (L : Lib) (inp : FrameInput) (g : Game)
    (hg : g.game_world.state = WorldState.GAME_OVER) (ht : inp.tap = true)
    (hS : 0 ≤ K.INITIAL_PLAYER_SHIELDS) (hM : 0 < K.MAX_ENEMIES) (_hF : 0 < K.FRAME_RATE) :
    (frame K L inp g).game_world.enemies =
        [(update_enemy K L 0 inp.frame_time
          { (create_game_world K).player with position := inp.touch_position }
          (create_enemy K inp.rand 0) []).1] ∧
      (∀ e ∈ (frame K L inp g).game_world.enemies, e.state ≠ ActorState.DEAD) ∧
      (frame K L inp g).game_world.bullets.length ≤ 1 ∧
      (0 < K.MAX_BULLETS →
        L.CheckCollisionPointRec (create_enemy K inp.rand 0).position K.BULLET_BOUNDS = true →
        (frame K L inp g).game_world.bullets.length = 1) := by
  obtain ⟨hen, hbu⟩ := frame_reset_collections K L inp g hg ht hS hM
  refine ⟨hen, ?_, ?_, ?_⟩
  · intro e he
    rw [hen, List.mem_singleton] at he
    rw [he]
    exact update_enemy_live_not_dead K L 0 inp.frame_time _ _ [] rfl
  · rw [hbu, update_bullets_eq, List.length_map]
    refine le_trans (List.length_filter_le _ _) ?_
    rcases update_enemy_bullets K L 0 inp.frame_time
      { (create_game_world K).player with position := inp.touch_position }
      (create_enemy K inp.rand 0) [] with h | ⟨_, b, _, h⟩ <;> simp [h]
  · intro hB hin
    obtain ⟨b, hpos, hb⟩ := update_enemy_shooter_frame_zero K L inp.frame_time
      { (create_game_world K).player with position := inp.touch_position }
      (create_enemy K inp.rand 0) [] rfl (create_enemy_zero_type K inp.rand) hB
    rw [hbu, update_bullets_eq, hb]
    simp [hpos, hin]

/-- Under `sample_config` and `tap_input` the first enemy spawns inside `BULLET_BOUNDS`. -/
theorem sample_spawn_in_bounds :
    raylib.CheckCollisionPointRec (create_enemy sample_config tap_input.rand 0).position
      sample_config.BULLET_BOUNDS = true := by
  have h2 : Int.tdiv 800 2 = 400 := by decide
  simp [create_enemy, GetRandomValue, sample_config, raylib, raylibCheckCollisionPointRec,
    tap_input, h2]
  norm_num

/-- C2, as amended, on `over_game` and `tap_input`: one enemy and one bullet at the end
of the frame of the reset. -/
theorem reset_frame_spawns_first_enemy_witness :
    (frame sample_config raylib tap_input over_game).game_world.enemies.length = 1 ∧
      (frame sample_config raylib tap_input over_game).game_world.bullets.length = 1 := by
  have h := reset_frame_spawns_first_enemy sample_config raylib tap_input over_game rfl rfl
    (by decide) (by decide) (by decide)
  refine ⟨?_, h.2.2.2 (by decide) sample_spawn_in_bounds⟩
  rw [h.1]
  rfl

/-- C2 as stated fails on `over_game` and `tap_input`: the world is `GAME_OVER`, the frame
has a tap, and at its end neither the enemy collection nor the bullet collection is
empty. -/
theorem reset_frame_not_empty_counterexample :
    over_game.game_world.state = WorldState.GAME_OVER ∧ tap_input.tap = true ∧
      (frame sample_config raylib tap_input over_game).game_world.enemies ≠ [] ∧
      (frame sample_config raylib tap_input over_game).game_world.bullets ≠ [] := by
  obtain ⟨hen, hbu⟩ := frame_reset_collections sample_config raylib tap_input over_game
    rfl rfl (by decide) (by decide)
  refine ⟨rfl, rfl, ?_, ?_⟩
  · rw [hen]
    exact List.cons_ne_nil _ _
  · obtain ⟨b, hpos, hb⟩ := update_enemy_shooter_frame_zero sample_config raylib
      tap_input.frame_time
      { (create_game_world sample_config).player with position := tap_input.touch_position }
      (create_enemy sample_config tap_input.rand 0) [] rfl
      (create_enemy_zero_type sample_config tap_input.rand) (by decide)
    rw [hbu, update_bullets_eq, hb]
    have hin := sample_spawn_in_bounds
    simp [hpos, hin]

/-- C3: the frame of a tap in `GAME_OVER` ends with the shield at
`INITIAL_PLAYER_SHIELDS`, the score 0, the frame counter 0, the player `LIVE` and the
world `RUNNING`, whatever the world was, when `INITIAL_PLAYER_SHIELDS` is not negative. -/
theorem reset_frame_restores_player (K : Config) (L : Lib) (inp : FrameInput) (g : Game)
    (hg : g.game_world.state = WorldState.GAME_OVER) (ht : inp.tap = true)
    (hS : 0 ≤ K.INITIAL_PLAYER_SHIELDS) :
    (frame K L inp g).game_world.player.shield = K.INITIAL_PLAYER_SHIELDS ∧
      (frame K L inp g).score = 0 ∧
      (frame K L inp g).frames_count = 0 ∧
      (frame K L inp g).game_world.player.state = ActorState.LIVE ∧
      (frame K L inp g).game_world.state = WorldState.RUNNING := by
  rw [frame_reset K L inp g hg ht hS]
  exact ⟨rfl, rfl, rfl, rfl, rfl⟩

/-- C3 on `over_game` and `tap_input`. -/
theorem reset_frame_restores_player_witness :
    (frame sample_config raylib tap_input over_game).game_world.player.shield = 3 ∧
      (frame sample_config raylib tap_input over_game).score = 0 ∧
      (frame sample_config raylib tap_input over_game).frames_count = 0 ∧
      (frame sample_config raylib tap_input over_game).game_world.player.state =
        ActorState.LIVE ∧
      (frame sample_config raylib tap_input over_game).game_world.state =
        WorldState.RUNNING :=
  reset_frame_restores_player sample_config raylib tap_input over_game rfl rfl (by decide)

end ResetClaims

/-! ## The player's collisions -/

section PlayerCollisions

variable (K : Config) (L : Lib)

theorem range_flatMap_shift {β : Type} (G : Nat → List β) (n : Nat) :
    (List.range (n + 1)).flatMap G = G 0 ++ (List.range n).flatMap fun i => G (i + 1) := by
  rw [List.range_succ_eq_map, List.flatMap_cons, List.flatMap_map]

theorem hit_indices_from_eq (p : Player) (es : List Enemy) (off : Nat) :
    ((List.range es.length).flatMap fun i =>
        match es[i]? with
        | some e => if hits_player K L p e then [i + off] else []
        | none => []) = hit_indices_from K L p off es := by
  induction es generalizing off with
  | nil => rfl
  | cons e es ih =>
    rw [List.length_cons, range_flatMap_shift, hit_indices_from, ← ih (off + 1)]
    simp [Nat.add_assoc, Nat.add_comm 1 off]

theorem check_enemy_collisions_eq (p : Player) (es : List Enemy) :
    check_enemy_collisions K L p es = hit_indices_from K L p 0 es := by
  rw [← hit_indices_from_eq]
  unfold check_enemy_collisions
  rw [← List.nil_append (List.flatMap _ _), ← foldl_push]
  congr 1
  funext out i
  unfold hits_player
  cases es[i]? with
  | none => simp
  | some e => by_cases h : L.CheckCollisionCircleRec p.position K.PLAYER_RADIUS (enemy_rect e) = true <;> simp [h]

theorem modifyAt_append_length {α : Type} (f : α → α) (pre : List α) (a : α) (l : List α) :
    modifyAt f (pre ++ a :: l) pre.length = pre ++ f a :: l := by
  induction pre with
  | nil => rfl
  | cons x pre ih => simp [modifyAt, ih]

theorem player_enemy_step_at (w : GameWorld) (pre : List Enemy) (e : Enemy) (es : List Enemy)
    (hw : w.enemies = pre ++ e :: es) :
    player_enemy_step w pre.length =
      if e.state = ActorState.RELOADING then { w with enemies := pre ++ kill e :: es }
      else { w with player := { w.player with shield := w.player.shield - 1 } } := by
  unfold player_enemy_step
  have : w.enemies[pre.length]? = some e := by
    rw [hw, List.getElem?_append_right (le_refl _)]
    simp
  rw [this]
  simp only []
  split
  · rw [hw, modifyAt_append_length]
  · rfl

theorem foldl_player_enemy_step (p : Player) (es : List Enemy) :
    ∀ (pre : List Enemy) (w : GameWorld), w.enemies = pre ++ es →
      (hit_indices_from K L p pre.length es).foldl player_enemy_step w =
        { w with
          enemies := pre ++ es.map (hit_enemy K L p),
          player := { w.player with
            shield := w.player.shield -
              (es.countP fun e =>
                hits_player K L p e && decide (e.state ≠ ActorState.RELOADING) : Nat) } } := by
  induction es with
  | nil =>
    intro pre w hw
    simp [hit_indices_from, ← hw]
  | cons e es ih =>
    intro pre w hw
    have hlen : (pre ++ [hit_enemy K L p e]).length = pre.length + 1 := by simp
    rw [hit_indices_from, List.foldl_append]
    by_cases hh : hits_player K L p e = true
    · rw [if_pos hh, List.foldl_cons, List.foldl_nil, player_enemy_step_at w pre e es hw]
      by_cases hr : e.state = ActorState.RELOADING
      · rw [if_pos hr, ← hlen, ih (pre ++ [hit_enemy K L p e]) _
          (by simp [hit_enemy, hh, hr])]
        simp [hit_enemy, hh, hr]
      · rw [if_neg hr, ← hlen, ih (pre ++ [hit_enemy K L p e]) _
          (by simp [hit_enemy, hh, hr, hw])]
        simp [hit_enemy, hh, hr, List.countP_cons]
        omega
    · rw [if_neg hh, List.foldl_nil, ← hlen, ih (pre ++ [hit_enemy K L p e]) _
        (by simp [hit_enemy, hh, hw])]
      simp [hit_enemy, hh, List.countP_cons]

theorem player_enemy_hits_eq (w : GameWorld) :
    player_enemy_hits K L w =
      { w with
        enemies := w.enemies.map (hit_enemy K L w.player),
        player := { w.player with
          shield := w.player.shield -
            (w.enemies.countP fun e =>
              hits_player K L w.player e && decide (e.state ≠ ActorState.RELOADING) : Nat) } } := by
  unfold player_enemy_hits
  rw [check_enemy_collisions_eq]
  have := foldl_player_enemy_step K L w.player w.enemies [] w rfl
  simpa using this

end PlayerCollisions

/-! ## The player across a frame -/

section PlayerFrame

variable (K : Config) (L : Lib)

theorem hits_player_congr (p q : Player) (h : p.position = q.position) :
    hits_player K L p = hits_player K L q := by
  funext e
  simp only [hits_player, h]

theorem hit_enemy_congr (p q : Player) (h : p.position = q.position) :
    hit_enemy K L p = hit_enemy K L q := by
  funext e
  simp only [hit_enemy, hits_player_congr K L p q h]

theorem check_homer_blast_collisions_congr (p q : Player) (h : p.position = q.position)
    (es : List Enemy) :
    check_homer_blast_collisions K L p es = check_homer_blast_collisions K L q es := by
  simp only [check_homer_blast_collisions, h]

theorem bullet_hit_eq (w : GameWorld) :
    bullet_hit K L w =
      { w with player := { w.player with
          shield := w.player.shield -
            ((if check_bullet_collisions K L w.player w.bullets then 1 else 0 : Nat) : Int) } } := by
  unfold bullet_hit
  split <;> simp

theorem blast_hit_eq (w : GameWorld) :
    blast_hit K L w =
      { w with player := { w.player with
          shield := w.player.shield -
            ((if check_homer_blast_collisions K L w.player w.enemies then 1 else 0 : Nat) :
              Int) } } := by
  unfold blast_hit
  split <;> simp

/-- Lines 63-85 together: the enemies that meet the player while `RELOADING` die, and the
shield drops by `shield_loss`. -/
theorem collisions_eq (w : GameWorld) :
    player_enemy_hits K L (blast_hit K L (bullet_hit K L w)) =
      { w with
        enemies := w.enemies.map (hit_enemy K L w.player),
        player := { w.player with shield := w.player.shield - (shield_loss K L w : Nat) } } := by
  have h1 : ∀ s : Int, hits_player K L { w.player with shield := s } =
      hits_player K L w.player := fun _ => rfl
  have h2 : ∀ s : Int, hit_enemy K L { w.player with shield := s } =
      hit_enemy K L w.player := fun _ => rfl
  have h3 : ∀ s : Int, check_homer_blast_collisions K L { w.player with shield := s } =
      check_homer_blast_collisions K L w.player := fun _ => rfl
  rw [player_enemy_hits_eq, blast_hit_eq, bullet_hit_eq]
  simp only [shield_loss, h1, h2, h3]
  congr 2
  push_cast
  ring

theorem foldl_enemy_enemy_step_frame (idxs : List Nat) (g : Game) :
    (idxs.foldl (enemy_enemy_step K) g).game_world.player = g.game_world.player ∧
      (idxs.foldl (enemy_enemy_step K) g).game_world.state = g.game_world.state ∧
      (idxs.foldl (enemy_enemy_step K) g).game_world.bullets = g.game_world.bullets ∧
      (idxs.foldl (enemy_enemy_step K) g).game_world.enemies.length =
        g.game_world.enemies.length ∧
      (idxs.foldl (enemy_enemy_step K) g).frames_count = g.frames_count := by
  induction idxs generalizing g with
  | nil => exact ⟨rfl, rfl, rfl, rfl, rfl⟩
  | cons i idxs ih =>
    rw [List.foldl_cons]
    obtain ⟨h1, h2, h3, h4, h5⟩ := ih (enemy_enemy_step K g i)
    refine ⟨h1, h2, h3, ?_, h5⟩
    rw [h4]
    exact length_modifyAt _ _ _

/-- The enemy-enemy step leaves the player, the world state, the bullets, the number of
enemies and the frame counter as they are. -/
theorem enemy_enemy_hits_frame (g : Game) :
    (enemy_enemy_hits K L g).game_world.player = g.game_world.player ∧
      (enemy_enemy_hits K L g).game_world.state = g.game_world.state ∧
      (enemy_enemy_hits K L g).game_world.bullets = g.game_world.bullets ∧
      (enemy_enemy_hits K L g).game_world.enemies.length = g.game_world.enemies.length ∧
      (enemy_enemy_hits K L g).frames_count = g.frames_count :=
  foldl_enemy_enemy_step_frame K _ g

/-- The spawn and the update of the enemies leave the player, the world state, the frame
counter and the score as they are. -/
theorem spawn_and_update_frame (inp : FrameInput) (g : Game) :
    (spawn_and_update K L inp g).game_world.player = g.game_world.player ∧
      (spawn_and_update K L inp g).game_world.state = g.game_world.state ∧
      (spawn_and_update K L inp g).frames_count = g.frames_count ∧
      (spawn_and_update K L inp g).score = g.score := by
  unfold spawn_and_update
  split <;> exact ⟨rfl, rfl, rfl, rfl⟩

/-- The player and the world state at the end of a frame are the ones after the death
check. -/
theorem frame_player (inp : FrameInput) (g : Game) :
    (frame K L inp g).game_world.player =
        (resolve_player K L (teleport inp (reset_on_tap K inp.tap
          (decide (g.game_world.state = WorldState.GAME_OVER))
          (tick_counters g)).game_world)).player ∧
      (frame K L inp g).game_world.state =
        (resolve_player K L (teleport inp (reset_on_tap K inp.tap
          (decide (g.game_world.state = WorldState.GAME_OVER))
          (tick_counters g)).game_world)).state := by
  constructor
  · simp only [frame, enemy_stage, (spawn_and_update_frame K L inp _).1,
      (enemy_enemy_hits_frame K L _).1, player_stage]
  · simp only [frame, enemy_stage, (spawn_and_update_frame K L inp _).2.1,
      (enemy_enemy_hits_frame K L _).2.1, player_stage]

theorem tick_counters_world (g : Game) : (tick_counters g).game_world = g.game_world := by
  unfold tick_counters
  split <;> rfl

/-- The player at the end of a frame without a tap that a dead player begins: still
dead, the shield lower by `shield_loss`. -/
theorem frame_dead_player (inp : FrameInput) (g : Game)
    (hd : g.game_world.player.state = ActorState.DEAD) (ht : inp.tap = false) :
    (frame K L inp g).game_world.player =
      { g.game_world.player with
        shield := g.game_world.player.shield - (shield_loss K L g.game_world : Nat) } := by
  rw [(frame_player K L inp g).1]
  simp only [reset_on_tap, ht, Bool.false_and, Bool.false_eq_true, if_false,
    tick_counters_world, teleport, and_false, resolve_player, collisions_eq, death_check, hd,
    ne_eq, not_true_eq_false]

/-- The player and the world at the end of a frame that a live player begins in a
running world. -/
theorem frame_live_player (inp : FrameInput) (g : Game)
    (hl : g.game_world.player.state = ActorState.LIVE)
    (hr : g.game_world.state = WorldState.RUNNING) :
    (frame K L inp g).game_world.player.shield =
        g.game_world.player.shield - (shield_loss K L (teleport inp g.game_world) : Nat) ∧
      (frame K L inp g).game_world.player.state =
        (if g.game_world.player.shield - (shield_loss K L (teleport inp g.game_world) : Nat) < 0
          then ActorState.DEAD else ActorState.LIVE) ∧
      (frame K L inp g).game_world.state =
        (if g.game_world.player.shield - (shield_loss K L (teleport inp g.game_world) : Nat) < 0
          then WorldState.GAME_OVER else WorldState.RUNNING) := by
  have hts : (teleport inp g.game_world).player.shield = g.game_world.player.shield := by
    unfold teleport
    split <;> rfl
  have htl : (teleport inp g.game_world).player.state = ActorState.LIVE := by
    unfold teleport
    split <;> exact hl
  have htr : (teleport inp g.game_world).state = WorldState.RUNNING := by
    unfold teleport
    split <;> exact hr
  rw [(frame_player K L inp g).1, (frame_player K L inp g).2]
  have hno : reset_on_tap K inp.tap (decide (g.game_world.state = WorldState.GAME_OVER))
      (tick_counters g) = tick_counters g := by
    simp [reset_on_tap, hr]
  rw [hno, tick_counters_world]
  simp only [resolve_player, collisions_eq, death_check, htl, hts, htr]
  split_ifs <;> simp_all

end PlayerFrame

section PlayerClaims

/-- On `over_game` the bullet and the enemy each cost a shield. -/
theorem over_game_shield_loss : shield_loss sample_config raylib over_game.game_world = 2 := by
  simp [shield_loss, check_bullet_collisions, check_homer_blast_collisions, hits_player,
    over_game, sample_enemy, raylib, raylibCheckCollisionCircles,
    raylibCheckCollisionCircleRec, enemy_rect, sample_config, List.countP_cons]
  norm_num

/-- On `hit_game` the bullet costs a shield. -/
theorem hit_game_shield_loss (s : Int) :
    shield_loss sample_config raylib (teleport idle_input (hit_game s).game_world) = 1 := by
  simp [shield_loss, check_bullet_collisions, check_homer_blast_collisions, hits_player,
    hit_game, raylib, raylibCheckCollisionCircles, teleport, idle_input, sample_config]
  norm_num

/-- C4, as amended: a frame without a tap that begins with the player `DEAD` leaves the
player `DEAD` and never raises the shield, but the collision steps still run: the shield
drops by `shield_loss`, one for a bullet hit, one for a blast hit and one for each enemy
that meets the player and is not `RELOADING`. It is unchanged when that number is 0. -/
theorem dead_player_shield_still_drops (K : Config) (L : Lib) (inp : FrameInput) (g : Game)
    (hd : g.game_world.player.state = ActorState.DEAD) (ht : inp.tap = false) :
    (frame K L inp g).game_world.player.state = ActorState.DEAD ∧
      (frame K L inp g).game_world.player.shield =
        g.game_world.player.shield - (shield_loss K L g.game_world : Nat) ∧
      (frame K L inp g).game_world.player.shield ≤ g.game_world.player.shield ∧
      (shield_loss K L g.game_world = 0 →
        (frame K L inp g).game_world.player.shield = g.game_world.player.shield) := by
  rw [frame_dead_player K L inp g hd ht]
  refine ⟨hd, rfl, ?_, ?_⟩
  · simp
  · intro h0
    simp [h0]

/-- C4, as amended, on `over_game` and `idle_input`: the dead player's shield goes from
-1 to -3. -/
theorem dead_player_shield_still_drops_witness :
    (frame sample_config raylib idle_input over_game).game_world.player.state =
        ActorState.DEAD ∧
      (frame sample_config raylib idle_input over_game).game_world.player.shield = -3 := by
  have h := dead_player_shield_still_drops sample_config raylib idle_input over_game rfl rfl
  refine ⟨h.1, ?_⟩
  rw [h.2.1, over_game_shield_loss]
  rfl

/-- C4 as stated fails on `over_game` and `idle_input`: the player is `DEAD`, the frame
has no tap, and the shield ends the frame at -3, not at the -1 it had. -/
theorem dead_player_shield_unchanged_counterexample :
    over_game.game_world.player.state = ActorState.DEAD ∧ idle_input.tap = false ∧
      over_game.game_world.player.shield = -1 ∧
      (frame sample_config raylib idle_input over_game).game_world.player.shield = -3 := by
  refine ⟨rfl, rfl, rfl, ?_⟩
  rw [frame_dead_player sample_config raylib idle_input over_game rfl rfl,
    over_game_shield_loss]
  rfl

/-- C5: in a frame that begins with the player `LIVE` and the world `RUNNING`, the shield
at the end of the frame is the one after the collisions; when it is 0 or more the player
is still `LIVE` and the world `RUNNING`, when it is negative the player is `DEAD` and
the world `GAME_OVER`. -/
theorem live_player_death_boundary (K : Config) (L : Lib) (inp : FrameInput) (g : Game)
    (hl : g.game_world.player.state = ActorState.LIVE)
    (hr : g.game_world.state = WorldState.RUNNING) :
    (frame K L inp g).game_world.player.shield =
        g.game_world.player.shield - (shield_loss K L (teleport inp g.game_world) : Nat) ∧
      (0 ≤ (frame K L inp g).game_world.player.shield →
        (frame K L inp g).game_world.player.state = ActorState.LIVE ∧
          (frame K L inp g).game_world.state = WorldState.RUNNING) ∧
      ((frame K L inp g).game_world.player.shield < 0 →
        (frame K L inp g).game_world.player.state = ActorState.DEAD ∧
          (frame K L inp g).game_world.state = WorldState.GAME_OVER) := by
  obtain ⟨hs, hp, hw⟩ := frame_live_player K L inp g hl hr
  rw [hp, hw, hs]
  refine ⟨rfl, ?_, ?_⟩
  · intro h
    rw [if_neg (not_lt.mpr h), if_neg (not_lt.mpr h)]
    exact ⟨rfl, rfl⟩
  · intro h
    rw [if_pos h, if_pos h]
    exact ⟨rfl, rfl⟩

/-- C5 on `hit_game`, where one bullet hits the player: from shield 1 the frame ends at
shield 0 with the player `LIVE` and the world `RUNNING`; from shield 0 it ends at -1
with the player `DEAD` and the world `GAME_OVER`. -/
theorem live_player_death_boundary_witness :
    ((frame sample_config raylib idle_input (hit_game 1)).game_world.player.shield = 0 ∧
        (frame sample_config raylib idle_input (hit_game 1)).game_world.player.state =
          ActorState.LIVE ∧
        (frame sample_config raylib idle_input (hit_game 1)).game_world.state =
          WorldState.RUNNING) ∧
      ((frame sample_config raylib idle_input (hit_game 0)).game_world.player.shield = -1 ∧
        (frame sample_config raylib idle_input (hit_game 0)).game_world.player.state =
          ActorState.DEAD ∧
        (frame sample_config raylib idle_input (hit_game 0)).game_world.state =
          WorldState.GAME_OVER) := by
  have h1 := live_player_death_boundary sample_config raylib idle_input (hit_game 1) rfl rfl
  have h0 := live_player_death_boundary sample_config raylib idle_input (hit_game 0) rfl rfl
  rw [hit_game_shield_loss] at h1 h0
  have e1 : (frame sample_config raylib idle_input (hit_game 1)).game_world.player.shield = 0 :=
    h1.1
  have e0 : (frame sample_config raylib idle_input (hit_game 0)).game_world.player.shield = -1 :=
    h0.1
  exact ⟨⟨e1, h1.2.1 (by rw [e1])⟩, ⟨e0, h0.2.2 (by rw [e0]; decide)⟩⟩

end PlayerClaims

/-! ## The capacities of the collections -/

section Capacity

variable (K : Config) (L : Lib)

theorem update_enemies_length (f : Nat) (dt : ℚ) (p : Player) (es : List Enemy)
    (bs : List Bullet) : (update_enemies K L f dt p es bs).1.length = es.length := by
  induction es generalizing bs with
  | nil => rfl
  | cons e es ih => simp [update_enemies, ih]

theorem update_enemy_bullets_le (f : Nat) (dt : ℚ) (p : Player) (e : Enemy)
    (bs : List Bullet) (h : bs.length ≤ K.MAX_BULLETS) :
    (update_enemy K L f dt p e bs).2.length ≤ K.MAX_BULLETS := by
  rcases update_enemy_bullets K L f dt p e bs with h1 | ⟨hlt, b, _, h1⟩
  · rw [h1]
    exact h
  · rw [h1, List.length_append]
    exact hlt

theorem update_enemies_bullets_le (f : Nat) (dt : ℚ) (p : Player) (es : List Enemy)
    (bs : List Bullet) (h : bs.length ≤ K.MAX_BULLETS) :
    (update_enemies K L f dt p es bs).2.length ≤ K.MAX_BULLETS := by
  induction es generalizing bs with
  | nil => exact h
  | cons e es ih =>
    simp only [update_enemies]
    exact ih _ (update_enemy_bullets_le K L f dt p e bs h)

theorem spawn_enemy_length_le (rand : Nat → Nat) (f : Nat) (es : List Enemy)
    (h : es.length ≤ K.MAX_ENEMIES) : (spawn_enemy K rand f es).length ≤ K.MAX_ENEMIES := by
  unfold spawn_enemy
  simp only []
  by_cases hc : es.length < K.MAX_ENEMIES ∧
      f % (K.FRAME_RATE * (if es.length ≠ 0 then 5 else 1)) = 0
  · rw [if_pos hc, List.length_append]
    exact hc.1
  · rw [if_neg hc]
    exact h

/-- At full capacity no enemy is spawned. -/
theorem spawn_enemy_full (rand : Nat → Nat) (f : Nat) (es : List Enemy)
    (h : K.MAX_ENEMIES ≤ es.length) : spawn_enemy K rand f es = es := by
  unfold spawn_enemy
  simp only []
  rw [if_neg]
  intro hc
  exact absurd hc.1 (Nat.not_lt.mpr h)

/-- At full capacity no bullet is fired. -/
theorem update_enemy_bullets_full (f : Nat) (dt : ℚ) (p : Player) (e : Enemy)
    (bs : List Bullet) (h : K.MAX_BULLETS ≤ bs.length) :
    (update_enemy K L f dt p e bs).2 = bs := by
  rcases update_enemy_bullets K L f dt p e bs with h1 | ⟨hlt, _⟩
  · exact h1
  · exact absurd hlt (Nat.not_lt.mpr h)

theorem resolve_player_collections (w : GameWorld) :
    (resolve_player K L w).enemies.length = w.enemies.length ∧
      (resolve_player K L w).bullets = w.bullets := by
  unfold resolve_player
  rw [collisions_eq]
  unfold death_check
  split <;> simp

theorem teleport_collections (inp : FrameInput) (w : GameWorld) :
    (teleport inp w).enemies = w.enemies ∧ (teleport inp w).bullets = w.bullets := by
  unfold teleport
  split <;> exact ⟨rfl, rfl⟩

theorem reset_within_capacity (tap over : Bool) (g : Game) (h : within_capacity K g) :
    within_capacity K (reset_on_tap K tap over (tick_counters g)) := by
  unfold reset_on_tap
  split
  · exact ⟨Nat.zero_le _, Nat.zero_le _⟩
  · unfold within_capacity
    rw [tick_counters_world]
    exact h

theorem spawn_and_update_within_capacity (inp : FrameInput) (g : Game)
    (h : within_capacity K g) : within_capacity K (spawn_and_update K L inp g) := by
  unfold spawn_and_update
  split
  · constructor
    · simp only []
      rw [update_enemies_length]
      exact spawn_enemy_length_le K _ _ _ h.1
    · exact update_enemies_bullets_le K L _ _ _ _ _ h.2
  · exact h

theorem player_stage_within_capacity (inp : FrameInput) (g : Game)
    (h : within_capacity K g) : within_capacity K (player_stage K L inp g) := by
  have h2 := reset_within_capacity K inp.tap
    (decide (g.game_world.state = WorldState.GAME_OVER)) g h
  unfold within_capacity player_stage
  simp only []
  rw [(resolve_player_collections K L _).1, (resolve_player_collections K L _).2,
    (teleport_collections inp _).1, (teleport_collections inp _).2]
  exact h2

theorem enemy_stage_within_capacity (inp : FrameInput) (g : Game)
    (h : within_capacity K g) : within_capacity K (enemy_stage K L inp g) := by
  have h3 := player_stage_within_capacity K L inp g h
  have h4 : within_capacity K (enemy_enemy_hits K L (player_stage K L inp g)) :=
    ⟨by rw [(enemy_enemy_hits_frame K L _).2.2.2.1]; exact h3.1,
     by rw [(enemy_enemy_hits_frame K L _).2.2.1]; exact h3.2⟩
  exact spawn_and_update_within_capacity K L inp _ h4

/-- The collections at the end of a frame: the ones after the update of the enemies,
pruned. -/
theorem frame_collections (inp : FrameInput) (g : Game) :
    (frame K L inp g).game_world.enemies =
        remove_dead (enemy_stage K L inp g).game_world.enemies ∧
      (frame K L inp g).game_world.bullets =
        update_bullets K L (enemy_stage K L inp g).game_world.bullets := by
  constructor <;> simp only [frame]

theorem frame_within_capacity (inp : FrameInput) (g : Game) (h : within_capacity K g) :
    within_capacity K (frame K L inp g) := by
  have h5 := enemy_stage_within_capacity K L inp g h
  unfold within_capacity at h5 ⊢
  rw [(frame_collections K L inp g).1, (frame_collections K L inp g).2, remove_dead_eq,
    update_bullets_eq, List.length_map]
  exact ⟨le_trans (List.length_filter_le _ _) h5.1, le_trans (List.length_filter_le _ _) h5.2⟩

theorem reachable_within_capacity (g : Game) (h : Reachable K L g) : within_capacity K g := by
  induction h with
  | init => exact ⟨Nat.zero_le _, Nat.zero_le _⟩
  | step inp g _ ih => exact frame_within_capacity K L inp g ih

end Capacity

section CapacityClaim

/-- C6: in every state reachable from `create_game_world` the enemy collection holds at
most `MAX_ENEMIES` enemies and the bullet collection at most `MAX_BULLETS` bullets; at
full capacity the spawn step adds no enemy and the update of an enemy adds no bullet. -/
theorem collections_within_capacity (K : Config) (L : Lib) (g : Game)
    (h : Reachable K L g) :
    g.game_world.enemies.length ≤ K.MAX_ENEMIES ∧
      g.game_world.bullets.length ≤ K.MAX_BULLETS ∧
      (∀ (rand : Nat → Nat) (f : Nat) (es : List Enemy), K.MAX_ENEMIES ≤ es.length →
        spawn_enemy K rand f es = es) ∧
      (∀ (f : Nat) (dt : ℚ) (p : Player) (e : Enemy) (bs : List Bullet),
        K.MAX_BULLETS ≤ bs.length → (update_enemy K L f dt p e bs).2 = bs) :=
  ⟨(reachable_within_capacity K L g h).1, (reachable_within_capacity K L g h).2,
    spawn_enemy_full K, update_enemy_bullets_full K L⟩

end CapacityClaim

/-! ## The flight of the bullets -/

section Bullets

/-- C7, as amended: `update_bullets` tests the position a bullet has before this frame's
move. The returned collection is exactly the bullets that were inside `BULLET_BOUNDS`
before the move, each moved by its velocity, and a bullet that was outside before the
move is dropped; a returned bullet may lie outside the bounds after its move. -/
theorem update_bullets_tests_before_move (K : Config) (L : Lib) (bullets : List Bullet) :
    (∀ b' : Bullet, b' ∈ update_bullets K L bullets ↔
        ∃ b ∈ bullets, L.CheckCollisionPointRec b.position K.BULLET_BOUNDS = true ∧
          move_bullet b = b') ∧
      (∀ b : Bullet, L.CheckCollisionPointRec b.position K.BULLET_BOUNDS = false →
        update_bullets K L (b :: bullets) = update_bullets K L bullets) := by
  constructor
  · intro b'
    rw [update_bullets_eq]
    simp only [List.mem_map, List.mem_filter, and_assoc]
  · intro b hb
    rw [update_bullets_eq, update_bullets_eq, List.filter_cons]
    simp [hb]

/-- C7 as stated fails on `edge_bullet`: it is returned by `update_bullets`, moved to
x = 802, which is outside `BULLET_BOUNDS`. -/
theorem update_bullets_out_of_bounds_counterexample :
    update_bullets sample_config raylib [edge_bullet] = [move_bullet edge_bullet] ∧
      raylib.CheckCollisionPointRec (move_bullet edge_bullet).position
        sample_config.BULLET_BOUNDS = false := by
  constructor
  · rw [update_bullets_eq]
    simp [edge_bullet, raylib, raylibCheckCollisionPointRec, sample_config]
    norm_num
  · simp [edge_bullet, move_bullet, raylib, raylibCheckCollisionPointRec, sample_config]
    norm_num

theorem move_bullet_after (n : Nat) (b : Bullet) :
    move_bullet (bullet_after n b) = bullet_after (n + 1) b := by
  simp only [move_bullet, bullet_after, Nat.cast_add, Nat.cast_one]
  congr 2 <;> ring

theorem bullet_after_zero (b : Bullet) : bullet_after 0 b = b := by
  simp [bullet_after]

/-- A bullet that is inside the bounds at the start of each of `n` frames is in the
collection after them, moved `n` times, when every frame passes on what
`update_bullets` returned. -/
theorem bullet_flight_general (K : Config) (L : Lib) (s : Nat → List Bullet) (b : Bullet)
    (n : Nat) (hs : ∀ k, ∀ x ∈ update_bullets K L (s k), x ∈ s (k + 1)) (hb : b ∈ s 0)
    (hin : ∀ k < n, L.CheckCollisionPointRec (bullet_after k b).position K.BULLET_BOUNDS = true) :
    bullet_after n b ∈ s n := by
  induction n with
  | zero => rw [bullet_after_zero]; exact hb
  | succ n ih =>
    apply hs n
    rw [update_bullets_eq, ← move_bullet_after]
    apply List.mem_map_of_mem
    rw [List.mem_filter]
    exact ⟨ih fun k hk => hin k (Nat.lt_succ_of_lt hk), by simpa using hin n (Nat.lt_succ_self n)⟩

/-- C8: a bullet made by `create_bullet` that is inside `BULLET_BOUNDS` at the start of
each of `n` successive calls of `update_bullets` is in the collection after them, with
the velocity it was created with and at its creation position plus `n` times that
velocity; and `update_bullets` returns the bullets it keeps in their original order. -/
theorem bullet_flight (K : Config) (L : Lib) (enemy : Enemy) (player : Player)
    (bullets : List Bullet) (n : Nat) (hb : create_bullet K L enemy player ∈ bullets)
    (hin : ∀ k < n, L.CheckCollisionPointRec
      { x := enemy.position.x +
          (k : ℚ) * (get_homing_velocity L player.position enemy.position K.BULLET_VELOCITY).x,
        y := enemy.position.y +
          (k : ℚ) * (get_homing_velocity L player.position enemy.position K.BULLET_VELOCITY).y }
      K.BULLET_BOUNDS = true) :
    ({ position :=
          { x := enemy.position.x + (n : ℚ) *
              (get_homing_velocity L player.position enemy.position K.BULLET_VELOCITY).x,
            y := enemy.position.y + (n : ℚ) *
              (get_homing_velocity L player.position enemy.position K.BULLET_VELOCITY).y },
        color := Color.BLACK,
        velocity := get_homing_velocity L player.position enemy.position K.BULLET_VELOCITY } :
        Bullet) ∈ (update_bullets K L)^[n] bullets ∧
      (∀ bs : List Bullet, update_bullets K L bs =
        (bs.filter fun b => L.CheckCollisionPointRec b.position K.BULLET_BOUNDS).map
          move_bullet) := by
  refine ⟨?_, update_bullets_eq K L⟩
  exact bullet_flight_general K L (fun k => (update_bullets K L)^[k] bullets)
    (create_bullet K L enemy player) n
    (fun k x hx => by
      show x ∈ (update_bullets K L)^[k + 1] bullets
      rw [Function.iterate_succ_apply']
      exact hx) hb hin

/-- C8 under `sample_config`: a bullet fired from (300, 75) at a player at (500, 75)
flies at (5, 0) and is at (310, 75) after two calls of `update_bullets`. -/
theorem bullet_flight_witness :
    ({ position := { x := 310, y := 75 }, color := Color.BLACK,
        velocity := { x := 5, y := 0 } } : Bullet) ∈
      (update_bullets sample_config raylib)^[2]
        [create_bullet sample_config raylib
          (sample_enemy EnemyType.SHOOTER ActorState.LIVE 300 75)
          { position := { x := 500, y := 75 }, color := Color.RED,
            state := ActorState.LIVE, shield := 3 }] := by
  have h := (bullet_flight sample_config raylib
    (sample_enemy EnemyType.SHOOTER ActorState.LIVE 300 75)
    { position := { x := 500, y := 75 }, color := Color.RED,
      state := ActorState.LIVE, shield := 3 }
    [create_bullet sample_config raylib
      (sample_enemy EnemyType.SHOOTER ActorState.LIVE 300 75)
      { position := { x := 500, y := 75 }, color := Color.RED,
        state := ActorState.LIVE, shield := 3 }] 2 (List.mem_singleton.mpr rfl)
    (by
      intro k hk
      have hk' : (k : ℚ) ≤ 1 := by exact_mod_cast Nat.le_of_lt_succ hk
      have hk0 : (0 : ℚ) ≤ k := Nat.cast_nonneg k
      simp only [get_homing_velocity, coordinate_angle, raylib, raylibCheckCollisionPointRec,
        sample_config, sample_enemy]
      simp only [Bool.and_eq_true, decide_eq_true_eq]
      refine ⟨⟨⟨?_, ?_⟩, ?_⟩, ?_⟩ <;> norm_num <;> linarith)).1
  convert h using 2 <;>
    norm_num [get_homing_velocity, coordinate_angle, raylib, sample_config, sample_enemy]

end Bullets

/-! ## The spawn order -/

section SpawnOrder

/-- The type of the enemy that `create_enemy` makes: the entry of `enemy_order` at the
spawn index modulo `MAX_ENEMIES`, whatever `rand()` returns. -/
theorem create_enemy_type_eq (K : Config) (rand : Nat → Nat) (n : Nat) :
    (create_enemy K rand n).type =
      (enemy_order K).getD (n % K.MAX_ENEMIES) K.ENEMY_TYPE_ZERO := rfl

/-- C9: with the four entries (SHOOTER, DASHER, HOMING, DASHER) of `enemy_order`, that is
`MAX_ENEMIES = 4`, the enemy that `create_enemy` makes for the spawn index `n` has the
type at the entry `n mod 4` of that order, so one of SHOOTER, DASHER and HOMING, and the
type is the same for every outcome of the random draws. -/
theorem create_enemy_type_cycle (K : Config) (rand : Nat → Nat) (n : Nat)
    (hM : K.MAX_ENEMIES = 4) :
    (create_enemy K rand n).type =
        [EnemyType.SHOOTER, EnemyType.DASHER, EnemyType.HOMING, EnemyType.DASHER].getD
          (n % 4) EnemyType.SHOOTER ∧
      ((create_enemy K rand n).type = EnemyType.SHOOTER ∨
        (create_enemy K rand n).type = EnemyType.DASHER ∨
        (create_enemy K rand n).type = EnemyType.HOMING) ∧
      (∀ rand' : Nat → Nat, (create_enemy K rand' n).type = (create_enemy K rand n).type) := by
  refine ⟨?_, ?_, fun _ => rfl⟩
  · rw [create_enemy_type_eq, hM]
    have h4 : n % 4 < 4 := Nat.mod_lt n (by decide)
    simp only [enemy_order, hM]
    interval_cases (n % 4) <;> rfl
  · cases (create_enemy K rand n).type
    · exact Or.inl rfl
    · exact Or.inr (Or.inl rfl)
    · exact Or.inr (Or.inr rfl)

/-- C9 under `sample_config`: the spawn index 6 gives a HOMING enemy. -/
theorem create_enemy_type_cycle_witness :
    (create_enemy sample_config idle_input.rand 6).type = EnemyType.HOMING :=
  (create_enemy_type_cycle sample_config idle_input.rand 6 rfl).1

end SpawnOrder

/-! ## The trail of an enemy -/

section Trail

theorem trail_update_length (K : Config) (trail : List Vector2) (pos : Vector2)
    (hM : 0 < K.MAX_ENEMY_TRAIL) (h : trail.length ≤ K.MAX_ENEMY_TRAIL) :
    (trail_update K trail pos).length ≤ K.MAX_ENEMY_TRAIL := by
  unfold trail_update
  split
  · rename_i heq
    simp only [List.length_append, List.length_tail, List.length_singleton]
    omega
  · rename_i hne
    simp only [List.length_append, List.length_singleton]
    omega

/-- The trail after the updates with the positions `ps`, from an empty trail: the last
`MAX_ENEMY_TRAIL` of them. -/
theorem foldl_trail_update (K : Config) (hM : 0 < K.MAX_ENEMY_TRAIL) (ps : List Vector2) :
    ps.foldl (trail_update K) [] = ps.drop (ps.length - K.MAX_ENEMY_TRAIL) := by
  induction ps using List.reverseRecOn with
  | nil => simp
  | append_singleton ps p ih =>
    rw [List.foldl_append, List.foldl_cons, List.foldl_nil, ih]
    unfold trail_update
    simp only [List.length_drop, List.length_append, List.length_singleton]
    by_cases hlen : K.MAX_ENEMY_TRAIL ≤ ps.length
    · rw [if_pos (by omega), List.tail_drop,
        List.drop_append_of_le_length (by omega)]
      congr 2
      omega
    · rw [if_neg (by omega)]
      have h0 : ps.length - K.MAX_ENEMY_TRAIL = 0 := by omega
      have h1 : ps.length + 1 - K.MAX_ENEMY_TRAIL = 0 := by omega
      rw [h0, h1]
      rfl

/-- C10: with a positive `MAX_ENEMY_TRAIL`, the trail update keeps a trail of at most
`MAX_ENEMY_TRAIL` positions at most that long, so the trail is at most that long after
any number of updates from an empty trail; and after `MAX_ENEMY_TRAIL + 1` updates from
an empty trail with the positions `ps`, the trail is `ps` without its first position, in
the same order. -/
theorem trail_bounded_and_ordered (K : Config) (hM : 0 < K.MAX_ENEMY_TRAIL) :
    (∀ (trail : List Vector2) (pos : Vector2), trail.length ≤ K.MAX_ENEMY_TRAIL →
        (trail_update K trail pos).length ≤ K.MAX_ENEMY_TRAIL) ∧
      (∀ ps : List Vector2, (ps.foldl (trail_update K) []).length ≤ K.MAX_ENEMY_TRAIL) ∧
      (∀ ps : List Vector2, ps.length = K.MAX_ENEMY_TRAIL + 1 →
        ps.foldl (trail_update K) [] = ps.tail) := by
  refine ⟨fun trail pos h => trail_update_length K trail pos hM h, ?_, ?_⟩
  · intro ps
    rw [foldl_trail_update K hM, List.length_drop]
    omega
  · intro ps hps
    rw [foldl_trail_update K hM, hps]
    simp

/-- C10 under `sample_config`, where the trail holds 5 positions: after the 6 updates
with the positions (0, 0), (1, 0), ..., (5, 0) the trail is (1, 0), ..., (5, 0). -/
theorem trail_bounded_and_ordered_witness :
    [({ x := 0, y := 0 } : Vector2), { x := 1, y := 0 }, { x := 2, y := 0 },
        { x := 3, y := 0 }, { x := 4, y := 0 }, { x := 5, y := 0 }].foldl
        (trail_update sample_config) [] =
      [{ x := 1, y := 0 }, { x := 2, y := 0 }, { x := 3, y := 0 }, { x := 4, y := 0 },
        { x := 5, y := 0 }] :=
  (trail_bounded_and_ordered sample_config (by decide)).2.2 _ rfl

end Trail

/-! ## The rounds of a shooter -/

section ShooterRound

variable (K : Config) (L : Lib)

theorem tick_reload_timer_shots (dt : ℚ) (e : Enemy) :
    (tick_reload_timer dt e).shots_fired = e.shots_fired ∧
      (tick_reload_timer dt e).shots_per_round = e.shots_per_round ∧
      (tick_reload_timer dt e).fire_rate = e.fire_rate ∧
      (tick_reload_timer dt e).velocity = e.velocity ∧
      (tick_reload_timer dt e).trail_pos = e.trail_pos := by
  unfold tick_reload_timer
  simp only []
  split_ifs <;> exact ⟨rfl, rfl, rfl, rfl, rfl⟩

/-- The update of a `LIVE` shooter: the `SHOOTER` case on the enemy after the timer tick,
then the trail and the move. -/
theorem update_enemy_live_shooter (f : Nat) (dt : ℚ) (p : Player) (e : Enemy)
    (bs : List Bullet) (hs : e.state = ActorState.LIVE) (hty : e.type = EnemyType.SHOOTER) :
    update_enemy K L f dt p e bs =
      (trail_and_move K (update_shooter K L f p (tick_reload_timer dt e) bs).1,
        (update_shooter K L f p (tick_reload_timer dt e) bs).2) := by
  have ht := tick_reload_timer_live dt e hs
  unfold update_enemy
  rw [if_neg (by rw [hs]; decide)]
  simp only [ht]
  rw [if_neg (by decide)]
  simp only [tick_reload_timer_type, hty]

/-- The update of a `LIVE` dasher. -/
theorem update_enemy_live_dasher (f : Nat) (dt : ℚ) (p : Player) (e : Enemy)
    (bs : List Bullet) (hs : e.state = ActorState.LIVE) (hty : e.type = EnemyType.DASHER) :
    update_enemy K L f dt p e bs =
      (trail_and_move K (update_dasher K L p (tick_reload_timer dt e)), bs) := by
  have ht := tick_reload_timer_live dt e hs
  unfold update_enemy
  rw [if_neg (by rw [hs]; decide)]
  simp only [ht]
  rw [if_neg (by decide)]
  simp only [tick_reload_timer_type, hty]

/-- The update of a `LIVE` homer. -/
theorem update_enemy_live_homing (f : Nat) (dt : ℚ) (p : Player) (e : Enemy)
    (bs : List Bullet) (hs : e.state = ActorState.LIVE) (hty : e.type = EnemyType.HOMING) :
    update_enemy K L f dt p e bs =
      (trail_and_move K (update_homing K L p (tick_reload_timer dt e)), bs) := by
  have ht := tick_reload_timer_live dt e hs
  unfold update_enemy
  rw [if_neg (by rw [hs]; decide)]
  simp only [ht]
  rw [if_neg (by decide)]
  simp only [tick_reload_timer_type, hty]

/-- A firing tick of a shooter with room for a bullet. -/
theorem update_shooter_fires (f : Nat) (p : Player) (e : Enemy) (bs : List Bullet)
    (hf : fires f e = true) (hroom : bs.length < K.MAX_BULLETS) :
    (update_shooter K L f p e bs).2 =
        bs ++ [create_bullet K L { e with shots_fired := e.shots_fired + 1 } p] ∧
      (update_shooter K L f p e bs).1.shots_per_round = e.shots_per_round ∧
      (update_shooter K L f p e bs).1.type = e.type ∧
      (e.shots_fired + 1 < e.shots_per_round →
        (update_shooter K L f p e bs).1.state = e.state ∧
          (update_shooter K L f p e bs).1.shots_fired = e.shots_fired + 1) ∧
      (e.shots_per_round ≤ e.shots_fired + 1 →
        (update_shooter K L f p e bs).1.state = ActorState.RELOADING ∧
          (update_shooter K L f p e bs).1.reload_timer = K.ENEMY_RELOAD_TIMER ∧
          (update_shooter K L f p e bs).1.shots_fired = 0) := by
  have hf' : f = 0 ∨ f % toULL e.fire_rate = 0 := by simpa [fires] using hf
  unfold update_shooter
  simp only [if_pos hf', if_pos hroom, ge_iff_le]
  by_cases hr : e.shots_per_round ≤ e.shots_fired + 1
  · rw [if_pos hr]
    refine ⟨?_, ?_, ?_, ?_, ?_⟩
    · split_ifs <;> rfl
    · split_ifs <;> rfl
    · split_ifs <;> rfl
    · intro h
      omega
    · intro _
      split_ifs <;> exact ⟨rfl, rfl, rfl⟩
  · rw [if_neg hr]
    refine ⟨?_, ?_, ?_, ?_, ?_⟩
    · split_ifs <;> rfl
    · split_ifs <;> rfl
    · split_ifs <;> rfl
    · intro _
      split_ifs <;> exact ⟨rfl, rfl⟩
    · intro h
      exact absurd h hr

/-- A frame that is not a firing tick of the shooter. -/
theorem update_shooter_idle (f : Nat) (p : Player) (e : Enemy) (bs : List Bullet)
    (hf : fires f e = false) :
    (update_shooter K L f p e bs).2 = bs ∧
      (update_shooter K L f p e bs).1.state = e.state ∧
      (update_shooter K L f p e bs).1.shots_fired = e.shots_fired ∧
      (update_shooter K L f p e bs).1.shots_per_round = e.shots_per_round ∧
      (update_shooter K L f p e bs).1.type = e.type := by
  have hf' : ¬ (f = 0 ∨ f % toULL e.fire_rate = 0) := by simpa [fires] using hf
  unfold update_shooter
  simp only [if_neg hf']
  split_ifs <;> exact ⟨rfl, rfl, rfl, rfl, rfl⟩

theorem fires_tick_reload_timer (f : Nat) (dt : ℚ) (e : Enemy) :
    fires f (tick_reload_timer dt e) = fires f e := by
  unfold fires
  rw [(tick_reload_timer_shots dt e).2.2.1]

/-- While a shooter has had fewer firing ticks than its shots per round it is `LIVE`,
and has fired once for each of them. -/
theorem shooter_run_invariant (ticks : Nat → Tick) (e : Enemy) (k : Int)
    (hs : e.state = ActorState.LIVE) (hty : e.type = EnemyType.SHOOTER)
    (h0 : e.shots_fired = 0) (hspr : e.shots_per_round = k)
    (hroom : ∀ i, fires (ticks i).frames_count (enemy_after K L ticks e i) = true →
      (ticks i).bullets.length < K.MAX_BULLETS) :
    ∀ i, (firing_ticks K L ticks e i : Int) < k →
      (enemy_after K L ticks e i).state = ActorState.LIVE ∧
        (enemy_after K L ticks e i).type = EnemyType.SHOOTER ∧
        (enemy_after K L ticks e i).shots_per_round = k ∧
        (enemy_after K L ticks e i).shots_fired = firing_ticks K L ticks e i := by
  intro i
  induction i with
  | zero =>
    intro _
    exact ⟨hs, hty, hspr, by simp [enemy_after, firing_ticks, h0]⟩
  | succ i ih =>
    intro hlt
    have hle : (firing_ticks K L ticks e i : Int) < k := by
      have : firing_ticks K L ticks e i ≤ firing_ticks K L ticks e (i + 1) := by
        simp [firing_ticks]
      have : (firing_ticks K L ticks e i : Int) ≤ firing_ticks K L ticks e (i + 1) := by
        exact_mod_cast this
      omega
    obtain ⟨h1, h2, h3, h4⟩ := ih hle
    obtain ⟨t1, t2, t3, _, _⟩ := tick_reload_timer_shots (ticks i).frame_time
      (enemy_after K L ticks e i)
    have tl := tick_reload_timer_live (ticks i).frame_time _ h1
    have tt := tick_reload_timer_type (ticks i).frame_time (enemy_after K L ticks e i)
    have hstep : enemy_after K L ticks e (i + 1) =
        trail_and_move K (update_shooter K L (ticks i).frames_count (ticks i).player
          (tick_reload_timer (ticks i).frame_time (enemy_after K L ticks e i))
          (ticks i).bullets).1 := by
      show (update_enemy K L _ _ _ _ _).1 = _
      rw [update_enemy_live_shooter K L _ _ _ _ _ h1 h2]
    by_cases hf : fires (ticks i).frames_count (enemy_after K L ticks e i) = true
    · have hcount : firing_ticks K L ticks e (i + 1) = firing_ticks K L ticks e i + 1 := by
        simp [firing_ticks, hf]
      obtain ⟨_, u2, u3, u4, _⟩ := update_shooter_fires K L (ticks i).frames_count
        (ticks i).player (tick_reload_timer (ticks i).frame_time (enemy_after K L ticks e i))
        (ticks i).bullets (by rw [fires_tick_reload_timer]; exact hf) (hroom i hf)
      have hlt' : (tick_reload_timer (ticks i).frame_time
          (enemy_after K L ticks e i)).shots_fired + 1 <
          (tick_reload_timer (ticks i).frame_time
            (enemy_after K L ticks e i)).shots_per_round := by
        rw [t1, t2, h3, h4]
        rw [hcount] at hlt
        push_cast at hlt
        exact hlt
      obtain ⟨v1, v2⟩ := u4 hlt'
      rw [hstep, hcount]
      refine ⟨?_, ?_, ?_, ?_⟩
      · show (update_shooter K L _ _ _ _).1.state = _
        rw [v1, tl]
      · show (update_shooter K L _ _ _ _).1.type = _
        rw [u3, tt, h2]
      · show (update_shooter K L _ _ _ _).1.shots_per_round = _
        rw [u2, t2, h3]
      · show (update_shooter K L _ _ _ _).1.shots_fired = _
        rw [v2, t1, h4]
        push_cast
        rfl
    · have hf' : fires (ticks i).frames_count (enemy_after K L ticks e i) = false := by
        simpa using hf
      have hcount : firing_ticks K L ticks e (i + 1) = firing_ticks K L ticks e i := by
        simp [firing_ticks, hf']
      obtain ⟨_, u2, u3, u4, u5⟩ := update_shooter_idle K L (ticks i).frames_count
        (ticks i).player (tick_reload_timer (ticks i).frame_time (enemy_after K L ticks e i))
        (ticks i).bullets (by rw [fires_tick_reload_timer]; exact hf')
      rw [hstep, hcount]
      refine ⟨?_, ?_, ?_, ?_⟩
      · show (update_shooter K L _ _ _ _).1.state = _
        rw [u2, tl]
      · show (update_shooter K L _ _ _ _).1.type = _
        rw [u5, tt, h2]
      · show (update_shooter K L _ _ _ _).1.shots_per_round = _
        rw [u4, t2, h3]
      · show (update_shooter K L _ _ _ _).1.shots_fired = _
        rw [u3, t1, h4]

/-- The fire rate after the update of an enemy: the same, or in a frame of the ramp-up
interval one less, floored at `BULLET_FIRE_RATE_MAX`. -/
theorem update_enemy_fire_rate (f : Nat) (dt : ℚ) (p : Player) (e : Enemy)
    (bs : List Bullet) :
    (update_enemy K L f dt p e bs).1.fire_rate = e.fire_rate ∨
      (f % K.FIRE_RATE_RAMPUP_INTERVAL = 0 ∧
        (update_enemy K L f dt p e bs).1.fire_rate =
          max (e.fire_rate - 1) K.BULLET_FIRE_RATE_MAX) := by
  have t3 := (tick_reload_timer_shots dt e).2.2.1
  unfold update_enemy
  by_cases h1 : e.state = ActorState.DEAD
  · rw [if_pos h1]
    exact Or.inl rfl
  rw [if_neg h1]
  simp only []
  by_cases h2 : (tick_reload_timer dt e).state = ActorState.RELOADING ∨
      (tick_reload_timer dt e).state = ActorState.DESTRUCT
  · rw [if_pos h2]
    exact Or.inl t3
  rw [if_neg h2]
  cases hty : (tick_reload_timer dt e).type
  · simp only [trail_and_move, update_shooter]
    by_cases hr : f % K.FIRE_RATE_RAMPUP_INTERVAL = 0
    · right
      refine ⟨hr, ?_⟩
      rw [if_pos hr, ← t3]
      split_ifs <;> rfl
    · left
      rw [if_neg hr, ← t3]
      split_ifs <;> rfl
  · left
    simp only [trail_and_move, update_dasher]
    rw [← t3]
    split_ifs <;> rfl
  · left
    simp only [trail_and_move, update_homing]
    rw [← t3]
    split_ifs <;> rfl

/-- An enemy that is `RELOADING` after the timer tick is left as the tick made it, and
fires no bullet. -/
theorem update_enemy_reloading (f : Nat) (dt : ℚ) (p : Player) (e : Enemy)
    (bs : List Bullet) (hd : e.state ≠ ActorState.DEAD)
    (hr : (tick_reload_timer dt e).state = ActorState.RELOADING ∨
      (tick_reload_timer dt e).state = ActorState.DESTRUCT) :
    update_enemy K L f dt p e bs = (tick_reload_timer dt e, bs) := by
  unfold update_enemy
  rw [if_neg hd]
  simp only []
  rw [if_pos hr]

/-- C11: a `LIVE` shooter with `shots_fired = 0` and `shots_per_round = k` (so `k` is at
least 1 when it has had fewer than `k` firing ticks), in frames with room for a bullet
at each of its firing ticks. In a frame before which it has had fewer than `k` firing
ticks it is `LIVE`; when the frame is a firing tick it adds exactly one bullet, at its
position, and it is `RELOADING` with `reload_timer = ENEMY_RELOAD_TIMER` and
`shots_fired = 0` after the frame when this is the `k`-th firing tick, and `LIVE`
otherwise; when the frame is no firing tick it adds no bullet and stays `LIVE`. An enemy
that is `RELOADING` after the timer tick adds no bullet. -/
theorem shooter_fires_round (K : Config) (L : Lib) (ticks : Nat → Tick) (e : Enemy)
    (k : Int) (hs : e.state = ActorState.LIVE) (hty : e.type = EnemyType.SHOOTER)
    (h0 : e.shots_fired = 0) (hspr : e.shots_per_round = k)
    (hroom : ∀ i, fires (ticks i).frames_count (enemy_after K L ticks e i) = true →
      (ticks i).bullets.length < K.MAX_BULLETS)
    (i : Nat) (hi : (firing_ticks K L ticks e i : Int) < k) :
    (enemy_after K L ticks e i).state = ActorState.LIVE ∧
      (fires (ticks i).frames_count (enemy_after K L ticks e i) = true →
        (∃ b : Bullet, b.position = (enemy_after K L ticks e i).position ∧
          bullets_after K L ticks e i = (ticks i).bullets ++ [b]) ∧
        ((firing_ticks K L ticks e i : Int) + 1 < k →
          (enemy_after K L ticks e (i + 1)).state = ActorState.LIVE) ∧
        ((firing_ticks K L ticks e i : Int) + 1 = k →
          (enemy_after K L ticks e (i + 1)).state = ActorState.RELOADING ∧
            (enemy_after K L ticks e (i + 1)).reload_timer = K.ENEMY_RELOAD_TIMER ∧
            (enemy_after K L ticks e (i + 1)).shots_fired = 0)) ∧
      (fires (ticks i).frames_count (enemy_after K L ticks e i) = false →
        bullets_after K L ticks e i = (ticks i).bullets ∧
          (enemy_after K L ticks e (i + 1)).state = ActorState.LIVE) ∧
      (∀ (f : Nat) (dt : ℚ) (p : Player) (e' : Enemy) (bs : List Bullet),
        e'.state ≠ ActorState.DEAD →
        (tick_reload_timer dt e').state = ActorState.RELOADING →
        (update_enemy K L f dt p e' bs).2 = bs) := by
  obtain ⟨h1, h2, h3, h4⟩ := shooter_run_invariant K L ticks e k hs hty h0 hspr hroom i hi
  obtain ⟨t1, t2, _, _, _⟩ := tick_reload_timer_shots (ticks i).frame_time
    (enemy_after K L ticks e i)
  have tl := tick_reload_timer_live (ticks i).frame_time _ h1
  have hupd := update_enemy_live_shooter K L (ticks i).frames_count (ticks i).frame_time
    (ticks i).player (enemy_after K L ticks e i) (ticks i).bullets h1 h2
  have hstep : enemy_after K L ticks e (i + 1) =
      trail_and_move K (update_shooter K L (ticks i).frames_count (ticks i).player
        (tick_reload_timer (ticks i).frame_time (enemy_after K L ticks e i))
        (ticks i).bullets).1 := by
    show (update_enemy K L _ _ _ _ _).1 = _
    rw [hupd]
  have hbul : bullets_after K L ticks e i =
      (update_shooter K L (ticks i).frames_count (ticks i).player
        (tick_reload_timer (ticks i).frame_time (enemy_after K L ticks e i))
        (ticks i).bullets).2 := by
    show (update_enemy K L _ _ _ _ _).2 = _
    rw [hupd]
  refine ⟨h1, ?_, ?_, ?_⟩
  · intro hf
    obtain ⟨u1, _, _, u4, u5⟩ := update_shooter_fires K L (ticks i).frames_count
      (ticks i).player (tick_reload_timer (ticks i).frame_time (enemy_after K L ticks e i))
      (ticks i).bullets (by rw [fires_tick_reload_timer]; exact hf) (hroom i hf)
    refine ⟨⟨_, ?_, hbul.trans u1⟩, ?_, ?_⟩
    · simp [create_bullet, tick_reload_timer_position]
    · intro hlt
      rw [hstep]
      show (update_shooter K L _ _ _ _).1.state = _
      rw [(u4 (by rw [t1, t2, h3, h4]; exact hlt)).1, tl]
    · intro heq
      rw [hstep]
      exact u5 (by rw [t1, t2, h3, h4]; exact le_of_eq heq.symm)
  · intro hf
    obtain ⟨u1, u2, _, _, _⟩ := update_shooter_idle K L (ticks i).frames_count
      (ticks i).player (tick_reload_timer (ticks i).frame_time (enemy_after K L ticks e i))
      (ticks i).bullets (by rw [fires_tick_reload_timer]; exact hf)
    refine ⟨hbul.trans u1, ?_⟩
    rw [hstep]
    show (update_shooter K L _ _ _ _).1.state = _
    rw [u2, tl]
  · intro f dt p e' bs hd hr
    rw [update_enemy_reloading K L f dt p e' bs hd (Or.inl hr)]

theorem sample_shooter_fire_rate (i : Nat) (hi : i < 9) :
    (enemy_after sample_config raylib sample_ticks
      (sample_enemy EnemyType.SHOOTER ActorState.LIVE 300 75) i).fire_rate = 60 := by
  induction i with
  | zero => rfl
  | succ i ih =>
    rcases update_enemy_fire_rate sample_config raylib (sample_ticks i).frames_count
      (sample_ticks i).frame_time (sample_ticks i).player
      (enemy_after sample_config raylib sample_ticks
        (sample_enemy EnemyType.SHOOTER ActorState.LIVE 300 75) i)
      (sample_ticks i).bullets with h | ⟨h, _⟩
    · exact h.trans (ih (by omega))
    · exfalso
      have h' : (60 * (i + 1)) % 600 = 0 := h
      omega

theorem sample_shooter_fires (i : Nat) (hi : i < 9) :
    fires (sample_ticks i).frames_count
      (enemy_after sample_config raylib sample_ticks
        (sample_enemy EnemyType.SHOOTER ActorState.LIVE 300 75) i) = true := by
  unfold fires
  rw [sample_shooter_fire_rate i hi]
  have h60 : toULL 60 = 60 := by decide
  rw [h60]
  simp [sample_ticks]

/-- C11 under `sample_config`, where a round has 3 shots: a shooter that fires in the
frames 60, 120 and 180 adds one bullet in the frame 180 and is `RELOADING` after it, with
`reload_timer = 3` and `shots_fired = 0`. -/
theorem shooter_fires_round_witness :
    (bullets_after sample_config raylib sample_ticks
        (sample_enemy EnemyType.SHOOTER ActorState.LIVE 300 75) 2).length = 1 ∧
      (enemy_after sample_config raylib sample_ticks
        (sample_enemy EnemyType.SHOOTER ActorState.LIVE 300 75) 3).state =
        ActorState.RELOADING ∧
      (enemy_after sample_config raylib sample_ticks
        (sample_enemy EnemyType.SHOOTER ActorState.LIVE 300 75) 3).reload_timer = 3 ∧
      (enemy_after sample_config raylib sample_ticks
        (sample_enemy EnemyType.SHOOTER ActorState.LIVE 300 75) 3).shots_fired = 0 := by
  have hcount : firing_ticks sample_config raylib sample_ticks
      (sample_enemy EnemyType.SHOOTER ActorState.LIVE 300 75) 2 = 2 := by
    simp [firing_ticks, sample_shooter_fires 0 (by decide), sample_shooter_fires 1 (by decide)]
  have h := shooter_fires_round sample_config raylib sample_ticks
    (sample_enemy EnemyType.SHOOTER ActorState.LIVE 300 75) 3 rfl rfl rfl rfl
    (fun i _ => by show 0 < 50; decide) 2 (by rw [hcount]; decide)
  obtain ⟨⟨b, _, hb⟩, _, hrel⟩ := h.2.1 (sample_shooter_fires 2 (by decide))
  refine ⟨?_, hrel (by rw [hcount]; decide)⟩
  rw [hb]
  rfl

end ShooterRound

/-! ## The enemy-enemy step and the frames after the game is over -/

section GameOver

variable (K : Config) (L : Lib)

theorem kill_kill (e : Enemy) : kill (kill e) = kill e := rfl

/-- The enemies after the assignments of `DEAD` at the indices `idxs`. -/
theorem foldl_kill_getElem? (idxs : List Nat) (es : List Enemy) (i : Nat) :
    (idxs.foldl (fun l idx => modifyAt kill l idx) es)[i]? =
      if i ∈ idxs then es[i]?.map kill else es[i]? := by
  induction idxs generalizing es with
  | nil => simp
  | cons j rest ih =>
    rw [List.foldl_cons, ih, getElem?_modifyAt]
    by_cases hji : j = i
    · subst hji
      by_cases hr : j ∈ rest
      · simp [hr, Option.map_map, Function.comp_def, kill_kill]
      · simp [hr]
    · have hij : ¬ i = j := fun h => hji h.symm
      by_cases hr : i ∈ rest <;> simp [hr, hji, hij]

theorem foldl_kill_length (idxs : List Nat) (es : List Enemy) :
    (idxs.foldl (fun l idx => modifyAt kill l idx) es).length = es.length := by
  induction idxs generalizing es with
  | nil => rfl
  | cons j rest ih => rw [List.foldl_cons, ih, length_modifyAt]

theorem foldl_enemy_enemy_step_eq (idxs : List Nat) (g : Game) :
    (idxs.foldl (enemy_enemy_step K) g).game_world.enemies =
        idxs.foldl (fun l idx => modifyAt kill l idx) g.game_world.enemies ∧
      (idxs.foldl (enemy_enemy_step K) g).score =
        g.score + (idxs.length : ℚ) * K.ENEMY_SELF_KILL_BONUS := by
  induction idxs generalizing g with
  | nil => simp
  | cons j rest ih =>
    rw [List.foldl_cons, List.foldl_cons, (ih _).1, (ih _).2]
    constructor
    · rfl
    · simp only [enemy_enemy_step, List.length_cons]
      push_cast
      ring

/-- The enemy-enemy step: every returned index is assigned `DEAD`, and the score gets
the bonus once for each returned index. -/
theorem enemy_enemy_hits_eq (g : Game) :
    (enemy_enemy_hits K L g).game_world.enemies =
        (check_enemy_enemy_collisions L g.game_world.enemies).foldl
          (fun l idx => modifyAt kill l idx) g.game_world.enemies ∧
      (enemy_enemy_hits K L g).score =
        g.score + ((check_enemy_enemy_collisions L g.game_world.enemies).length : ℚ) *
          K.ENEMY_SELF_KILL_BONUS :=
  foldl_enemy_enemy_step_eq K _ g

/-- The indices that `check_enemy_enemy_collisions` returns: the members of the pairs
`i < j` whose boxes overlap. -/
theorem mem_check_enemy_enemy_collisions (es : List Enemy) (idx : Nat) :
    idx ∈ check_enemy_enemy_collisions L es ↔
      ∃ i j, i < j ∧ boxes_overlap L es i j = true ∧ (idx = i ∨ idx = j) := by
  rw [check_enemy_enemy_collisions_eq]
  simp only [List.mem_flatMap, List.mem_range, List.mem_range'_1]
  constructor
  · rintro ⟨i, _, j, ⟨hj, _⟩, hmem⟩
    by_cases hov : boxes_overlap L es i j = true
    · rw [if_pos hov] at hmem
      refine ⟨i, j, by omega, hov, ?_⟩
      simpa using hmem
    · rw [if_neg hov] at hmem
      cases hmem
  · rintro ⟨i, j, hij, hov, hidx⟩
    have hlt := boxes_overlap_lt L es i j hov
    refine ⟨i, hlt.1, j, ⟨by omega, by omega⟩, ?_⟩
    rw [if_pos hov]
    simpa using hidx

theorem boxes_overlap_getElem (es : List Enemy) (i j : Nat) (hi : i < es.length)
    (hj : j < es.length) :
    boxes_overlap L es i j = L.CheckCollisionRecs (enemy_rect es[i]) (enemy_rect es[j]) := by
  unfold boxes_overlap
  rw [List.getElem?_eq_getElem hi, List.getElem?_eq_getElem hj]

/-- The check returns nothing exactly when no box of an enemy overlaps the box of a
later one. -/
theorem check_enemy_enemy_collisions_eq_nil (es : List Enemy) :
    check_enemy_enemy_collisions L es = [] ↔ es.Pairwise (boxes_apart L) := by
  rw [List.pairwise_iff_getElem, List.eq_nil_iff_forall_not_mem]
  constructor
  · intro h i j hi hj hij
    unfold boxes_apart
    by_contra hne
    have hov : boxes_overlap L es i j = true := by
      rw [boxes_overlap_getElem L es i j hi hj]
      simpa using hne
    exact h i ((mem_check_enemy_enemy_collisions L es i).mpr ⟨i, j, hij, hov, Or.inl rfl⟩)
  · intro h idx hmem
    obtain ⟨i, j, hij, hov, _⟩ := (mem_check_enemy_enemy_collisions L es idx).mp hmem
    have hlt := boxes_overlap_lt L es i j hov
    have := h i j hlt.1 hlt.2 hij
    rw [boxes_overlap_getElem L es i j hlt.1 hlt.2] at hov
    unfold boxes_apart at this
    rw [this] at hov
    cases hov

/-- After the enemy-enemy step and the removal of the dead, no box of an enemy overlaps
the box of a later one. -/
theorem remove_dead_after_kills_pairwise (es : List Enemy) :
    (remove_dead ((check_enemy_enemy_collisions L es).foldl
      (fun l idx => modifyAt kill l idx) es)).Pairwise (boxes_apart L) := by
  rw [remove_dead_eq, List.pairwise_filter, List.pairwise_iff_getElem]
  intro i j hi hj hij hpi hpj
  have hi' : i < es.length := by rw [foldl_kill_length] at hi; exact hi
  have hj' : j < es.length := by rw [foldl_kill_length] at hj; exact hj
  have hgi := foldl_kill_getElem? (check_enemy_enemy_collisions L es) es i
  have hgj := foldl_kill_getElem? (check_enemy_enemy_collisions L es) es j
  rw [List.getElem?_eq_getElem hi, List.getElem?_eq_getElem hi'] at hgi
  rw [List.getElem?_eq_getElem hj, List.getElem?_eq_getElem hj'] at hgj
  have hni : i ∉ check_enemy_enemy_collisions L es := by
    intro hmem
    rw [if_pos hmem] at hgi
    simp only [Option.map_some', Option.some.injEq] at hgi
    rw [hgi] at hpi
    exact hpi rfl
  have hnj : j ∉ check_enemy_enemy_collisions L es := by
    intro hmem
    rw [if_pos hmem] at hgj
    simp only [Option.map_some', Option.some.injEq] at hgj
    rw [hgj] at hpj
    exact hpj rfl
  rw [if_neg hni] at hgi
  rw [if_neg hnj] at hgj
  simp only [Option.some.injEq] at hgi hgj
  rw [hgi, hgj]
  unfold boxes_apart
  by_contra hne
  have hov : boxes_overlap L es i j = true := by
    rw [boxes_overlap_getElem L es i j hi' hj']
    simpa using hne
  exact hni ((mem_check_enemy_enemy_collisions L es i).mpr ⟨i, j, hij, hov, Or.inl rfl⟩)

theorem resolve_player_enemies (w : GameWorld) :
    (resolve_player K L w).enemies = w.enemies.map (hit_enemy K L w.player) := by
  unfold resolve_player
  rw [collisions_eq]
  unfold death_check
  split <;> rfl

theorem hit_enemy_rect (p : Player) (e : Enemy) :
    enemy_rect (hit_enemy K L p e) = enemy_rect e := by
  unfold hit_enemy
  split <;> rfl

/-- The world state at the end of a frame is the one after the death check. -/
theorem frame_state (inp : FrameInput) (g : Game) :
    (frame K L inp g).game_world.state = (player_stage K L inp g).game_world.state := by
  simp only [frame, enemy_stage, (spawn_and_update_frame K L inp _).2.1,
    (enemy_enemy_hits_frame K L _).2.1]

/-- The enemies at the end of a frame that ends in `GAME_OVER`: no enemy spawns or is
updated. -/
theorem frame_enemies_game_over (inp : FrameInput) (g : Game)
    (h : (player_stage K L inp g).game_world.state = WorldState.GAME_OVER) :
    (frame K L inp g).game_world.enemies =
        remove_dead (enemy_enemy_hits K L (player_stage K L inp g)).game_world.enemies ∧
      (frame K L inp g).score = (enemy_enemy_hits K L (player_stage K L inp g)).score ∧
      (frame K L inp g).frames_count = (player_stage K L inp g).frames_count := by
  have hs : (enemy_enemy_hits K L (player_stage K L inp g)).game_world.state ≠
      WorldState.RUNNING := by
    rw [(enemy_enemy_hits_frame K L _).2.1, h]
    decide
  have hsp : spawn_and_update K L inp (enemy_enemy_hits K L (player_stage K L inp g)) =
      enemy_enemy_hits K L (player_stage K L inp g) := by
    unfold spawn_and_update
    rw [if_neg hs]
  refine ⟨?_, ?_, ?_⟩
  · simp only [frame, enemy_stage, hsp]
  · simp only [frame, enemy_stage, hsp]
  · simp only [frame, enemy_stage, hsp, (enemy_enemy_hits_frame K L _).2.2.2.2]

/-- In a reachable state in `GAME_OVER` no box of an enemy overlaps the box of a later
one: the frame that ended in `GAME_OVER` killed and removed both enemies of every
overlapping pair, and moved none. -/
theorem reachable_game_over_apart (g : Game) (h : Reachable K L g)
    (hg : g.game_world.state = WorldState.GAME_OVER) :
    g.game_world.enemies.Pairwise (boxes_apart L) := by
  cases h with
  | init => cases hg
  | step inp g' _ =>
    rw [frame_state] at hg
    rw [(frame_enemies_game_over K L inp g' hg).1, (enemy_enemy_hits_eq K L _).1]
    exact remove_dead_after_kills_pairwise L _

theorem resolve_player_state_game_over (w : GameWorld)
    (h : w.state = WorldState.GAME_OVER) :
    (resolve_player K L w).state = WorldState.GAME_OVER := by
  unfold resolve_player
  rw [collisions_eq]
  unfold death_check
  split
  · rfl
  · exact h

/-- A frame without a tap that begins in `GAME_OVER`: the player stage changes neither
the counters nor the world state, and kills the enemies that meet the player while
`RELOADING`. -/
theorem player_stage_game_over (inp : FrameInput) (g : Game)
    (hg : g.game_world.state = WorldState.GAME_OVER) (ht : inp.tap = false) :
    (player_stage K L inp g).frames_count = g.frames_count ∧
      (player_stage K L inp g).score = g.score ∧
      (player_stage K L inp g).game_world.enemies =
        g.game_world.enemies.map (hit_enemy K L g.game_world.player) ∧
      (player_stage K L inp g).game_world.state = WorldState.GAME_OVER := by
  have h1 : tick_counters g = g := by
    unfold tick_counters
    rw [if_neg (by rw [hg]; decide)]
  have h2 : teleport inp g.game_world = g.game_world := by
    unfold teleport
    rw [if_neg (by simp [ht])]
  simp only [player_stage, h1, reset_on_tap, ht, Bool.false_and, Bool.false_eq_true, if_false,
    h2, resolve_player_enemies, resolve_player_state_game_over K L _ hg, and_self]

/-- From a reachable state in `GAME_OVER`, a frame without a tap: the counters do not
tick and the enemy-enemy step finds no overlapping pair. -/
theorem frame_game_over_frozen (inp : FrameInput) (g : Game)
    (h : Reachable K L g) (hg : g.game_world.state = WorldState.GAME_OVER)
    (ht : inp.tap = false) :
    (frame K L inp g).frames_count = g.frames_count ∧
      (frame K L inp g).score = g.score ∧
      check_enemy_enemy_collisions L (player_stage K L inp g).game_world.enemies = [] := by
  obtain ⟨hf, hs, he, hover⟩ := player_stage_game_over K L inp g hg ht
  obtain ⟨_, fs, ff⟩ := frame_enemies_game_over K L inp g hover
  have hnil : check_enemy_enemy_collisions L (player_stage K L inp g).game_world.enemies =
      [] := by
    rw [check_enemy_enemy_collisions_eq_nil, he, List.pairwise_map]
    refine (reachable_game_over_apart K L g h hg).imp ?_
    intro a b hab
    unfold boxes_apart at hab ⊢
    rw [hit_enemy_rect, hit_enemy_rect]
    exact hab
  refine ⟨ff.trans hf, ?_, hnil⟩
  rw [fs, (enemy_enemy_hits_eq K L _).2, hnil, hs]
  simp

/-- C12: from a reachable state in `GAME_OVER`, a frame without a tap leaves the frame
counter and the score as they are: the counters do not tick, and the enemy-enemy step
finds no overlapping pair, so it adds no bonus. -/
theorem game_over_counters_frozen (K : Config) (L : Lib) (inp : FrameInput) (g : Game)
    (h : Reachable K L g) (hg : g.game_world.state = WorldState.GAME_OVER)
    (ht : inp.tap = false) :
    (frame K L inp g).frames_count = g.frames_count ∧
      (frame K L inp g).score = g.score ∧
      check_enemy_enemy_collisions L (player_stage K L inp g).game_world.enemies = [] :=
  frame_game_over_frozen K L inp g h hg ht

/-- Under `no_shield_config` the first frame ends in `GAME_OVER`. -/
theorem no_shield_first_frame :
    (frame no_shield_config raylib idle_input
      (initial_game no_shield_config)).game_world.state = WorldState.GAME_OVER := by
  rw [frame_state]
  simp [player_stage, initial_game, tick_counters, reset_on_tap, teleport, resolve_player,
    bullet_hit, blast_hit, player_enemy_hits, death_check, create_game_world,
    check_bullet_collisions, check_homer_blast_collisions, check_enemy_collisions_nil,
    idle_input, no_shield_config, sample_config]

/-- C12 under `no_shield_config`: the game is over after the first frame, and the second
frame, without a tap, leaves the frame counter and the score as they are. -/
theorem game_over_counters_frozen_witness :
    (frame no_shield_config raylib idle_input
        (frame no_shield_config raylib idle_input
          (initial_game no_shield_config))).frames_count =
        (frame no_shield_config raylib idle_input
          (initial_game no_shield_config)).frames_count ∧
      (frame no_shield_config raylib idle_input
        (frame no_shield_config raylib idle_input (initial_game no_shield_config))).score =
        (frame no_shield_config raylib idle_input (initial_game no_shield_config)).score := by
  have hr : Reachable no_shield_config raylib
      (frame no_shield_config raylib idle_input (initial_game no_shield_config)) :=
    Reachable.step idle_input (initial_game no_shield_config) Reachable.init
  have h := game_over_counters_frozen no_shield_config raylib idle_input _ hr
    no_shield_first_frame rfl
  exact ⟨h.1, h.2.1⟩

end GameOver

/-! ## The trail and the move of the enemies -/

section TrailMove

variable (K : Config) (L : Lib)

theorem map_hit_enemy_of_no_hit (p : Player) (es : List Enemy)
    (h : ∀ e ∈ es, hits_player K L p e = false) : es.map (hit_enemy K L p) = es := by
  induction es with
  | nil => rfl
  | cons e es ih =>
    rw [List.map_cons, ih fun x hx => h x (List.mem_cons_of_mem _ hx)]
    simp [hit_enemy, h e (List.mem_cons_self _ _)]

/-- A calm frame: the world is `RUNNING`, there is no tap, the player keeps a shield of
0 or more, no box of an enemy meets the player and no two enemies overlap. The
collections at its end are the ones after the spawn step and the update of the enemies,
pruned. -/
theorem calm_frame (inp : FrameInput) (g : Game)
    (hr : g.game_world.state = WorldState.RUNNING) (ht : inp.tap = false)
    (hs : (shield_loss K L g.game_world : Int) ≤ g.game_world.player.shield)
    (hhit : ∀ e ∈ g.game_world.enemies, hits_player K L g.game_world.player e = false)
    (hpair : check_enemy_enemy_collisions L g.game_world.enemies = []) :
    (frame K L inp g).game_world.enemies =
        remove_dead (update_enemies K L ((g.frames_count + 1) % 2 ^ 64) inp.frame_time
          { g.game_world.player with
            shield := g.game_world.player.shield - (shield_loss K L g.game_world : Nat) }
          (spawn_enemy K inp.rand ((g.frames_count + 1) % 2 ^ 64) g.game_world.enemies)
          g.game_world.bullets).1 ∧
      (frame K L inp g).game_world.bullets =
        update_bullets K L (update_enemies K L ((g.frames_count + 1) % 2 ^ 64) inp.frame_time
          { g.game_world.player with
            shield := g.game_world.player.shield - (shield_loss K L g.game_world : Nat) }
          (spawn_enemy K inp.rand ((g.frames_count + 1) % 2 ^ 64) g.game_world.enemies)
          g.game_world.bullets).2 ∧
      (frame K L inp g).game_world.state = WorldState.RUNNING := by
  have h2 : teleport inp g.game_world = g.game_world := by
    unfold teleport
    rw [if_neg (by simp [ht])]
  have hres : resolve_player K L g.game_world =
      { g.game_world with
        player := { g.game_world.player with
          shield := g.game_world.player.shield - (shield_loss K L g.game_world : Nat) } } := by
    unfold resolve_player
    rw [collisions_eq, map_hit_enemy_of_no_hit K L _ _ hhit]
    unfold death_check
    rw [if_neg (by simp only [not_and, not_lt]; intro h; omega)]
  have hps : player_stage K L inp g =
      { frames_count := (g.frames_count + 1) % 2 ^ 64, score := g.score + 1 / 5,
        game_world := { g.game_world with
          player := { g.game_world.player with
            shield := g.game_world.player.shield - (shield_loss K L g.game_world : Nat) } } } := by
    simp only [player_stage, tick_counters, hr, if_true, reset_on_tap, ht, Bool.false_and,
      Bool.false_eq_true, if_false, h2, hres]
  have hee : enemy_enemy_hits K L (player_stage K L inp g) = player_stage K L inp g := by
    unfold enemy_enemy_hits
    rw [hps]
    simp only [hpair, List.foldl_nil]
  rw [(frame_collections K L inp g).1, (frame_collections K L inp g).2, frame_state]
  unfold enemy_stage spawn_and_update
  rw [hee, hps]
  simp only [hr, if_true, and_self]

/-- A quiet frame: a calm frame in which no enemy spawns. The collections at its end are
the ones after the update of the enemies, pruned. -/
theorem quiet_frame (inp : FrameInput) (g : Game)
    (hr : g.game_world.state = WorldState.RUNNING) (ht : inp.tap = false)
    (hs : (shield_loss K L g.game_world : Int) ≤ g.game_world.player.shield)
    (hhit : ∀ e ∈ g.game_world.enemies, hits_player K L g.game_world.player e = false)
    (hpair : check_enemy_enemy_collisions L g.game_world.enemies = [])
    (hspawn : spawn_enemy K inp.rand ((g.frames_count + 1) % 2 ^ 64) g.game_world.enemies =
      g.game_world.enemies) :
    (frame K L inp g).game_world.enemies =
        remove_dead (update_enemies K L ((g.frames_count + 1) % 2 ^ 64) inp.frame_time
          { g.game_world.player with
            shield := g.game_world.player.shield - (shield_loss K L g.game_world : Nat) }
          g.game_world.enemies g.game_world.bullets).1 ∧
      (frame K L inp g).game_world.bullets =
        update_bullets K L (update_enemies K L ((g.frames_count + 1) % 2 ^ 64) inp.frame_time
          { g.game_world.player with
            shield := g.game_world.player.shield - (shield_loss K L g.game_world : Nat) }
          g.game_world.enemies g.game_world.bullets).2 ∧
      (frame K L inp g).game_world.state = WorldState.RUNNING := by
  have h := calm_frame K L inp g hr ht hs hhit hpair
  rw [hspawn] at h
  exact h

theorem check_enemy_enemy_collisions_singleton (e : Enemy) :
    check_enemy_enemy_collisions L [e] = [] := by
  rw [check_enemy_enemy_collisions_eq_nil]
  exact List.pairwise_singleton _ _

end TrailMove

/-! ## The pairs that the enemy-enemy check returns -/

section EnemyPairs

variable (K : Config) (L : Lib)

theorem boxes_overlap_congr (es es' : List Enemy)
    (h : es'.map enemy_rect = es.map enemy_rect) (i j : Nat) :
    boxes_overlap L es' i j = boxes_overlap L es i j := by
  have hi : es'[i]?.map enemy_rect = es[i]?.map enemy_rect := by
    rw [← List.getElem?_map, ← List.getElem?_map, h]
  have hj : es'[j]?.map enemy_rect = es[j]?.map enemy_rect := by
    rw [← List.getElem?_map, ← List.getElem?_map, h]
  unfold boxes_overlap
  cases h1 : es'[i]? <;> cases h2 : es[i]? <;> rw [h1, h2] at hi <;>
    cases h3 : es'[j]? <;> cases h4 : es[j]? <;> rw [h3, h4] at hj <;>
    simp_all

/-- The check reads the boxes of the enemies only. -/
theorem check_enemy_enemy_collisions_congr (es es' : List Enemy)
    (h : es'.map enemy_rect = es.map enemy_rect) :
    check_enemy_enemy_collisions L es' = check_enemy_enemy_collisions L es := by
  have hlen : es'.length = es.length := by
    have := congrArg List.length h
    simpa using this
  rw [check_enemy_enemy_collisions_eq, check_enemy_enemy_collisions_eq, hlen]
  simp only [boxes_overlap_congr L es es' h]

/-- C15, as amended: `check_enemy_enemy_collisions` returns, for `i` in increasing order
and for each `i` for `j > i` in increasing order, the two indices `i`, `j` of exactly
the pairs of enemies whose boxes overlap, whatever the states of the two enemies; every
returned index is below the length of the list, and two lists of enemies with the same
boxes give the same result. -/
theorem enemy_enemy_pairs_whatever_state (L : Lib) (enemies : List Enemy) :
    check_enemy_enemy_collisions L enemies =
        ((List.range enemies.length).flatMap fun i =>
          (List.range' (i + 1) (enemies.length - (i + 1))).flatMap fun j =>
            if boxes_overlap L enemies i j then [i, j] else []) ∧
      (∀ idx ∈ check_enemy_enemy_collisions L enemies, idx < enemies.length) ∧
      (∀ enemies' : List Enemy, enemies'.map enemy_rect = enemies.map enemy_rect →
        check_enemy_enemy_collisions L enemies' = check_enemy_enemy_collisions L enemies) := by
  refine ⟨check_enemy_enemy_collisions_eq L enemies, ?_,
    fun es' h => check_enemy_enemy_collisions_congr L enemies es' h⟩
  intro idx hmem
  obtain ⟨i, j, _, hov, hidx⟩ := (mem_check_enemy_enemy_collisions L enemies idx).mp hmem
  have hlt := boxes_overlap_lt L enemies i j hov
  rcases hidx with h | h <;> rw [h]
  · exact hlt.1
  · exact hlt.2

/-- C15 as stated fails on `spent_pair`: the first enemy is `DESTRUCT`, the second is
`DEAD`, and the check returns both indices. -/
theorem enemy_enemy_dead_index_counterexample :
    (spent_pair.map fun e => e.state) = [ActorState.DESTRUCT, ActorState.DEAD] ∧
      check_enemy_enemy_collisions raylib spent_pair = [0, 1] := by
  constructor
  · rfl
  · simp [check_enemy_enemy_collisions, List.range, List.range.loop, List.range', raylib,
      raylibCheckCollisionRecs, enemy_rect, spent_pair, sample_enemy]
    norm_num

end EnemyPairs

/-! ## Properties of every enemy, the removal of the dead and the spawn -/

section EnemyInvariants

variable (K : Config) (L : Lib)

theorem mem_modifyAt {α : Type} (f : α → α) (l : List α) (i : Nat) (x : α)
    (h : x ∈ modifyAt f l i) : x ∈ l ∨ ∃ a ∈ l, x = f a := by
  induction l generalizing i with
  | nil => cases h
  | cons a l ih =>
    cases i with
    | zero =>
      rcases List.mem_cons.mp h with h1 | h1
      · exact Or.inr ⟨a, List.mem_cons_self _ _, h1⟩
      · exact Or.inl (List.mem_cons_of_mem _ h1)
    | succ i =>
      rcases List.mem_cons.mp h with h1 | h1
      · exact Or.inl (h1 ▸ List.mem_cons_self _ _)
      · rcases ih i h1 with h2 | ⟨b, hb, h2⟩
        · exact Or.inl (List.mem_cons_of_mem _ h2)
        · exact Or.inr ⟨b, List.mem_cons_of_mem _ hb, h2⟩

theorem forall_mem_foldl_kill (P : Enemy → Prop) (hkill : ∀ e, P e → P (kill e))
    (idxs : List Nat) (es : List Enemy) (h : ∀ e ∈ es, P e) :
    ∀ e ∈ idxs.foldl (fun l idx => modifyAt kill l idx) es, P e := by
  induction idxs generalizing es with
  | nil => exact h
  | cons i rest ih =>
    rw [List.foldl_cons]
    apply ih
    intro e he
    rcases mem_modifyAt kill es i e he with h1 | ⟨a, ha, h1⟩
    · exact h e h1
    · rw [h1]
      exact hkill a (h a ha)

theorem forall_mem_update_enemies (P : Enemy → Prop)
    (hupd : ∀ f dt p e bs, P e → P (update_enemy K L f dt p e bs).1)
    (f : Nat) (dt : ℚ) (p : Player) (es : List Enemy) (bs : List Bullet)
    (h : ∀ e ∈ es, P e) : ∀ e ∈ (update_enemies K L f dt p es bs).1, P e := by
  induction es generalizing bs with
  | nil =>
    intro e he
    cases he
  | cons a es ih =>
    intro e he
    simp only [update_enemies, List.mem_cons] at he
    rcases he with h1 | h1
    · rw [h1]
      exact hupd f dt p a bs (h a (List.mem_cons_self _ _))
    · exact ih _ (fun x hx => h x (List.mem_cons_of_mem _ hx)) e h1

theorem spawn_enemy_cases (rand : Nat → Nat) (f : Nat) (es : List Enemy) :
    spawn_enemy K rand f es = es ∨
      spawn_enemy K rand f es = es ++ [create_enemy K rand es.length] := by
  unfold spawn_enemy
  simp only []
  by_cases hc : es.length < K.MAX_ENEMIES ∧
      f % (K.FRAME_RATE * (if es.length ≠ 0 then 5 else 1)) = 0
  · rw [if_pos hc]
    exact Or.inr rfl
  · rw [if_neg hc]
    exact Or.inl rfl

theorem forall_mem_spawn_and_update (P : Enemy → Prop)
    (hcreate : ∀ rand n, P (create_enemy K rand n))
    (hupd : ∀ f dt p e bs, P e → P (update_enemy K L f dt p e bs).1)
    (inp : FrameInput) (g : Game) (h : ∀ e ∈ g.game_world.enemies, P e) :
    ∀ e ∈ (spawn_and_update K L inp g).game_world.enemies, P e := by
  unfold spawn_and_update
  by_cases hr : g.game_world.state = WorldState.RUNNING
  · rw [if_pos hr]
    simp only []
    apply forall_mem_update_enemies K L P hupd
    rcases spawn_enemy_cases K inp.rand g.frames_count g.game_world.enemies with hs | hs
    · rw [hs]
      exact h
    · rw [hs]
      intro e he
      rcases List.mem_append.mp he with h6 | h6
      · exact h e h6
      · rw [List.mem_singleton.mp h6]
        exact hcreate _ _
  · rw [if_neg hr]
    exact h

/-- A property of enemies that `create_enemy` establishes and that the assignment of
`DEAD` and the update of an enemy keep holds of every enemy at the end of a frame, when
it held of every enemy at its beginning. -/
theorem frame_enemies_forall (P : Enemy → Prop)
    (hcreate : ∀ rand n, P (create_enemy K rand n))
    (hkill : ∀ e, P e → P (kill e))
    (hupd : ∀ f dt p e bs, P e → P (update_enemy K L f dt p e bs).1)
    (inp : FrameInput) (g : Game) (h : ∀ e ∈ g.game_world.enemies, P e) :
    ∀ e ∈ (frame K L inp g).game_world.enemies, P e := by
  have h2 : ∀ e ∈ (reset_on_tap K inp.tap (decide (g.game_world.state = WorldState.GAME_OVER))
      (tick_counters g)).game_world.enemies, P e := by
    unfold reset_on_tap
    split
    · intro e he
      cases he
    · rw [tick_counters_world]
      exact h
  have h3 : ∀ e ∈ (player_stage K L inp g).game_world.enemies, P e := by
    simp only [player_stage, resolve_player_enemies, (teleport_collections inp _).1]
    intro e he
    obtain ⟨a, ha, hae⟩ := List.mem_map.mp he
    rw [← hae]
    unfold hit_enemy
    split
    · exact hkill a (h2 a ha)
    · exact h2 a ha
  have h4 : ∀ e ∈ (enemy_enemy_hits K L (player_stage K L inp g)).game_world.enemies, P e := by
    rw [(enemy_enemy_hits_eq K L _).1]
    exact forall_mem_foldl_kill P hkill _ _ h3
  have h5 : ∀ e ∈ (enemy_stage K L inp g).game_world.enemies, P e := by
    unfold enemy_stage
    exact forall_mem_spawn_and_update K L P hcreate hupd inp _ h4
  rw [(frame_collections K L inp g).1, remove_dead_eq]
  intro e he
  exact h5 e (List.mem_filter.mp he).1

/-- Such a property holds of every enemy in every reachable state. -/
theorem reachable_enemies_forall (P : Enemy → Prop)
    (hcreate : ∀ rand n, P (create_enemy K rand n))
    (hkill : ∀ e, P e → P (kill e))
    (hupd : ∀ f dt p e bs, P e → P (update_enemy K L f dt p e bs).1)
    (g : Game) (h : Reachable K L g) : ∀ e ∈ g.game_world.enemies, P e := by
  induction h with
  | init =>
    intro e he
    cases he
  | step inp g _ ih => exact frame_enemies_forall K L P hcreate hkill hupd inp g ih

theorem reachable_no_dead (g : Game) (h : Reachable K L g) :
    ∀ e ∈ g.game_world.enemies, e.state ≠ ActorState.DEAD := by
  cases h with
  | init =>
    intro e he
    cases he
  | step inp g' _ =>
    rw [(frame_collections K L inp g').1, remove_dead_eq]
    intro e he
    simpa using (List.mem_filter.mp he).2

/-- C16: at the end of every frame the enemy collection is the enemies that the frame
had after the update of the enemies and whose state is not `DEAD`, in their order; and
in every reachable state no enemy in the collection is `DEAD`. -/
theorem dead_enemies_removed (K : Config) (L : Lib) (g : Game) (h : Reachable K L g) :
    (∀ e ∈ g.game_world.enemies, e.state ≠ ActorState.DEAD) ∧
      (∀ (inp : FrameInput) (g' : Game),
        (frame K L inp g').game_world.enemies =
          (enemy_stage K L inp g').game_world.enemies.filter
            fun e => decide (e.state ≠ ActorState.DEAD)) := by
  refine ⟨reachable_no_dead K L g h, fun inp g' => ?_⟩
  rw [(frame_collections K L inp g').1, remove_dead_eq]

/-- C17: the spawn step of a `RUNNING` frame, with `n` enemies in the collection and the
frame counter `f`: when `n < MAX_ENEMIES` and `f` is a multiple of `FRAME_RATE * 5`, or
of `FRAME_RATE * 1` when `n = 0`, exactly the enemy `create_enemy(n)` is appended, and
otherwise the collection is as it was; the update that follows keeps the number of
enemies. In a frame whose world is `GAME_OVER` at that step nothing is appended.
(`FRAME_RATE` is positive: the test is a modulus by a multiple of it.) -/
theorem spawn_cadence (K : Config) (L : Lib) (rand : Nat → Nat) (f : Nat)
    (enemies : List Enemy) (_hF : 0 < K.FRAME_RATE) :
    (enemies.length < K.MAX_ENEMIES ∧
        K.FRAME_RATE * (if enemies.length = 0 then 1 else 5) ∣ f →
        spawn_enemy K rand f enemies =
          enemies ++ [create_enemy K rand enemies.length]) ∧
      (¬ (enemies.length < K.MAX_ENEMIES ∧
          K.FRAME_RATE * (if enemies.length = 0 then 1 else 5) ∣ f) →
        spawn_enemy K rand f enemies = enemies) ∧
      (∀ (inp : FrameInput) (g : Game), g.game_world.state = WorldState.RUNNING →
        (spawn_and_update K L inp g).game_world.enemies.length =
          (spawn_enemy K inp.rand g.frames_count g.game_world.enemies).length) ∧
      (∀ (inp : FrameInput) (g : Game), g.game_world.state = WorldState.GAME_OVER →
        spawn_and_update K L inp g = g) := by
  have hcond : (enemies.length < K.MAX_ENEMIES ∧
      f % (K.FRAME_RATE * (if enemies.length ≠ 0 then 5 else 1)) = 0) ↔
      (enemies.length < K.MAX_ENEMIES ∧
        K.FRAME_RATE * (if enemies.length = 0 then 1 else 5) ∣ f) := by
    rw [Nat.dvd_iff_mod_eq_zero]
    by_cases h0 : enemies.length = 0 <;> simp [h0]
  refine ⟨?_, ?_, ?_, ?_⟩
  · intro h
    unfold spawn_enemy
    simp only []
    rw [if_pos (hcond.mpr h)]
  · intro h
    unfold spawn_enemy
    simp only []
    rw [if_neg (fun hc => h (hcond.mp hc))]
  · intro inp g hr
    unfold spawn_and_update
    rw [if_pos hr]
    simp only []
    rw [update_enemies_length]
  · intro inp g hg
    unfold spawn_and_update
    rw [if_neg (by rw [hg]; decide)]

/-- C17 under `sample_config`: with one enemy in the collection the frame 300 appends the
enemy `create_enemy(1)`, and the frame 360 appends none. -/
theorem spawn_cadence_witness :
    spawn_enemy sample_config idle_input.rand 300 [destruct_homer] =
        [destruct_homer, create_enemy sample_config idle_input.rand 1] ∧
      spawn_enemy sample_config idle_input.rand 360 [destruct_homer] = [destruct_homer] := by
  have h := spawn_cadence sample_config raylib idle_input.rand 300 [destruct_homer]
    (by decide)
  have h' := spawn_cadence sample_config raylib idle_input.rand 360 [destruct_homer]
    (by decide)
  exact ⟨h.1 ⟨by decide, by decide⟩, h'.2.1 (fun hc => absurd hc.2 (by decide))⟩

end EnemyInvariants

/-! ## The fire rate -/

section FireRate

variable (K : Config) (L : Lib)

theorem toULL_ne_zero (i : Int) (h1 : 1 ≤ i) (h2 : i < 2 ^ 31) : toULL i ≠ 0 := by
  unfold toULL
  have h : i % 2 ^ 64 = i := Int.emod_eq_of_lt (by omega) (by omega)
  rw [h]
  omega

/-- The fire rate after the update of an enemy whose fire rate is at least
`BULLET_FIRE_RATE_MAX`: not higher, lower by at most 1, and still at least
`BULLET_FIRE_RATE_MAX`. -/
theorem update_enemy_fire_rate_bounds (f : Nat) (dt : ℚ) (p : Player) (e : Enemy)
    (bs : List Bullet) (h : K.BULLET_FIRE_RATE_MAX ≤ e.fire_rate) :
    e.fire_rate - 1 ≤ (update_enemy K L f dt p e bs).1.fire_rate ∧
      (update_enemy K L f dt p e bs).1.fire_rate ≤ e.fire_rate ∧
      K.BULLET_FIRE_RATE_MAX ≤ (update_enemy K L f dt p e bs).1.fire_rate := by
  rcases update_enemy_fire_rate K L f dt p e bs with h1 | ⟨_, h1⟩
  · rw [h1]
    omega
  · rw [h1]
    refine ⟨le_max_left _ _, max_le (by omega) h, le_max_right _ _⟩

/-- In every reachable state the fire rate of every enemy is between
`BULLET_FIRE_RATE_MAX` and `BULLET_FIRE_RATE_MIN`. -/
theorem reachable_fire_rate (h2 : K.BULLET_FIRE_RATE_MAX ≤ K.BULLET_FIRE_RATE_MIN)
    (g : Game) (h : Reachable K L g) :
    ∀ e ∈ g.game_world.enemies,
      K.BULLET_FIRE_RATE_MAX ≤ e.fire_rate ∧ e.fire_rate ≤ K.BULLET_FIRE_RATE_MIN := by
  apply reachable_enemies_forall K L
    (fun e => K.BULLET_FIRE_RATE_MAX ≤ e.fire_rate ∧ e.fire_rate ≤ K.BULLET_FIRE_RATE_MIN)
    _ _ _ g h
  · intro rand n
    exact ⟨h2, le_refl _⟩
  · intro e he
    exact he
  · intro f dt p e bs he
    obtain ⟨_, b2, b3⟩ := update_enemy_fire_rate_bounds K L f dt p e bs he.1
    exact ⟨b3, le_trans b2 he.2⟩

/-- C19: with `1 <= BULLET_FIRE_RATE_MAX <= BULLET_FIRE_RATE_MIN`, and
`BULLET_FIRE_RATE_MIN` an `int`, so below `2 ^ 31`: in every reachable state the fire
rate of every enemy is between `BULLET_FIRE_RATE_MAX` and `BULLET_FIRE_RATE_MIN`, and
is not 0 as the `unsigned long long` divisor of `frames_count % fire_rate`; the update
of an enemy with such a fire rate does not raise it and lowers it by at most 1, not
below `BULLET_FIRE_RATE_MAX`; the assignment of `DEAD` leaves it as it is; and the fire
rate of a new enemy is not 0 as such a divisor either. -/
theorem fire_rate_in_range (K : Config) (L : Lib) (g : Game)
    (h1 : 1 ≤ K.BULLET_FIRE_RATE_MAX)
    (h2 : K.BULLET_FIRE_RATE_MAX ≤ K.BULLET_FIRE_RATE_MIN)
    (h3 : K.BULLET_FIRE_RATE_MIN < 2 ^ 31) (h : Reachable K L g) :
    (∀ e ∈ g.game_world.enemies,
        K.BULLET_FIRE_RATE_MAX ≤ e.fire_rate ∧ e.fire_rate ≤ K.BULLET_FIRE_RATE_MIN ∧
          toULL e.fire_rate ≠ 0) ∧
      (∀ (f : Nat) (dt : ℚ) (p : Player) (e : Enemy) (bs : List Bullet),
        K.BULLET_FIRE_RATE_MAX ≤ e.fire_rate →
        e.fire_rate - 1 ≤ (update_enemy K L f dt p e bs).1.fire_rate ∧
          (update_enemy K L f dt p e bs).1.fire_rate ≤ e.fire_rate ∧
          K.BULLET_FIRE_RATE_MAX ≤ (update_enemy K L f dt p e bs).1.fire_rate) ∧
      (∀ e : Enemy, (kill e).fire_rate = e.fire_rate) ∧
      (∀ (rand : Nat → Nat) (n : Nat), toULL (create_enemy K rand n).fire_rate ≠ 0) := by
  refine ⟨?_, update_enemy_fire_rate_bounds K L, fun _ => rfl, ?_⟩
  · intro e he
    obtain ⟨b1, b2⟩ := reachable_fire_rate K L h2 g h e he
    exact ⟨b1, b2, toULL_ne_zero e.fire_rate (by omega) (by omega)⟩
  · intro rand n
    exact toULL_ne_zero K.BULLET_FIRE_RATE_MIN (by omega) h3

/-- C19 under `sample_config`, where the fire rate starts at 60 and is floored at 20:
the enemies of the state after the first frame are in that range, and the update of a
shooter in the frame 600, a frame of the ramp-up interval, leaves its fire rate between
59 and 60. -/
theorem fire_rate_in_range_witness :
    (frame sample_config raylib idle_input
        (initial_game sample_config)).game_world.enemies.all
          (fun e => decide (20 ≤ e.fire_rate ∧ e.fire_rate ≤ 60)) = true ∧
      60 - 1 ≤ (update_enemy sample_config raylib 600 (1 / 60) (sample_ticks 0).player
        (sample_enemy EnemyType.SHOOTER ActorState.LIVE 300 75) []).1.fire_rate ∧
      (update_enemy sample_config raylib 600 (1 / 60) (sample_ticks 0).player
        (sample_enemy EnemyType.SHOOTER ActorState.LIVE 300 75) []).1.fire_rate ≤ 60 := by
  have hr : Reachable sample_config raylib
      (frame sample_config raylib idle_input (initial_game sample_config)) :=
    Reachable.step idle_input (initial_game sample_config) Reachable.init
  have h := fire_rate_in_range sample_config raylib _ (by decide) (by decide) (by decide) hr
  have hu := h.2.1 600 (1 / 60) (sample_ticks 0).player
    (sample_enemy EnemyType.SHOOTER ActorState.LIVE 300 75) [] (by decide)
  refine ⟨?_, hu.1, hu.2.1⟩
  rw [List.all_eq_true]
  intro e he
  have := h.1 e he
  simp only [decide_eq_true_eq]
  exact ⟨this.1, this.2.1⟩

end FireRate

/-! ## The reload timer and the explosion of a homer -/

section ReloadTimer

variable (K : Config) (L : Lib)

/-- The timer tick of lines 122-135 on an enemy with a timer of 0 or more: the timer
goes down by the frame time, and when it is then 0 or less a `RELOADING` enemy is
`LIVE` and a `DESTRUCT` enemy is `DEAD`. -/
theorem tick_reload_timer_expired (dt : ℚ) (e : Enemy) (ht : 0 ≤ e.reload_timer)
    (hexp : e.reload_timer - dt ≤ 0) :
    (e.state = ActorState.RELOADING → (tick_reload_timer dt e).state = ActorState.LIVE) ∧
      (e.state = ActorState.DESTRUCT → (tick_reload_timer dt e).state = ActorState.DEAD) := by
  unfold tick_reload_timer
  rw [if_pos ht]
  simp only [hexp, if_true]
  constructor
  · intro h
    simp [h]
  · intro h
    simp [h]

/-- The timer tick on an enemy whose timer does not expire: only the timer changes. -/
theorem tick_reload_timer_running (dt : ℚ) (e : Enemy) (ht : 0 ≤ e.reload_timer)
    (hexp : ¬ e.reload_timer - dt ≤ 0) :
    tick_reload_timer dt e = { e with reload_timer := e.reload_timer - dt } := by
  unfold tick_reload_timer
  rw [if_pos ht]
  simp only [hexp, if_false]

/-- A homer in `DESTRUCT` whose timer expires while the player is within the trigger
distance: the tick sets `DEAD`, the enemy still goes through the `HOMING` case, and it
ends its update in `DESTRUCT` with a full timer. -/
theorem detonated_homer_rearms (f : Nat) (dt : ℚ) (p : Player) (e : Enemy)
    (bs : List Bullet) (hs : e.state = ActorState.DESTRUCT)
    (hty : e.type = EnemyType.HOMING) (ht : 0 ≤ e.reload_timer)
    (hexp : e.reload_timer - dt ≤ 0)
    (hnear : L.Vector2Distance e.position p.position ≤ K.HOMER_BLAST_TRIGGER_DISTANCE) :
    (tick_reload_timer dt e).state = ActorState.DEAD ∧
      (update_enemy K L f dt p e bs).1.state = ActorState.DESTRUCT ∧
      (update_enemy K L f dt p e bs).1.reload_timer = K.ENEMY_RELOAD_TIMER := by
  have hdead := (tick_reload_timer_expired dt e ht hexp).2 hs
  have htt := tick_reload_timer_type dt e
  have htp := tick_reload_timer_position dt e
  refine ⟨hdead, ?_⟩
  unfold update_enemy
  rw [if_neg (by rw [hs]; decide)]
  simp only [hdead]
  rw [if_neg (by decide)]
  simp only [htt, hty, update_homing, htp, hnear, if_true, trail_and_move, and_self]

/-- In `near_game` with an enemy in `DESTRUCT` at (300, 75) the player is in the blast
and loses one shield, and the box of the enemy does not meet the player. -/
theorem near_game_quiet (e : Enemy) (hp : e.position = { x := 300, y := 75 })
    (hs : e.state = ActorState.DESTRUCT) :
    shield_loss sample_config raylib (near_game e).game_world = 1 ∧
      ∀ x ∈ (near_game e).game_world.enemies,
        hits_player sample_config raylib (near_game e).game_world.player x = false := by
  constructor
  · simp [shield_loss, check_bullet_collisions, check_homer_blast_collisions, hits_player,
      near_game, raylib, raylibCheckCollisionCircles, raylibCheckCollisionCircleRec,
      enemy_rect, sample_config, List.countP_cons, hp, hs]
    norm_num
  · intro x hx
    simp only [near_game, List.mem_singleton] at hx
    subst hx
    simp [hits_player, near_game, raylib, raylibCheckCollisionCircleRec, enemy_rect,
      sample_config, hp]
    norm_num

/-- The update of `expiring_homer` in a frame a 60th of a second long, with the player
at the distance 35: it ends in `DESTRUCT` with the timer back at 3, and it has moved. -/
theorem update_expiring_homer (f : Nat) (s : Int) :
    (update_enemy sample_config raylib f idle_input.frame_time
      { position := { x := 335, y := 75 }, color := Color.RED, state := ActorState.LIVE,
        shield := s }
      expiring_homer []).1 =
      { expiring_homer with
        position := { x := 302, y := 75 }, reload_timer := 3,
        trail_pos := [{ x := 300, y := 75 }] } := by
  simp [update_enemy, tick_reload_timer, update_homing, trail_and_move, trail_update,
    get_homing_velocity, coordinate_angle, raylib, expiring_homer, destruct_homer,
    sample_enemy, sample_config, idle_input]
  norm_num
  rw [if_neg (by decide)]

/-- C18 fails on `near_game expiring_homer`: the homer is in `DESTRUCT` with the timer
at 1/100 and the frame time is 1/60, so the timer expires in this frame and the tick sets
`DEAD`; but at the end of the frame the enemy is in the collection, in `DESTRUCT` with
the timer back at 3. -/
theorem detonated_homer_survives :
    expiring_homer.state = ActorState.DESTRUCT ∧
      (tick_reload_timer (1 / 60) expiring_homer).state = ActorState.DEAD ∧
      (frame sample_config raylib idle_input (near_game expiring_homer)).game_world.enemies =
        [{ expiring_homer with
            position := { x := 302, y := 75 }, reload_timer := 3,
            trail_pos := [{ x := 300, y := 75 }] }] := by
  refine ⟨rfl, ?_, ?_⟩
  · exact (tick_reload_timer_expired (1 / 60) expiring_homer
      (by norm_num [expiring_homer]) (by norm_num [expiring_homer])).2 rfl
  · obtain ⟨hloss, hhit⟩ := near_game_quiet expiring_homer rfl rfl
    have h := (quiet_frame sample_config raylib idle_input (near_game expiring_homer) rfl rfl
      (by rw [hloss]; show (1 : Int) ≤ 3; decide) hhit
      (check_enemy_enemy_collisions_singleton raylib _)
      (by simp [spawn_enemy, near_game, sample_config])).1
    rw [h, hloss]
    simp only [update_enemies, near_game]
    rw [update_expiring_homer, remove_dead_eq]
    rfl

end ReloadTimer

/-! ## The trail that draw_enemies reads -/

section DrawTrail

variable (K : Config) (L : Lib)

/-- The first update of a dasher that is `LIVE`, at rest and without a trail, as
`create_enemy` makes it: it is `LIVE`, has the homing velocity towards the player, and
its trail holds one position. -/
theorem first_dash (f : Nat) (dt : ℚ) (p : Player) (e : Enemy) (bs : List Bullet)
    (hs : e.state = ActorState.LIVE) (hty : e.type = EnemyType.DASHER)
    (hv : e.velocity = { x := 0, y := 0 }) (htr : e.trail_pos = []) :
    (update_enemy K L f dt p e bs).1.state = ActorState.LIVE ∧
      (update_enemy K L f dt p e bs).1.velocity =
        get_homing_velocity L p.position e.position K.DASHER_VELOCITY ∧
      (update_enemy K L f dt p e bs).1.trail_pos = [e.position] := by
  obtain ⟨_, _, _, t4, t5⟩ := tick_reload_timer_shots dt e
  have tl := tick_reload_timer_live dt e hs
  have tp := tick_reload_timer_position dt e
  rw [update_enemy_live_dasher K L f dt p e bs hs hty]
  simp only [trail_and_move, update_dasher, t4, hv, and_self, if_true, tl, tp, t5, htr,
    trail_update]
  refine ⟨trivial, trivial, ?_⟩
  split <;> rfl

/-- In `spawn_game` the player is hit by nothing. -/
theorem spawn_game_quiet :
    shield_loss sample_config raylib_diagonal spawn_game.game_world = 0 ∧
      ∀ x ∈ spawn_game.game_world.enemies,
        hits_player sample_config raylib_diagonal spawn_game.game_world.player x = false := by
  constructor
  · simp [shield_loss, check_bullet_collisions, check_homer_blast_collisions, hits_player,
      spawn_game, reloading_shooter, sample_enemy, raylib_diagonal, raylib,
      raylibCheckCollisionCircles, raylibCheckCollisionCircleRec, enemy_rect, sample_config,
      List.countP_cons]
  · intro x hx
    simp only [spawn_game, List.mem_singleton] at hx
    subst hx
    simp [hits_player, spawn_game, reloading_shooter, sample_enemy, raylib_diagonal, raylib,
      raylibCheckCollisionCircleRec, enemy_rect, sample_config]
    norm_num

/-- The spawn step of the frame 300 of `spawn_game` appends `create_enemy(1)`. -/
theorem spawn_game_spawns :
    spawn_enemy sample_config spawn_input.rand 300 [reloading_shooter] =
      [reloading_shooter, create_enemy sample_config spawn_input.rand 1] := by
  simp [spawn_enemy, sample_config]

/-- The enemy `create_enemy(1)` of the frame 300 of `spawn_game`, after its update in
that frame. -/
theorem update_spawned_dasher (s : Int) (bs : List Bullet) :
    (update_enemy sample_config raylib_diagonal 300 spawn_input.frame_time
      { position := { x := 290, y := 370 }, color := Color.RED, state := ActorState.LIVE,
        shield := s }
      (create_enemy sample_config spawn_input.rand 1) bs).1 = dashing_dasher := by
  simp [update_enemy, tick_reload_timer, update_dasher, trail_and_move, trail_update,
    get_homing_velocity, coordinate_angle, raylib_diagonal, raylib, create_enemy,
    enemy_order, enemy_colors, GetRandomValue, sample_config, spawn_input, dashing_dasher]
  norm_num

/-- The timer tick of `reloading_shooter` after a 60th of a second. -/
theorem tick_reloading_shooter :
    tick_reload_timer spawn_input.frame_time reloading_shooter =
      { reloading_shooter with reload_timer := 59 / 60 } := by
  simp [tick_reload_timer, reloading_shooter, sample_enemy, spawn_input]
  norm_num

/-- C20 fails on `spawn_game`: in the frame 300 the second enemy, a dasher, spawns and
starts its first dash. At the end of the frame it is `LIVE` with the velocity
(24/5, 32/5), so `draw_enemies` draws its trail and reads `trail_pos[4]`, ...,
`trail_pos[0]`, while the trail holds one position. -/
theorem first_dash_trail_too_short :
    (frame sample_config raylib_diagonal spawn_input spawn_game).game_world.enemies =
        [{ reloading_shooter with reload_timer := 59 / 60 }, dashing_dasher] ∧
      draws_trail dashing_dasher = true ∧
      trail_reads sample_config = [4, 3, 2, 1, 0] ∧
      dashing_dasher.trail_pos.length = 1 := by
  refine ⟨?_, ?_, by decide, rfl⟩
  · obtain ⟨hloss, hhit⟩ := spawn_game_quiet
    have h := (calm_frame sample_config raylib_diagonal spawn_input spawn_game rfl rfl
      (by rw [hloss]; show (0 : Int) ≤ 3; decide) hhit
      (check_enemy_enemy_collisions_singleton raylib_diagonal _)).1
    rw [h, hloss]
    have hf : (spawn_game.frames_count + 1) % 2 ^ 64 = 300 := by decide
    rw [hf]
    simp only [spawn_game]
    rw [spawn_game_spawns]
    simp only [update_enemies]
    rw [update_enemy_reloading sample_config raylib_diagonal _ _ _ _ _ (by decide)
      (Or.inl (by rw [tick_reloading_shooter]; rfl)), tick_reloading_shooter,
      update_spawned_dasher, remove_dead_eq]
    rfl
  · simp [draws_trail, dashing_dasher]

end DrawTrail

/-! ## The player's collisions, in full -/

section CollisionClaim

variable (K : Config) (L : Lib)

/-- `check_bullet_collisions` is true exactly when the circle of some bullet meets the
circle of the player. -/
theorem check_bullet_collisions_iff (p : Player) (bs : List Bullet) :
    check_bullet_collisions K L p bs = true ↔
      ∃ bullet ∈ bs,
        L.CheckCollisionCircles p.position K.PLAYER_RADIUS bullet.position K.BULLET_RADIUS =
          true := by
  unfold check_bullet_collisions
  rw [List.any_eq_true]

/-- `check_homer_blast_collisions` is true exactly when the blast circle of some enemy in
`DESTRUCT` meets the circle of the player. -/
theorem check_homer_blast_collisions_iff (p : Player) (es : List Enemy) :
    check_homer_blast_collisions K L p es = true ↔
      ∃ e ∈ es, e.state = ActorState.DESTRUCT ∧
        L.CheckCollisionCircles p.position K.PLAYER_RADIUS e.position K.HOMER_BLAST_RADIUS =
          true := by
  unfold check_homer_blast_collisions
  rw [List.any_eq_true]
  constructor
  · rintro ⟨e, he, h⟩
    by_cases hs : e.state = ActorState.DESTRUCT
    · exact ⟨e, he, hs, by simpa [hs] using h⟩
    · simp [hs] at h
  · rintro ⟨e, he, hs, h⟩
    exact ⟨e, he, by simpa [hs] using h⟩

/-- The shield loss of the collisions, with the two checks spelled out as overlaps. -/
theorem shield_loss_eq (w : GameWorld) :
    shield_loss K L w =
      (if ∃ bullet ∈ w.bullets,
          L.CheckCollisionCircles w.player.position K.PLAYER_RADIUS bullet.position
            K.BULLET_RADIUS = true then 1 else 0) +
        (if ∃ e ∈ w.enemies, e.state = ActorState.DESTRUCT ∧
          L.CheckCollisionCircles w.player.position K.PLAYER_RADIUS e.position
            K.HOMER_BLAST_RADIUS = true then 1 else 0) +
        w.enemies.countP fun e =>
          L.CheckCollisionCircleRec w.player.position K.PLAYER_RADIUS (enemy_rect e) &&
            decide (e.state ≠ ActorState.RELOADING) := by
  unfold shield_loss
  simp only [check_bullet_collisions_iff, check_homer_blast_collisions_iff, hits_player]

/-- C13: the collision steps of lines 63-85 lower the shield by `b + h + n`: `b` is 1 when
the circle of at least one bullet meets the circle of the player and 0 otherwise, however
many bullets do; `h` is 1 when the blast circle of at least one enemy in `DESTRUCT` meets
the circle of the player and 0 otherwise; `n` is the number of enemies whose box meets
the circle of the player and whose state is not `RELOADING`. The enemies whose box meets
the player while `RELOADING` become `DEAD` and every other enemy is as before; the rest
of the world and of the player is as before. -/
theorem collisions_lower_shield (K : Config) (L : Lib) (w : GameWorld) :
    (player_enemy_hits K L (blast_hit K L (bullet_hit K L w))).player.shield =
        w.player.shield -
          (((if ∃ bullet ∈ w.bullets,
                L.CheckCollisionCircles w.player.position K.PLAYER_RADIUS bullet.position
                  K.BULLET_RADIUS = true then 1 else 0) +
            (if ∃ e ∈ w.enemies, e.state = ActorState.DESTRUCT ∧
                L.CheckCollisionCircles w.player.position K.PLAYER_RADIUS e.position
                  K.HOMER_BLAST_RADIUS = true then 1 else 0) +
            w.enemies.countP fun e =>
              L.CheckCollisionCircleRec w.player.position K.PLAYER_RADIUS (enemy_rect e) &&
                decide (e.state ≠ ActorState.RELOADING) : Nat) : Int) ∧
      (player_enemy_hits K L (blast_hit K L (bullet_hit K L w))).enemies =
        w.enemies.map (fun e =>
          if L.CheckCollisionCircleRec w.player.position K.PLAYER_RADIUS (enemy_rect e) = true ∧
              e.state = ActorState.RELOADING then
            { e with state := ActorState.DEAD }
          else e) ∧
      (player_enemy_hits K L (blast_hit K L (bullet_hit K L w))).player.state =
        w.player.state ∧
      (player_enemy_hits K L (blast_hit K L (bullet_hit K L w))).player.position =
        w.player.position ∧
      (player_enemy_hits K L (blast_hit K L (bullet_hit K L w))).bullets = w.bullets ∧
      (player_enemy_hits K L (blast_hit K L (bullet_hit K L w))).state = w.state := by
  rw [collisions_eq, shield_loss_eq]
  exact ⟨rfl, rfl, rfl, rfl, rfl, rfl⟩

/-- C13 on `crowded_world`: two bullets on the player cost one shield, the blast of the
`DESTRUCT` homer one, the live shooter on the player one, so the shield goes from 3 to 0;
the `RELOADING` dasher on the player dies, and no other enemy changes its state. -/
theorem collisions_lower_shield_witness :
    (player_enemy_hits sample_config raylib
        (blast_hit sample_config raylib
          (bullet_hit sample_config raylib crowded_world))).player.shield = 0 ∧
      ((player_enemy_hits sample_config raylib
        (blast_hit sample_config raylib
          (bullet_hit sample_config raylib crowded_world))).enemies.map fun e => e.state) =
        [ActorState.DESTRUCT, ActorState.LIVE, ActorState.DEAD, ActorState.LIVE] := by
  have h := collisions_lower_shield sample_config raylib crowded_world
  constructor
  · rw [h.1]
    simp [crowded_world, sample_enemy, raylib, raylibCheckCollisionCircles,
      raylibCheckCollisionCircleRec, enemy_rect, sample_config, List.countP_cons]
    norm_num
  · rw [h.2.1]
    simp [crowded_world, sample_enemy, raylib, raylibCheckCollisionCircleRec, enemy_rect,
      sample_config]
    norm_num

end CollisionClaim

/-! ## A played game: sixty idle frames, and the frame of an overlapping pair -/

section PlayedGame

variable (K : Config) (L : Lib)

theorem shield_loss_empty (w : GameWorld) (he : w.enemies = []) (hb : w.bullets = []) :
    shield_loss K L w = 0 := by
  simp [shield_loss, check_bullet_collisions, check_homer_blast_collisions, he, hb]

/-- A frame without a tap of a `RUNNING` world without enemies and bullets, in which no
enemy spawns: only the counters advance. -/
theorem frame_empty (inp : FrameInput) (g : Game)
    (hr : g.game_world.state = WorldState.RUNNING) (ht : inp.tap = false)
    (hs : 0 ≤ g.game_world.player.shield)
    (he : g.game_world.enemies = []) (hb : g.game_world.bullets = [])
    (hspawn : spawn_enemy K inp.rand ((g.frames_count + 1) % 2 ^ 64) [] = []) :
    frame K L inp g =
      { frames_count := (g.frames_count + 1) % 2 ^ 64, score := g.score + 1 / 5,
        game_world := g.game_world } := by
  obtain ⟨fc, sc, ⟨pl, es, bs, st⟩⟩ := g
  simp only at hr hs he hb hspawn
  subst he hb hr
  have hs' : ¬ pl.shield < 0 := not_lt.mpr hs
  have h64 : (2 : Nat) ^ 64 = 18446744073709551616 := by norm_num
  rw [h64] at hspawn
  simp [frame, enemy_stage, player_stage, tick_counters, reset_on_tap, ht, teleport,
    resolve_player, bullet_hit, blast_hit, player_enemy_hits, death_check, enemy_enemy_hits,
    spawn_and_update, check_bullet_collisions, check_homer_blast_collisions,
    check_enemy_collisions_nil, check_enemy_enemy_collisions_nil, hs', hspawn, update_enemies,
    remove_dead, update_bullets]

/-- The update of a `LIVE` shooter in a firing tick with room for a bullet adds one
bullet, at the position of the shooter. -/
theorem update_enemy_shooter_fires (f : Nat) (dt : ℚ) (p : Player) (e : Enemy)
    (bs : List Bullet) (hs : e.state = ActorState.LIVE) (hty : e.type = EnemyType.SHOOTER)
    (hf : fires f e = true) (hroom : bs.length < K.MAX_BULLETS) :
    ∃ b : Bullet, b.position = e.position ∧ (update_enemy K L f dt p e bs).2 = bs ++ [b] := by
  rw [update_enemy_live_shooter K L f dt p e bs hs hty]
  obtain ⟨u1, _⟩ := update_shooter_fires K L f p (tick_reload_timer dt e) bs
    (by rw [fires_tick_reload_timer]; exact hf) hroom
  exact ⟨_, by simp [create_bullet, tick_reload_timer_position], u1⟩

/-- The states after any number of frames from the initial one are reachable. -/
theorem reachable_iterate (inp : FrameInput) (n : Nat) :
    Reachable K L ((frame K L inp)^[n] (initial_game K)) := by
  induction n with
  | zero => exact Reachable.init
  | succ n ih =>
    rw [Function.iterate_succ_apply']
    exact Reachable.step inp _ ih

/-- The first 59 frames of `idle_state`: nothing spawns, only the counters advance. -/
theorem idle_state_eq (n : Nat) (hn : n ≤ 59) :
    ∃ s : ℚ, idle_state n =
      { frames_count := n, score := s, game_world := create_game_world sample_config } := by
  induction n with
  | zero => exact ⟨0, rfl⟩
  | succ n ih =>
    obtain ⟨s, hs⟩ := ih (by omega)
    refine ⟨s + 1 / 5, ?_⟩
    have hm : (n + 1) % 2 ^ 64 = n + 1 := Nat.mod_eq_of_lt (by
      have : (2 : Nat) ^ 64 = 18446744073709551616 := by norm_num
      omega)
    have step := frame_empty sample_config raylib idle_input
      ({ frames_count := n, score := s, game_world := create_game_world sample_config } : Game)
      rfl rfl (by show (0 : Int) ≤ 3; decide) rfl rfl
      (by
        show spawn_enemy sample_config idle_input.rand ((n + 1) % 2 ^ 64) [] = []
        rw [hm]
        have h60 : (n + 1) % 60 ≠ 0 := by omega
        simp [spawn_enemy, sample_config, h60])
    unfold idle_state at hs ⊢
    rw [Function.iterate_succ_apply', hs, step]
    dsimp only
    rw [hm]

/-- Under `sample_config` and `idle_input` the first enemy spawns inside `BULLET_BOUNDS`. -/
theorem idle_spawn_in_bounds :
    raylib.CheckCollisionPointRec (create_enemy sample_config idle_input.rand 0).position
      sample_config.BULLET_BOUNDS = true := by
  have h2 : Int.tdiv 800 2 = 400 := by decide
  simp [create_enemy, GetRandomValue, sample_config, raylib, raylibCheckCollisionPointRec,
    idle_input, h2]
  norm_num

/-- Frame 60 of `idle_state`: the first enemy spawns, stays and fires its first bullet. -/
theorem idle_state_sixty :
    ∃ (e : Enemy) (b : Bullet), e.state ≠ ActorState.DEAD ∧
      (idle_state 60).game_world.enemies = [e] ∧ (idle_state 60).game_world.bullets = [b] := by
  obtain ⟨s, hs⟩ := idle_state_eq 59 (le_refl _)
  have h60 : idle_state 60 = frame sample_config raylib idle_input (idle_state 59) := by
    show (frame sample_config raylib idle_input)^[59 + 1] (initial_game sample_config) = _
    rw [Function.iterate_succ_apply']
    rfl
  rw [h60, hs]
  have hm : (59 + 1) % 2 ^ 64 = 60 := by norm_num
  have hspawn : spawn_enemy sample_config idle_input.rand 60 [] =
      [create_enemy sample_config idle_input.rand 0] := by
    simp [spawn_enemy, sample_config]
  obtain ⟨he, hb, _⟩ := calm_frame sample_config raylib idle_input
    ({ frames_count := 59, score := s, game_world := create_game_world sample_config } : Game)
    rfl rfl
    (by
      rw [shield_loss_empty sample_config raylib _ rfl rfl]
      show (0 : Int) ≤ 3
      decide)
    (fun e h => absurd h (List.not_mem_nil e))
    (check_enemy_enemy_collisions_nil raylib)
  dsimp only at he hb
  rw [hm] at he hb
  have hes : (create_game_world sample_config).enemies = [] := rfl
  have hbs : (create_game_world sample_config).bullets = [] := rfl
  rw [hes, hbs, hspawn] at he hb
  have hlive : (create_enemy sample_config idle_input.rand 0).state = ActorState.LIVE := rfl
  have hfires : fires 60 (create_enemy sample_config idle_input.rand 0) = true := by
    simp [fires, create_enemy, sample_config, toULL]
  obtain ⟨b, hbp, hb2⟩ := update_enemy_shooter_fires sample_config raylib 60
    idle_input.frame_time
    { (create_game_world sample_config).player with
      shield := (create_game_world sample_config).player.shield -
        (shield_loss sample_config raylib (create_game_world sample_config) : Nat) }
    (create_enemy sample_config idle_input.rand 0) [] hlive
    (create_enemy_zero_type sample_config idle_input.rand) hfires (by decide)
  have hnd := update_enemy_live_not_dead sample_config raylib 60 idle_input.frame_time
    { (create_game_world sample_config).player with
      shield := (create_game_world sample_config).player.shield -
        (shield_loss sample_config raylib (create_game_world sample_config) : Nat) }
    (create_enemy sample_config idle_input.rand 0) [] hlive
  refine ⟨_, move_bullet b, hnd, ?_, ?_⟩
  · rw [he, remove_dead_eq]
    simp only [update_enemies]
    rw [List.filter_cons_of_pos (by simpa using hnd)]
    rfl
  · rw [hb, update_bullets_eq]
    simp only [update_enemies]
    rw [hb2, List.nil_append, List.filter_cons_of_pos (by rw [hbp]; exact idle_spawn_in_bounds)]
    rfl

/-- The stage of the player in a calm frame: the counters advance and the player pays
the shields that the collisions cost. -/
theorem player_stage_calm (inp : FrameInput) (g : Game)
    (hr : g.game_world.state = WorldState.RUNNING) (ht : inp.tap = false)
    (hs : (shield_loss K L g.game_world : Int) ≤ g.game_world.player.shield)
    (hhit : ∀ e ∈ g.game_world.enemies, hits_player K L g.game_world.player e = false) :
    player_stage K L inp g =
      { frames_count := (g.frames_count + 1) % 2 ^ 64, score := g.score + 1 / 5,
        game_world := { g.game_world with
          player := { g.game_world.player with
            shield := g.game_world.player.shield - (shield_loss K L g.game_world : Nat) } } } := by
  have h2 : teleport inp g.game_world = g.game_world := by
    unfold teleport
    rw [if_neg (by simp [ht])]
  have hres : resolve_player K L g.game_world =
      { g.game_world with
        player := { g.game_world.player with
          shield := g.game_world.player.shield - (shield_loss K L g.game_world : Nat) } } := by
    unfold resolve_player
    rw [collisions_eq, map_hit_enemy_of_no_hit K L _ _ hhit]
    unfold death_check
    rw [if_neg (by simp only [not_and, not_lt]; intro h; omega)]
  simp only [player_stage, tick_counters, hr, if_true, reset_on_tap, ht, Bool.false_and,
    Bool.false_eq_true, if_false, h2, hres]

/-- The update of the enemies passes over the `DEAD` ones. -/
theorem update_enemies_dead (f : Nat) (dt : ℚ) (p : Player) (es : List Enemy)
    (bs : List Bullet) (h : ∀ e ∈ es, e.state = ActorState.DEAD) :
    update_enemies K L f dt p es bs = (es, bs) := by
  induction es with
  | nil => rfl
  | cons e es ih =>
    have he : update_enemy K L f dt p e bs = (e, bs) := by
      unfold update_enemy
      rw [if_pos (h e (List.mem_cons_self _ _))]
    simp only [update_enemies, he]
    rw [ih fun x hx => h x (List.mem_cons_of_mem _ hx)]

/-- In `pair_game` the player is hit by nothing. -/
theorem pair_game_quiet :
    shield_loss sample_config raylib pair_game.game_world = 0 ∧
      ∀ x ∈ pair_game.game_world.enemies,
        hits_player sample_config raylib pair_game.game_world.player x = false := by
  constructor
  · simp [shield_loss, check_bullet_collisions, check_homer_blast_collisions, hits_player,
      pair_game, raylib, raylibCheckCollisionCircles, raylibCheckCollisionCircleRec,
      enemy_rect, sample_config, sample_enemy, List.countP_cons]
    norm_num
  · intro x hx
    simp only [pair_game, List.mem_cons, List.mem_singleton, List.not_mem_nil, or_false] at hx
    rcases hx with hx | hx <;> subst hx <;>
      simp [hits_player, pair_game, raylib, raylibCheckCollisionCircleRec, enemy_rect,
        sample_config, sample_enemy] <;> norm_num

/-- The frame 11 of `pair_game`, without a tap, up to the end of the update of the
enemies: the two enemies, whose boxes overlap, are both `DEAD` and still in the
collection. -/
theorem pair_game_enemy_stage :
    (enemy_stage sample_config raylib idle_input pair_game).game_world.enemies =
      [kill (sample_enemy EnemyType.SHOOTER ActorState.LIVE 100 100),
        kill (sample_enemy EnemyType.DASHER ActorState.LIVE 110 105)] := by
  obtain ⟨hloss, hhit⟩ := pair_game_quiet
  have hps := player_stage_calm sample_config raylib idle_input pair_game rfl rfl
    (by rw [hloss]; show (0 : Int) ≤ 3; decide) hhit
  have hes : (player_stage sample_config raylib idle_input pair_game).game_world.enemies =
      pair_game.game_world.enemies := by rw [hps]
  have hee := (enemy_enemy_hits_unique sample_config raylib
    (player_stage sample_config raylib idle_input pair_game) 0 1 (by decide)
    (by rw [hes]; exact pair_game_overlap)
    (fun i j hij h => pair_game_unique i j hij (by rw [← hes]; exact h))).1
  obtain ⟨_, hst, _, _, hfc⟩ := enemy_enemy_hits_frame sample_config raylib
    (player_stage sample_config raylib idle_input pair_game)
  have hst2 : (enemy_enemy_hits sample_config raylib
      (player_stage sample_config raylib idle_input pair_game)).game_world.state =
      WorldState.RUNNING := by rw [hst, hps]; rfl
  have hfc2 : (enemy_enemy_hits sample_config raylib
      (player_stage sample_config raylib idle_input pair_game)).frames_count = 11 := by
    rw [hfc, hps]; rfl
  have hee2 : (enemy_enemy_hits sample_config raylib
      (player_stage sample_config raylib idle_input pair_game)).game_world.enemies =
      [kill (sample_enemy EnemyType.SHOOTER ActorState.LIVE 100 100),
        kill (sample_enemy EnemyType.DASHER ActorState.LIVE 110 105)] := by
    rw [hee, hes]; rfl
  unfold enemy_stage spawn_and_update
  rw [if_pos hst2]
  simp only [hfc2, hee2]
  have hspawn : spawn_enemy sample_config idle_input.rand 11
      [kill (sample_enemy EnemyType.SHOOTER ActorState.LIVE 100 100),
        kill (sample_enemy EnemyType.DASHER ActorState.LIVE 110 105)] =
      [kill (sample_enemy EnemyType.SHOOTER ActorState.LIVE 100 100),
        kill (sample_enemy EnemyType.DASHER ActorState.LIVE 110 105)] := by
    simp [spawn_enemy, sample_config]
  rw [hspawn, update_enemies_dead]
  intro e he
  simp only [List.mem_cons, List.mem_singleton, List.not_mem_nil, or_false] at he
  rcases he with he | he <;> subst he <;> rfl

/-- C6 on the state after 60 frames under `sample_config`, which holds one enemy and one
bullet, and at full capacity: with four enemies the spawn step of frame 300 adds none,
and with fifty bullets the update of a shooter in its firing tick 60 adds none. -/
theorem collections_within_capacity_witness :
    (idle_state 60).game_world.enemies.length = 1 ∧
      (idle_state 60).game_world.bullets.length = 1 ∧
      (idle_state 60).game_world.enemies.length ≤ sample_config.MAX_ENEMIES ∧
      (idle_state 60).game_world.bullets.length ≤ sample_config.MAX_BULLETS ∧
      spawn_enemy sample_config idle_input.rand 300
          (List.replicate 4 (sample_enemy EnemyType.SHOOTER ActorState.LIVE 300 75)) =
        List.replicate 4 (sample_enemy EnemyType.SHOOTER ActorState.LIVE 300 75) ∧
      (update_enemy sample_config raylib 60 (1 / 60) (create_game_world sample_config).player
          (sample_enemy EnemyType.SHOOTER ActorState.LIVE 300 75)
          (List.replicate 50 edge_bullet)).2 = List.replicate 50 edge_bullet := by
  have h := collections_within_capacity sample_config raylib (idle_state 60)
    (reachable_iterate sample_config raylib idle_input 60)
  obtain ⟨e, b, _, he, hb⟩ := idle_state_sixty
  refine ⟨by rw [he]; rfl, by rw [hb]; rfl, h.1, h.2.1, h.2.2.1 _ _ _ ?_,
    h.2.2.2 _ _ _ _ _ ?_⟩
  · simp [sample_config]
  · simp [sample_config]

/-- C16 on the state after 60 frames under `sample_config`, whose one enemy is not
`DEAD`, and on the frame 11 of `pair_game`: after the update of the enemies its two
enemies are in the collection, both `DEAD`, and at the end of the frame the collection
is empty. -/
theorem dead_enemies_removed_witness :
    (idle_state 60).game_world.enemies.length = 1 ∧
      (idle_state 60).game_world.enemies.all
        (fun e => decide (e.state ≠ ActorState.DEAD)) = true ∧
      ((enemy_stage sample_config raylib idle_input pair_game).game_world.enemies.map
        fun e => e.state) = [ActorState.DEAD, ActorState.DEAD] ∧
      (frame sample_config raylib idle_input pair_game).game_world.enemies = [] := by
  have h := dead_enemies_removed sample_config raylib (idle_state 60)
    (reachable_iterate sample_config raylib idle_input 60)
  obtain ⟨e, b, _, he, _⟩ := idle_state_sixty
  refine ⟨by rw [he]; rfl, ?_, by rw [pair_game_enemy_stage]; rfl, ?_⟩
  · rw [List.all_eq_true]
    intro x hx
    simpa using h.1 x hx
  · rw [h.2 idle_input pair_game, pair_game_enemy_stage]
    rfl

end PlayedGame

end DodgeMachina
